import Mathlib

/-!
# Object-detection backend: detection records, access guard and relay

A shallow embedding of the Express/Mongoose backend
(`backend/models/Detection.js`, `backend/middleware/auth.js`,
`backend/routes/detection.js`, and the middleware chains of
`backend/routes/user.js` and `backend/routes/admin.js`).

Stateful code is explicit state passing over a `World` (the two collections and
the file store).  Every awaited operation that can reject (a save, a query, the
HTTP call to the AI service) takes its outcome from an environment record, so a
`try`/`catch` of the source is a `match` on that outcome; a save of a Detection
document is validated against the schema first.  Each run also returns
the list of observable events (middleware that ran, successful saves, calls to
the AI service) in the order they happened.
-/

set_option autoImplicit false

namespace ObjectDetection

/-! ## Values -/

/-- A JavaScript number as carried by a JSON payload. -/
abbrev JsNumber := ℚ

/-- A thrown JavaScript error: the code only ever inspects `name` and `message`. -/
structure JsError where
  name : String
  message : String
  deriving DecidableEq, Repr

/-! ## `models/Detection.js` -/

structure BoundingBox where
  x : JsNumber
  y : JsNumber
  width : JsNumber
  height : JsNumber
  deriving DecidableEq, Repr

structure Landmark where
  x : Option JsNumber
  y : Option JsNumber
  name : Option String
  deriving DecidableEq, Repr

structure Emotions where
  happy : JsNumber := 0
  sad : JsNumber := 0
  angry : JsNumber := 0
  surprised : JsNumber := 0
  neutral : JsNumber := 0
  fear : JsNumber := 0
  disgust : JsNumber := 0
  deriving DecidableEq, Repr

inductive Gender where
  | male
  | female
  | unknown
  deriving DecidableEq, Repr

/-- One entry of `results.faces`. -/
structure Face where
  boundingBox : BoundingBox
  confidence : JsNumber
  landmarks : List Landmark := []
  emotions : Emotions := {}
  age : Option JsNumber := none
  gender : Option Gender := none
  deriving DecidableEq, Repr

structure Keypoint where
  x : JsNumber
  y : JsNumber
  confidence : JsNumber
  name : Option String
  deriving DecidableEq, Repr

/-- The bounding box of a body part: none of its coordinates is required. -/
structure PartBox where
  x : Option JsNumber := none
  y : Option JsNumber := none
  width : Option JsNumber := none
  height : Option JsNumber := none
  deriving DecidableEq, Repr

/-- One entry of `results.bodyParts`. -/
structure BodyPart where
  name : String
  keypoints : List Keypoint := []
  boundingBox : PartBox := {}
  confidence : JsNumber
  deriving DecidableEq, Repr

/-- The `results` payload.  A list that is not set is `none` (the hook reads it
with `?.length || 0`); `totalDetections` defaults to `0`. -/
structure Results where
  faces : Option (List Face)
  bodyParts : Option (List BodyPart)
  processingTime : Option JsNumber
  totalDetections : JsNumber := 0
  deriving DecidableEq, Repr

inductive FileType where
  | image
  | video
  deriving DecidableEq, Repr

inductive Status where
  | processing
  | completed
  | failed
  deriving DecidableEq, Repr

/-- The enum of the schema path `detectionType`, also the list given to the
validator `isIn` of the upload route. -/
def detectionTypes : List String := ["face", "body", "both"]

/-- A Detection document. -/
structure Detection where
  _id : Nat
  user : Nat
  originalFileName : String
  filePath : String
  fileType : FileType
  mimeType : String
  fileSize : Nat
  detectionType : String
  results : Option Results := none
  status : Status := Status.processing
  errorMessage : Option String := none
  isPublic : Bool := false
  tags : List String := []
  createdAt : Option Nat := none
  updatedAt : Option Nat := none
  deriving DecidableEq, Repr

/-- The value of `xs?.length || 0`. -/
def lengthOrZero {α : Type} : Option (List α) → Nat
  | some xs => xs.length
  | none => 0

/-- The virtual `totalDetectionCount`. -/
def totalDetectionCount (r : Results) : Nat :=
  lengthOrZero r.faces + lengthOrZero r.bodyParts

/-- The hook `detectionSchema.pre('save')`: when `results` is set, overwrite
`results.totalDetections` with the number of faces plus the number of body
parts. -/
def preSave (d : Detection) : Detection :=
  match d.results with
  | some r =>
    { d with results := some { r with
        totalDetections := ((lengthOrZero r.faces + lengthOrZero r.bodyParts : Nat) : JsNumber) } }
  | none => d

/-! ## The stores -/

inductive Role where
  | user
  | admin
  deriving DecidableEq, Repr

/-- Modelled from the spec: `models/User.js` is not among the source files; the
attributes are those of the data model (name, unique email, hashed password,
role, active flag, denormalized detection counter). -/
structure User where
  _id : Nat
  name : String
  email : String
  password : Option String
  role : Role := Role.user
  isActive : Bool := true
  detectionCount : Int := 0
  createdAt : Nat := 0
  deriving DecidableEq, Repr

/-- The persistent state: both collections and the paths present in the upload
directory. -/
structure World where
  users : List User
  detections : List Detection
  files : List String
  deriving DecidableEq, Repr

/-- `Model.findById(id)` on the detections collection. -/
def findDetection (w : World) (id : Nat) : Option Detection :=
  w.detections.find? (fun d => d._id = id)

/-- `User.findById(id)`. -/
def findUser (w : World) (id : Nat) : Option User :=
  w.users.find? (fun u => u._id = id)

/-- Replace the first document carrying the identifier, or append the document
when the collection holds none with it. -/
def upsert (d : Detection) : List Detection → List Detection
  | [] => [d]
  | e :: es => if e._id = d._id then d :: es else e :: upsert d es

/-- The identifier given to a document built with `new Detection(...)`: one that
no stored document carries. -/
def freshId (ds : List Detection) : Nat :=
  (ds.map (fun d => d._id)).foldr max 0 + 1

/-- The events a run leaves behind, in order. -/
inductive Event where
  | authRan
  | adminAuthRan
  | uploadRan
  | handlerRan
  | aiCalled
  | saved (id : Nat) (status : Status)
  | unlinked (path : String)
  | recordRemoved (id : Nat)
  | recordsRemoved (user : Nat)
  | counterChanged (user : Nat) (by_ : Int)
  | userRemoved (id : Nat)
  | userSaved (id : Nat)
  deriving DecidableEq, Repr

/-- The option `timestamps: true`: `createdAt` is set once, `updatedAt` on every
save. -/
def stamp (now : Nat) (d : Detection) : Detection :=
  { d with
    createdAt := (match d.createdAt with
                  | some t => some t
                  | none => some now),
    updatedAt := some now }

/-- The document as a successful save writes it: timestamps set, then the
pre-save hook. -/
def written (now : Nat) (d : Detection) : Detection :=
  preSave (stamp now d)

/-- The validators of the schema that a document of this model can fail: the
path `results.processingTime` is `required` (it is a nested path, so it is
checked also when `results` was never set), and `detectionType` has the enum
`face`, `body`, `both`.  The other required paths are fields without a default
of `Detection`, `Face`, `Keypoint` and `BodyPart`.  The result lists the
messages of the failing paths. -/
def validationFailures (d : Detection) : List String :=
  (if d.detectionType ∈ detectionTypes then []
   else ["detectionType: `" ++ d.detectionType ++
     "` is not a valid enum value for path `detectionType`."]) ++
  (match d.results.bind (fun r => r.processingTime) with
   | some _ => []
   | none => ["results.processingTime: Path `results.processingTime` is required."])

/-- The error `validate()` rejects with for a list of failing paths. -/
def validationError (failures : List String) : JsError :=
  { name := "ValidationError",
    message := "Detection validation failed: " ++ ", ".intercalate failures }

/-- The method `detection.save()`.  The document is validated first, before the
pre-save hook: a failing path rejects the save and nothing is written.  `fault`
is any other rejection of this call (a validator the model does not spell out,
such as the range of a confidence, or a storage error).  Otherwise the
timestamps are set, the pre-save hook runs and the document is written under its
identifier; the in-memory document carries what was written. -/
def Detection.save (fault : Option JsError) (now : Nat) (w : World) (d : Detection) :
    Except JsError (Detection × World) :=
  match validationFailures d with
  | f :: fs => Except.error (validationError (f :: fs))
  | [] =>
    match fault with
    | some e => Except.error e
    | none =>
      Except.ok (written now d, { w with detections := upsert (written now d) w.detections })

/-- The update of `User.findByIdAndUpdate(id, { $inc: { detectionCount: n } })`:
the first user with the identifier gets `n` added to the counter. -/
def incDetectionCount (id : Nat) (n : Int) : List User → List User
  | [] => []
  | u :: us =>
    if u._id = id then { u with detectionCount := u.detectionCount + n } :: us
    else u :: incDetectionCount id n us

/-! ## JSON bodies -/

/-- A JSON value. -/
inductive Json where
  | null
  | bool (b : Bool)
  | num (n : JsNumber)
  | str (s : String)
  | arr (xs : List Json)
  | obj (kvs : List (String × Json))

/-- A JavaScript object with string keys: its own properties in insertion order,
no key twice. -/
abbrev JsObject := List (String × Json)

/-- Reading a property: `none` is `undefined`. -/
def JsObject.get (o : JsObject) (k : String) : Option Json :=
  match o with
  | [] => none
  | (k', v) :: rest => if k' = k then some v else JsObject.get rest k

/-- Writing a property: an existing key keeps its place and takes the new value,
a new key goes last. -/
def JsObject.set (o : JsObject) (k : String) (v : Json) : JsObject :=
  match o with
  | [] => [(k, v)]
  | (k', v') :: rest => if k' = k then (k', v) :: rest else (k', v') :: JsObject.set rest k v

/-- The spread `{ ...base, ...src }`: every own property of `src` is written onto
`base`, in order. -/
def JsObject.spread (base src : JsObject) : JsObject :=
  src.foldl (fun acc kv => JsObject.set acc kv.1 kv.2) base

/-- JavaScript truthiness of a property value (`none` is `undefined`). -/
def truthy : Option Json → Bool
  | none => false
  | some Json.null => false
  | some (Json.bool b) => b
  | some (Json.num n) => decide (n ≠ 0)
  | some (Json.str s) => decide (s ≠ "")
  | some (Json.arr _) => true
  | some (Json.obj _) => true

/-! ## Responses -/

/-- The fields `name email` that `.populate('user', 'name email')` puts in place
of the owner reference. -/
structure PopulatedUser where
  _id : Nat
  name : String
  email : String
  deriving DecidableEq, Repr

/-- The path `user` of a record in a response: the reference itself, or what
`populate` found for it (`none` when no user carries the identifier). -/
inductive UserRef where
  | id (user : Nat)
  | populated (user : Option PopulatedUser)
  deriving DecidableEq, Repr

/-- A Detection document as a read endpoint returns it; a path left out by
`select` is `none`. -/
structure DetectionView where
  _id : Nat
  user : UserRef
  originalFileName : String
  filePath : Option String
  fileType : FileType
  mimeType : String
  fileSize : Nat
  detectionType : String
  results : Option Results
  status : Status
  errorMessage : Option String
  isPublic : Bool
  tags : List String
  createdAt : Option Nat
  updatedAt : Option Nat
  deriving DecidableEq, Repr

/-- The projection `.select('-filePath')`. -/
def selectWithoutFilePath (d : Detection) : DetectionView :=
  { _id := d._id, user := UserRef.id d.user, originalFileName := d.originalFileName,
    filePath := none, fileType := d.fileType, mimeType := d.mimeType, fileSize := d.fileSize,
    detectionType := d.detectionType, results := d.results, status := d.status,
    errorMessage := d.errorMessage, isPublic := d.isPublic, tags := d.tags,
    createdAt := d.createdAt, updatedAt := d.updatedAt }

/-- The step `.populate('user', 'name email')` on a record owned by `owner`. -/
def populateUser (w : World) (owner : Nat) (v : DetectionView) : DetectionView :=
  let found : Option PopulatedUser :=
    (findUser w owner).map (fun u => { _id := u._id, name := u.name, email := u.email })
  { v with user := UserRef.populated found }

/-- The summary `pagination` of a list response. -/
structure Pagination where
  current : Int
  pages : Int
  total : Int
  limit : Int
  deriving DecidableEq, Repr

/-- The group of `User.aggregate` in `GET /admin/stats`. -/
structure UserStats where
  totalUsers : Nat := 0
  activeUsers : Nat := 0
  adminUsers : Nat := 0
  deriving DecidableEq, Repr

/-- The group of `Detection.aggregate` in `GET /admin/stats`. -/
structure SystemStats where
  totalDetections : Nat := 0
  completedDetections : Nat := 0
  failedDetections : Nat := 0
  processingDetections : Nat := 0
  deriving DecidableEq, Repr

/-- The group of `Detection.aggregate` in `GET /detection/stats/summary`. -/
structure SummaryStats where
  totalDetections : Nat := 0
  completedDetections : Nat := 0
  failedDetections : Nat := 0
  faceDetections : Nat := 0
  bodyDetections : Nat := 0
  totalFacesDetected : Nat := 0
  totalBodyPartsDetected : Nat := 0
  deriving DecidableEq, Repr

/-- The group of `Detection.aggregate` in `GET /user/dashboard`. -/
structure DashboardStats where
  totalDetections : Nat := 0
  completedDetections : Nat := 0
  failedDetections : Nat := 0
  faceDetections : Nat := 0
  bodyDetections : Nat := 0
  deriving DecidableEq, Repr

/-- A record under the projection
`originalFileName detectionType status results.totalDetections createdAt`. -/
structure DashboardView where
  _id : Nat
  originalFileName : String
  detectionType : String
  status : Status
  totalDetections : Option JsNumber
  createdAt : Option Nat
  deriving DecidableEq, Repr

/-- The body handed to `res.json`. -/
inductive Body where
  | message (message : String)
  | validation (message : String) (errors : List String)
  | uploadCompleted (message : String) (id : Nat) (originalFileName : String)
      (detectionType : String) (results : Option Results) (status : Status)
      (createdAt : Option Nat)
  | uploadFailed (message : String) (id : Nat) (status : Status) (errorMessage : Option String)
  | realtimeFailed (message : String) (error : String)
  | object (o : JsObject)
  | detectionList (detections : List DetectionView) (pagination : Pagination)
  | userList (users : List User) (pagination : Pagination)
  | detectionDetail (detection : DetectionView)
  | userUpdated (message : String) (user : User)
  | adminStats (users : UserStats) (detections : SystemStats)
      (recentActivity : List (String × Nat))
  | summary (stats : SummaryStats)
  | dashboard (recentDetections : List DashboardView) (stats : DashboardStats)
      (weeklyActivity : List (String × Nat))

structure Response where
  status : Nat
  body : Body

/-- What a run of a route leaves: the response sent, the stores afterwards and
the events in order. -/
structure Outcome where
  response : Response
  world : World
  trace : List Event

/-! ## `middleware/auth.js` -/

/-- The method `String.prototype.replace(pattern, replacement)` with a string
pattern: only the first occurrence is replaced. -/
def replaceFirst (pat rep : List Char) : List Char → List Char
  | [] => if pat.isPrefixOf [] then rep else []
  | c :: cs =>
    if pat.isPrefixOf (c :: cs) then rep ++ (c :: cs).drop pat.length
    else c :: replaceFirst pat rep cs

/-- The expression `req.header('Authorization')?.replace('Bearer ', '')`. -/
def extractToken (authorization : Option String) : Option String :=
  authorization.map (fun h => String.mk (replaceFirst "Bearer ".data [] h.data))

/-- The decoded payload of a verified token; `id` is the embedded identity. -/
structure JwtPayload where
  id : Option Nat
  deriving DecidableEq, Repr

/-- What the guard depends on besides the stores: `jwtVerify token` is the
outcome of `jwt.verify(token, process.env.JWT_SECRET)` (the library throws an
error named `JsonWebTokenError` for a malformed token or a bad signature and one
named `TokenExpiredError` for an expired token), `findById` the rejection of the
user query, if any. -/
structure AuthEnv where
  jwtVerify : String → Except JsError JwtPayload
  findById : Option JsError := none

inductive AuthResult where
  | respond (r : Response)
  | next (user : User)

/-- The `catch` block of the guard. -/
def authCatch (error : JsError) : Response :=
  if error.name = "JsonWebTokenError" then
    { status := 401, body := Body.message "Invalid token." }
  else if error.name = "TokenExpiredError" then
    { status := 401, body := Body.message "Token expired. Please login again." }
  else
    { status := 500, body := Body.message "Server error during authentication." }

/-- The projection `.select('-password')`. -/
def selectWithoutPassword (u : User) : User :=
  { u with password := none }

/-- The middleware `auth`: either a response was sent (and `next` not called), or
`next` was called with `req.user` set. -/
def auth (env : AuthEnv) (w : World) (authorization : Option String) : AuthResult :=
  match extractToken authorization with
  | none =>
    AuthResult.respond { status := 401, body := Body.message "Access denied. No token provided." }
  | some token =>
    if token = "" then
      AuthResult.respond { status := 401, body := Body.message "Access denied. No token provided." }
    else
      match env.jwtVerify token with
      | Except.error e => AuthResult.respond (authCatch e)
      | Except.ok decoded =>
        match env.findById with
        | some e => AuthResult.respond (authCatch e)
        | none =>
          match (decoded.id.bind (findUser w)).map selectWithoutPassword with
          | none =>
            AuthResult.respond { status := 401, body := Body.message "Invalid token. User not found." }
          | some user =>
            if user.isActive = false then
              AuthResult.respond
                { status := 401,
                  body := Body.message "Account is deactivated. Please contact administrator." }
            else AuthResult.next user

/-- Modelled from the spec: `middleware/adminAuth.js` is not among the source
files; it runs after the access guard and rejects with a forbidden-class error
when the attached user does not hold the elevated role. -/
def adminAuth (user : Option User) : Option Response :=
  match user with
  | some u =>
    if u.role = Role.admin then none
    else some { status := 403, body := Body.message "Access denied. Admin privileges required." }
  | none => some { status := 403, body := Body.message "Access denied. Admin privileges required." }

/-! ## Requests and middleware chains -/

/-- The value of `req.file` set by the upload middleware. -/
structure UploadedFile where
  originalname : String
  path : String
  mimetype : String
  size : Nat
  deriving DecidableEq, Repr

/-- An incoming request: the `Authorization` header, the text fields of a
multipart body, the parsed JSON body, the route parameters and the query
string. -/
structure Request where
  authorization : Option String := none
  fields : List (String × String) := []
  json : JsObject := []
  params : List (String × String) := []
  query : List (String × String) := []

/-- The request as the middleware of a chain see and extend it. -/
structure Ctx where
  request : Request
  user : Option User := none
  file : Option UploadedFile := none
  pending : Option JsError := none

/-- The stages a route of the three routers is made of. -/
inductive Middleware where
  | auth
  | adminAuth
  | uploadSingle
  | handleMulterError
  | validators
  | handler
  deriving DecidableEq, Repr

/-- What the chain depends on besides the stores.  `middleware/upload.js` is not
among the source files: `multer` is the outcome of `upload.single('file')` on
this request (an error passed on, or the stored file, if the body had one), and
`handleMulterError` the response of the error middleware that follows it. -/
structure ChainEnv where
  auth : AuthEnv
  multer : Except JsError (Option UploadedFile) := Except.ok none
  handleMulterError : JsError → Response :=
    fun e => { status := 400, body := Body.message e.message }

/-- Express running the stages of a route in order.  A stage that sends a
response ends the run; after `next(err)` only an error middleware runs. -/
def runChain (env : ChainEnv) (handler : Ctx → World → Outcome) :
    List Middleware → Ctx → World → Outcome
  | [], ctx, w =>
    { response := { status := if ctx.pending.isSome then 500 else 404, body := Body.message "" },
      world := w, trace := [] }
  | Middleware.auth :: rest, ctx, w =>
    if ctx.pending.isSome then runChain env handler rest ctx w
    else
      match auth env.auth w ctx.request.authorization with
      | AuthResult.respond r => { response := r, world := w, trace := [Event.authRan] }
      | AuthResult.next u =>
        let o := runChain env handler rest { ctx with user := some u } w
        { o with trace := Event.authRan :: o.trace }
  | Middleware.adminAuth :: rest, ctx, w =>
    if ctx.pending.isSome then runChain env handler rest ctx w
    else
      match adminAuth ctx.user with
      | some r => { response := r, world := w, trace := [Event.adminAuthRan] }
      | none =>
        let o := runChain env handler rest ctx w
        { o with trace := Event.adminAuthRan :: o.trace }
  | Middleware.uploadSingle :: rest, ctx, w =>
    if ctx.pending.isSome then runChain env handler rest ctx w
    else
      match env.multer with
      | Except.error e =>
        let o := runChain env handler rest { ctx with pending := some e } w
        { o with trace := Event.uploadRan :: o.trace }
      | Except.ok none =>
        let o := runChain env handler rest ctx w
        { o with trace := Event.uploadRan :: o.trace }
      | Except.ok (some f) =>
        let o := runChain env handler rest { ctx with file := some f }
          { w with files := f.path :: w.files }
        { o with trace := Event.uploadRan :: o.trace }
  | Middleware.handleMulterError :: rest, ctx, w =>
    match ctx.pending with
    | some e => { response := env.handleMulterError e, world := w, trace := [] }
    | none => runChain env handler rest ctx w
  | Middleware.validators :: rest, ctx, w => runChain env handler rest ctx w
  | Middleware.handler :: rest, ctx, w =>
    if ctx.pending.isSome then runChain env handler rest ctx w
    else
      let o := handler ctx w
      { o with trace := Event.handlerRan :: o.trace }

/-- The routes of `routes/detection.js`, `routes/user.js` and `routes/admin.js`. -/
inductive Endpoint where
  | detectionUpload
  | detectionRealtimeTest
  | detectionRealtime
  | detectionHistory
  | detectionGet
  | detectionDelete
  | detectionStatsSummary
  | userGetProfile
  | userPutProfile
  | userChangePassword
  | userDashboard
  | userDeleteAccount
  | adminGetUsers
  | adminGetUser
  | adminPutUser
  | adminDeleteUser
  | adminGetDetections
  | adminGetDetection
  | adminDeleteDetection
  | adminStats
  deriving DecidableEq, Repr

/-- The stages of each route, as registered: the arguments of `router.<method>`,
after the `router.use(...)` lines of its router. -/
def routeChain : Endpoint → List Middleware
  | Endpoint.detectionUpload =>
    [Middleware.auth, Middleware.uploadSingle, Middleware.handleMulterError,
     Middleware.validators, Middleware.handler]
  | Endpoint.detectionRealtimeTest => [Middleware.handler]
  | Endpoint.detectionRealtime => [Middleware.auth, Middleware.handler]
  | Endpoint.detectionHistory => [Middleware.auth, Middleware.handler]
  | Endpoint.detectionGet => [Middleware.auth, Middleware.handler]
  | Endpoint.detectionDelete => [Middleware.auth, Middleware.handler]
  | Endpoint.detectionStatsSummary => [Middleware.auth, Middleware.handler]
  | Endpoint.userGetProfile => [Middleware.auth, Middleware.handler]
  | Endpoint.userPutProfile => [Middleware.auth, Middleware.validators, Middleware.handler]
  | Endpoint.userChangePassword => [Middleware.auth, Middleware.validators, Middleware.handler]
  | Endpoint.userDashboard => [Middleware.auth, Middleware.handler]
  | Endpoint.userDeleteAccount => [Middleware.auth, Middleware.validators, Middleware.handler]
  | Endpoint.adminGetUsers => [Middleware.auth, Middleware.adminAuth, Middleware.handler]
  | Endpoint.adminGetUser => [Middleware.auth, Middleware.adminAuth, Middleware.handler]
  | Endpoint.adminPutUser => [Middleware.auth, Middleware.adminAuth, Middleware.handler]
  | Endpoint.adminDeleteUser => [Middleware.auth, Middleware.adminAuth, Middleware.handler]
  | Endpoint.adminGetDetections => [Middleware.auth, Middleware.adminAuth, Middleware.handler]
  | Endpoint.adminGetDetection => [Middleware.auth, Middleware.adminAuth, Middleware.handler]
  | Endpoint.adminDeleteDetection => [Middleware.auth, Middleware.adminAuth, Middleware.handler]
  | Endpoint.adminStats => [Middleware.auth, Middleware.adminAuth, Middleware.handler]

/-- A request to a route: Express runs the stages of the route, the last of them
the body `handler` of the route. -/
def runRoute (env : ChainEnv) (e : Endpoint) (handler : Ctx → World → Outcome)
    (req : Request) (w : World) : Outcome :=
  runChain env handler (routeChain e) { request := req } w

/-! ## `routes/detection.js`: the upload path -/

/-- The body of a successful response of the AI service on `/api/detect`. -/
structure DetectResponse where
  results : Option Results

/-- The outcomes of the awaited operations of one upload, in program order:
the first `detection.save()`, the building of the form (`fs.readFileSync`,
`new Blob`, `FormData`), `axios.post` to the AI service,
the save of the completed record, `User.findByIdAndUpdate`, and the save in the
`catch (aiError)` block.  `none` means the operation did not throw; for a save
it means that nothing but the validation of `Detection.save` can reject it. -/
structure UploadEnv where
  now : Nat
  saveCreated : Option JsError := none
  readFile : Option JsError := none
  aiService : Except JsError DetectResponse
  saveCompleted : Option JsError := none
  incCount : Option JsError := none
  saveFailed : Option JsError := none

/-- The result of `validationResult(req)` for the chain
`body('detectionType').isIn(['face', 'body', 'both'])`. -/
def uploadValidationErrors (req : Request) : List String :=
  match req.fields.lookup "detectionType" with
  | some v => if v ∈ detectionTypes then [] else ["Detection type must be face, body, or both"]
  | none => ["Detection type must be face, body, or both"]

/-- The test `req.file.mimetype.startsWith('image/') ? 'image' : 'video'`. -/
def classifyFileType (mimetype : String) : FileType :=
  if "image/".data.isPrefixOf mimetype.data then FileType.image else FileType.video

/-- The response of the outer `catch` of the upload handler. -/
def uploadServerError : Response :=
  { status := 500, body := Body.message "Server error during upload" }

/-- The assignments `detection.results = aiResponse.data.results` and
`detection.status = 'completed'`. -/
def markCompleted (detection : Detection) (results : Option Results) : Detection :=
  { detection with results := results, status := Status.completed }

/-- The assignments `detection.status = 'failed'` and
`detection.errorMessage = aiError.message || 'AI processing failed'`. -/
def markFailed (detection : Detection) (aiError : JsError) : Detection :=
  { detection with
    status := Status.failed,
    errorMessage := some (if aiError.message = "" then "AI processing failed"
                          else aiError.message) }

/-- The block `catch (aiError)`: the in-memory record is marked failed with the
message of the error and saved; a rejection of that save reaches the outer
`catch`. -/
def uploadCatch (env : UploadEnv) (aiError : JsError) (detection : Detection) (w : World)
    (trace : List Event) : Outcome :=
  match Detection.save env.saveFailed env.now w (markFailed detection aiError) with
  | Except.error _ => { response := uploadServerError, world := w, trace := trace }
  | Except.ok (saved, w') =>
    { response :=
        { status := 500,
          body := Body.uploadFailed "AI processing failed" saved._id saved.status
            saved.errorMessage },
      world := w',
      trace := trace ++ [Event.saved saved._id saved.status] }

/-- The inner `try` of the upload handler, entered with the record just created;
every operation that throws hands control to `uploadCatch` with the record and
the stores as they are at that point. -/
def uploadTry (env : UploadEnv) (user : User) (detection : Detection) (w : World)
    (trace : List Event) : Outcome :=
  match env.readFile with
  | some e => uploadCatch env e detection w trace
  | none =>
    match env.aiService with
    | Except.error e => uploadCatch env e detection w (trace ++ [Event.aiCalled])
    | Except.ok aiResponse =>
      let completed := markCompleted detection aiResponse.results
      match Detection.save env.saveCompleted env.now w completed with
      | Except.error e => uploadCatch env e completed w (trace ++ [Event.aiCalled])
      | Except.ok (saved, w') =>
        let trace' := trace ++ [Event.aiCalled, Event.saved saved._id saved.status]
        match env.incCount with
        | some e => uploadCatch env e saved w' trace'
        | none =>
          { response :=
              { status := 200,
                body := Body.uploadCompleted "Detection completed successfully" saved._id
                  saved.originalFileName saved.detectionType saved.results saved.status
                  saved.createdAt },
            world := { w' with users := incDetectionCount user._id 1 w'.users },
            trace := trace' }

/-- The document built by `new Detection({ ... })` in the upload handler. -/
def newDetection (w : World) (user : User) (file : UploadedFile) (detectionType : String) :
    Detection :=
  { _id := freshId w.detections,
    user := user._id,
    originalFileName := file.originalname,
    filePath := file.path,
    fileType := classifyFileType file.mimetype,
    mimeType := file.mimetype,
    fileSize := file.size,
    detectionType := detectionType,
    status := Status.processing }

/-- The body of `POST /api/detection/upload`. -/
def uploadHandler (env : UploadEnv) (ctx : Ctx) (w : World) : Outcome :=
  match uploadValidationErrors ctx.request with
  | e :: es =>
    { response := { status := 400, body := Body.validation "Validation failed" (e :: es) },
      world := w, trace := [] }
  | [] =>
    match ctx.file with
    | none =>
      { response := { status := 400, body := Body.message "No file uploaded" },
        world := w, trace := [] }
    | some file =>
      match ctx.user, ctx.request.fields.lookup "detectionType" with
      | some user, some detectionType =>
        let detection := newDetection w user file detectionType
        match Detection.save env.saveCreated env.now w detection with
        | Except.error _ => { response := uploadServerError, world := w, trace := [] }
        | Except.ok (created, w') =>
          uploadTry env user created w' [Event.saved created._id created.status]
      | _, _ => { response := uploadServerError, world := w, trace := [] }

/-- A request to `POST /api/detection/upload`, through the whole chain. -/
def uploadRoute (cenv : ChainEnv) (env : UploadEnv) (req : Request) (w : World) : Outcome :=
  runRoute cenv Endpoint.detectionUpload (uploadHandler env) req w

/-! ## `routes/detection.js`: the realtime path -/

/-- The outcomes one realtime request depends on: the clock read by
`new Date().toISOString()` and the `axios.post` to the AI service, whose success
carries the response body. -/
structure RealtimeEnv where
  now : String
  aiService : Except JsError JsObject

/-- The object literal passed to `res.json` on success: the three tags, `results`
when the body has one, then the spread of the body. -/
def realtimeBody (now : String) (data : JsObject) : JsObject :=
  let base : JsObject :=
    [("message", Json.str "BACKEND PROCESSED - Realtime detection completed"),
     ("backend_processed", Json.bool true),
     ("backend_timestamp", Json.str now)]
  let withResults : JsObject :=
    match data.get "results" with
    | some r => base ++ [("results", r)]
    | none => base
  JsObject.spread withResults data

/-- The body of `POST /api/detection/realtime`. -/
def realtimeHandler (env : RealtimeEnv) (ctx : Ctx) (w : World) : Outcome :=
  let imageData := ctx.request.json.get "imageData"
  let detectionType := ctx.request.json.get "detectionType"
  if truthy imageData = false ∨ truthy detectionType = false then
    { response :=
        { status := 400, body := Body.message "Image data and detection type are required" },
      world := w, trace := [] }
  else
    match imageData with
    | some (Json.str _) =>
      match env.aiService with
      | Except.ok data =>
        { response := { status := 200, body := Body.object (realtimeBody env.now data) },
          world := w, trace := [Event.aiCalled] }
      | Except.error error =>
        { response :=
            { status := 500, body := Body.realtimeFailed "Realtime detection failed" error.message },
          world := w, trace := [Event.aiCalled] }
    | _ =>
      { response :=
          { status := 500,
            body := Body.realtimeFailed "Realtime detection failed"
              "imageData.substring is not a function" },
        world := w, trace := [] }

/-- A request to `POST /api/detection/realtime`, through the whole chain. -/
def realtimeRoute (cenv : ChainEnv) (env : RealtimeEnv) (req : Request) (w : World) : Outcome :=
  runRoute cenv Endpoint.detectionRealtime (realtimeHandler env) req w

/-! ## Query strings and route parameters -/

/-- White space and line terminators, which `parseInt` skips at the start. -/
def isJsWhitespace (c : Char) : Bool :=
  c.toNat = 0x09 || c.toNat = 0x0A || c.toNat = 0x0B || c.toNat = 0x0C || c.toNat = 0x0D ||
  c.toNat = 0x20 || c.toNat = 0xA0 || c.toNat = 0x1680 ||
  (0x2000 ≤ c.toNat && c.toNat ≤ 0x200A) ||
  c.toNat = 0x2028 || c.toNat = 0x2029 || c.toNat = 0x202F || c.toNat = 0x205F ||
  c.toNat = 0x3000 || c.toNat = 0xFEFF

/-- The value of a character as a digit in a radix up to 36. -/
def digitValue (c : Char) : Option Nat :=
  if 48 ≤ c.toNat ∧ c.toNat ≤ 57 then some (c.toNat - 48)
  else if 97 ≤ c.toNat ∧ c.toNat ≤ 122 then some (c.toNat - 97 + 10)
  else if 65 ≤ c.toNat ∧ c.toNat ≤ 90 then some (c.toNat - 65 + 10)
  else none

/-- The longest run of digits of the radix at the start of the text. -/
def takeDigits (radix : Nat) : List Char → List Nat
  | [] => []
  | c :: cs =>
    match digitValue c with
    | some d => if d < radix then d :: takeDigits radix cs else []
    | none => []

/-- The sign of a numeral and the text after it. -/
def splitSign : List Char → Int × List Char
  | '-' :: rest => (-1, rest)
  | '+' :: rest => (1, rest)
  | cs => (1, cs)

/-- The radix of a numeral (16 after `0x` or `0X`, else 10) and its digits. -/
def splitRadix : List Char → Nat × List Char
  | '0' :: 'x' :: rest => (16, rest)
  | '0' :: 'X' :: rest => (16, rest)
  | cs => (10, cs)

/-- The function `parseInt` on a query value; `none` is `NaN`, which is also the
result for a parameter that is absent. -/
def parseInt (value : Option String) : Option Int :=
  match value with
  | none => none
  | some text =>
    let signed := splitSign (text.data.dropWhile isJsWhitespace)
    let numeral := splitRadix signed.2
    match takeDigits numeral.1 numeral.2 with
    | [] => none
    | d :: ds => some (signed.1 * ((d :: ds).foldl (fun acc x => acc * numeral.1 + x) 0 : Nat))

/-- The expression `parseInt(value) || fallback`: `NaN` and `0` are falsy. -/
def parseIntOr (value : Option String) (fallback : Int) : Int :=
  match parseInt value with
  | some n => if n = 0 then fallback else n
  | none => fallback

/-- The cast of a route or query parameter to an identifier.  Identifiers are
natural numbers, written in decimal; any other text makes the query throw a
`CastError`. -/
def castObjectId (text : String) : Option Nat :=
  if text.data ≠ [] ∧ text.data.all (fun c => decide (48 ≤ c.toNat ∧ c.toNat ≤ 57)) then
    some (text.data.foldl (fun acc c => acc * 10 + (c.toNat - 48)) 0)
  else none

/-- The text a query compares with the path `status`. -/
def Status.text : Status → String
  | Status.processing => "processing"
  | Status.completed => "completed"
  | Status.failed => "failed"

/-- The text a query compares with the path `fileType`. -/
def FileType.text : FileType → String
  | FileType.image => "image"
  | FileType.video => "video"

/-- The text a query compares with the path `role`. -/
def Role.text : Role → String
  | Role.user => "user"
  | Role.admin => "admin"

/-- An optional filter `if (req.query.x) filter.x = req.query.x`: an absent or
empty value filters nothing. -/
def optionalFilter (value : Option String) (actual : String) : Bool :=
  match value with
  | none => true
  | some v => if v = "" then true else decide (actual = v)

/-! ## The stores as the query routes use them -/

/-- The outcomes of the awaited operations of one request to a query route.
Each fault is the error the operation throws, if any: `find` the first query of
the handler, `count` its `countDocuments`, `findOwned` the query for the records
of an account, `unlink` the first `fs.unlinkSync` of a file that exists,
`removeRecords` the `findByIdAndDelete` or `deleteMany` on the detections,
`updateCount` the `User.findByIdAndUpdate`, `removeUser` the
`User.findByIdAndDelete` and `saveUser` the `user.save()`.
`models/User.js` is not among the source files: `comparePassword` is the outcome
of `user.comparePassword(candidate)`, `castString` the cast of a value assigned
to a String path (`none` when the save rejects it), `regexMatches` the test
of `{ $regex: pattern, $options: 'i' }` on a text and `hashPassword` what the
save stores for a new password.  Further faults: `findEmail` the
`User.findOne({ email })`, `aggregate` the statistics aggregate on the
detections; `activity` is the outcome of the aggregate that groups the recent
records by calendar day.  The validators of `express-validator` are a library:
`validatorText` is the text they take for a body value that is not a string,
`isEmail` and `normalizeEmail` the validator and sanitizer of those names. -/
structure StoreEnv where
  find : Option JsError := none
  count : Option JsError := none
  findOwned : Option JsError := none
  unlink : Option JsError := none
  removeRecords : Option JsError := none
  updateCount : Option JsError := none
  removeUser : Option JsError := none
  saveUser : Option JsError := none
  comparePassword : Json → User → Except JsError Bool := fun _ _ => Except.ok false
  castString : Json → Option String := fun v =>
    match v with
    | Json.str text => some text
    | _ => none
  regexMatches : String → String → Bool := fun _ _ => true
  hashPassword : String → String := fun text => text
  findEmail : Option JsError := none
  aggregate : Option JsError := none
  activity : Except JsError (List (String × Nat)) := Except.ok []
  validatorText : Json → String := fun _ => ""
  isEmail : String → Bool := fun _ => true
  normalizeEmail : String → String := fun text => text

/-- The step `.sort({ createdAt: -1 })` on detections. -/
def newestFirst (ds : List Detection) : List Detection :=
  ds.insertionSort (fun a b => b.createdAt.getD 0 ≤ a.createdAt.getD 0)

/-- The step `.sort({ createdAt: -1 })` on users. -/
def newestUsersFirst (us : List User) : List User :=
  us.insertionSort (fun a b => b.createdAt ≤ a.createdAt)

/-- The steps `.skip(skip).limit(limit)` of a query.  The server rejects a
negative skip; the driver sends a negative limit as its absolute value, and a
limit of 0 is no limit. -/
def skipLimit {α : Type} (skip limit : Int) (docs : List α) : Except JsError (List α) :=
  if skip < 0 then
    Except.error { name := "MongoServerError", message := "Skip value must be non-negative" }
  else if limit = 0 then Except.ok (docs.drop skip.toNat)
  else Except.ok ((docs.drop skip.toNat).take limit.natAbs)

/-- The summary `{ current: page, pages: Math.ceil(total / limit), total, limit }`. -/
def pagination (page limit : Int) (total : Nat) : Pagination :=
  { current := page, pages := ⌈((total : Int) : ℚ) / (limit : ℚ)⌉, total := total, limit := limit }

/-- The method `Model.findByIdAndDelete(id)` on the detections. -/
def removeDetection (id : Nat) (ds : List Detection) : List Detection :=
  ds.filter (fun d => decide (d._id ≠ id))

/-- The method `Detection.deleteMany({ user })`. -/
def removeDetectionsOf (user : Nat) (ds : List Detection) : List Detection :=
  ds.filter (fun d => decide (d.user ≠ user))

/-- The method `User.findByIdAndDelete(id)`. -/
def removeUser (id : Nat) (us : List User) : List User :=
  us.filter (fun u => decide (u._id ≠ id))

/-- The statement `if (fs.existsSync(path)) fs.unlinkSync(path)` on the file
store. -/
def unlinkIfExists (path : String) (files : List String) : List String :=
  files.filter (fun f => decide (f ≠ path))

/-- A generic answer of a `catch` block. -/
def serverError (message : String) : Response :=
  { status := 500, body := Body.message message }

/-- The answer of a not-found branch. -/
def notFound (message : String) : Response :=
  { status := 404, body := Body.message message }

/-- The answer of a validation branch. -/
def badRequest (message : String) : Response :=
  { status := 400, body := Body.message message }

/-! ## `routes/detection.js`: history, detail and delete -/

/-- The filter of `GET /history`: the records of the requester, narrowed by the
optional `status`, `detectionType` and `fileType`. -/
def historyFilter (user : Nat) (req : Request) (d : Detection) : Bool :=
  decide (d.user = user) &&
  optionalFilter (req.query.lookup "status") d.status.text &&
  optionalFilter (req.query.lookup "detectionType") d.detectionType &&
  optionalFilter (req.query.lookup "fileType") d.fileType.text

/-- The body of `GET /api/detection/history`. -/
def historyHandler (env : StoreEnv) (ctx : Ctx) (w : World) : Outcome :=
  match ctx.user with
  | none => { response := serverError "Server error retrieving history", world := w, trace := [] }
  | some user =>
    let page := parseIntOr (ctx.request.query.lookup "page") 1
    let limit := parseIntOr (ctx.request.query.lookup "limit") 10
    let skip := (page - 1) * limit
    let found := w.detections.filter (historyFilter user._id ctx.request)
    match env.find, skipLimit skip limit (newestFirst found), env.count with
    | none, Except.ok docs, none =>
      { response :=
          { status := 200,
            body := Body.detectionList (docs.map selectWithoutFilePath)
              (pagination page limit found.length) },
        world := w, trace := [] }
    | _, _, _ =>
      { response := serverError "Server error retrieving history", world := w, trace := [] }

/-- The query `Detection.findOne({ _id: req.params.id, user: req.user._id })`. -/
def findOwnDetection (w : World) (id user : Nat) : Option Detection :=
  w.detections.find? (fun d => decide (d._id = id ∧ d.user = user))

/-- The body of `GET /api/detection/:id`. -/
def detectionGetHandler (env : StoreEnv) (ctx : Ctx) (w : World) : Outcome :=
  match ctx.user, (ctx.request.params.lookup "id").bind castObjectId, env.find with
  | some user, some id, none =>
    match findOwnDetection w id user._id with
    | none => { response := notFound "Detection not found", world := w, trace := [] }
    | some detection =>
      { response :=
          { status := 200, body := Body.detectionDetail (selectWithoutFilePath detection) },
        world := w, trace := [] }
  | _, _, _ =>
    { response := serverError "Server error retrieving detection", world := w, trace := [] }

/-- The steps of both delete handlers after the record was found: remove the
file if it exists, remove the record, add -1 to the counter of `counted`; an
operation that throws leaves what was done before it and is answered 500. -/
def deleteFound (env : StoreEnv) (id counted : Nat) (detection : Detection) (w : World) :
    Outcome :=
  let fails : Response := serverError "Server error deleting detection"
  let hadFile := decide (detection.filePath ∈ w.files)
  match hadFile, env.unlink with
  | true, some _ => { response := fails, world := w, trace := [] }
  | _, _ =>
    let w1 : World := { w with files := unlinkIfExists detection.filePath w.files }
    let t1 : List Event := if hadFile then [Event.unlinked detection.filePath] else []
    match env.removeRecords with
    | some _ => { response := fails, world := w1, trace := t1 }
    | none =>
      let w2 : World := { w1 with detections := removeDetection id w1.detections }
      let t2 := t1 ++ [Event.recordRemoved id]
      match env.updateCount with
      | some _ => { response := fails, world := w2, trace := t2 }
      | none =>
        { response := { status := 200, body := Body.message "Detection deleted successfully" },
          world := { w2 with users := incDetectionCount counted (-1) w2.users },
          trace := t2 ++ [Event.counterChanged counted (-1)] }

/-- The body of `DELETE /api/detection/:id`. -/
def detectionDeleteHandler (env : StoreEnv) (ctx : Ctx) (w : World) : Outcome :=
  match ctx.user, (ctx.request.params.lookup "id").bind castObjectId, env.find with
  | some user, some id, none =>
    match findOwnDetection w id user._id with
    | none => { response := notFound "Detection not found", world := w, trace := [] }
    | some detection => deleteFound env id user._id detection w
  | _, _, _ =>
    { response := serverError "Server error deleting detection", world := w, trace := [] }

/-! ## `routes/admin.js` -/

/-- The filter of `GET /admin/users`: the optional `search` on name or email,
the optional `role`, and `isActive` compared with the text `true` when the
parameter is present. -/
def adminUsersFilter (env : StoreEnv) (req : Request) (u : User) : Bool :=
  (match req.query.lookup "search" with
   | none => true
   | some text =>
     if text = "" then true else env.regexMatches text u.name || env.regexMatches text u.email) &&
  optionalFilter (req.query.lookup "role") u.role.text &&
  (match req.query.lookup "isActive" with
   | none => true
   | some text => decide (u.isActive = decide (text = "true")))

/-- The body of `GET /api/admin/users`. -/
def adminUsersHandler (env : StoreEnv) (ctx : Ctx) (w : World) : Outcome :=
  let page := parseIntOr (ctx.request.query.lookup "page") 1
  let limit := parseIntOr (ctx.request.query.lookup "limit") 10
  let skip := (page - 1) * limit
  let found := w.users.filter (adminUsersFilter env ctx.request)
  match env.find, skipLimit skip limit (newestUsersFirst found), env.count with
  | none, Except.ok docs, none =>
    { response :=
        { status := 200,
          body := Body.userList (docs.map selectWithoutPassword)
            (pagination page limit found.length) },
      world := w, trace := [] }
  | _, _, _ =>
    { response := serverError "Server error retrieving users", world := w, trace := [] }

/-- The optional filter `if (req.query.userId) filter.user = req.query.userId`;
`none` when the value cannot be cast to an identifier. -/
def ownerFilter (value : Option String) : Option (Nat → Bool) :=
  match value with
  | none => some (fun _ => true)
  | some text =>
    if text = "" then some (fun _ => true)
    else (castObjectId text).map (fun id => fun owner => decide (owner = id))

/-- The body of `GET /api/admin/detections`. -/
def adminDetectionsHandler (env : StoreEnv) (ctx : Ctx) (w : World) : Outcome :=
  let page := parseIntOr (ctx.request.query.lookup "page") 1
  let limit := parseIntOr (ctx.request.query.lookup "limit") 10
  let skip := (page - 1) * limit
  match ownerFilter (ctx.request.query.lookup "userId") with
  | none =>
    { response := serverError "Server error retrieving detections", world := w, trace := [] }
  | some owned =>
    let found := w.detections.filter (fun d =>
      optionalFilter (ctx.request.query.lookup "status") d.status.text &&
      optionalFilter (ctx.request.query.lookup "detectionType") d.detectionType &&
      owned d.user)
    match env.find, skipLimit skip limit (newestFirst found), env.count with
    | none, Except.ok docs, none =>
      { response :=
          { status := 200,
            body := Body.detectionList
              (docs.map (fun d => populateUser w d.user (selectWithoutFilePath d)))
              (pagination page limit found.length) },
        world := w, trace := [] }
    | _, _, _ =>
      { response := serverError "Server error retrieving detections", world := w, trace := [] }

/-- The body of `GET /api/admin/detections/:id`. -/
def adminDetectionGetHandler (env : StoreEnv) (ctx : Ctx) (w : World) : Outcome :=
  match (ctx.request.params.lookup "id").bind castObjectId, env.find with
  | some id, none =>
    match findDetection w id with
    | none => { response := notFound "Detection not found", world := w, trace := [] }
    | some detection =>
      { response :=
          { status := 200,
            body := Body.detectionDetail
              (populateUser w detection.user (selectWithoutFilePath detection)) },
        world := w, trace := [] }
  | _, _ =>
    { response := serverError "Server error retrieving detection", world := w, trace := [] }

/-- The body of `DELETE /api/admin/detections/:id`. -/
def adminDetectionDeleteHandler (env : StoreEnv) (ctx : Ctx) (w : World) : Outcome :=
  match (ctx.request.params.lookup "id").bind castObjectId, env.find with
  | some id, none =>
    match findDetection w id with
    | none => { response := notFound "Detection not found", world := w, trace := [] }
    | some detection => deleteFound env id detection.user detection w
  | _, _ =>
    { response := serverError "Server error deleting detection", world := w, trace := [] }

/-- The cast of a value assigned to a Boolean path: `true`, `'true'`, `1`, `'1'`,
`'yes'` become true and `false`, `'false'`, `0`, `'0'`, `'no'` become false;
`null` is kept as it is, which every reader of the flag takes as not set, and is
stored here as false; any other value is a cast error (`none`). -/
def castBoolean : Json → Option Bool
  | Json.bool b => some b
  | Json.str text =>
    if text = "true" ∨ text = "1" ∨ text = "yes" then some true
    else if text = "false" ∨ text = "0" ∨ text = "no" then some false
    else none
  | Json.num n => if n = 1 then some true else if n = 0 then some false else none
  | Json.null => some false
  | _ => none

/-- The cast and enum check of a value assigned to the path `role`. -/
def castRole (env : StoreEnv) (v : Json) : Option Role :=
  match env.castString v with
  | some text =>
    if text = "user" then some Role.user else if text = "admin" then some Role.admin else none
  | none => none

/-- The assignments `if (name) user.name = name`, `if (email) user.email = email`,
`if (role) user.role = role` and `if (isActive !== undefined) user.isActive =
isActive` of `PUT /admin/users/:id`; `none` when a value is not accepted by its
path, which makes the save that follows throw. -/
def applyAdminUpdate (env : StoreEnv) (body : JsObject) (user : User) : Option User :=
  let name : Option String :=
    if truthy (body.get "name") then (body.get "name").bind env.castString else some user.name
  let email : Option String :=
    if truthy (body.get "email") then (body.get "email").bind env.castString else some user.email
  let role : Option Role :=
    if truthy (body.get "role") then (body.get "role").bind (castRole env) else some user.role
  let isActive : Option Bool :=
    match body.get "isActive" with
    | some v => castBoolean v
    | none => some user.isActive
  match name, email, role, isActive with
  | some n, some e, some r, some a => some { user with name := n, email := e, role := r, isActive := a }
  | _, _, _, _ => none

/-- The write of `user.save()`: the stored user with the identifier is replaced. -/
def replaceUser (user : User) (us : List User) : List User :=
  us.map (fun u => if u._id = user._id then user else u)

/-- The body of `PUT /api/admin/users/:id`. -/
def adminPutUserHandler (env : StoreEnv) (ctx : Ctx) (w : World) : Outcome :=
  let fails : Response := serverError "Server error updating user"
  match (ctx.request.params.lookup "id").bind castObjectId, env.find with
  | some id, none =>
    match findUser w id with
    | none => { response := notFound "User not found", world := w, trace := [] }
    | some user =>
      match ctx.user with
      | none => { response := fails, world := w, trace := [] }
      | some requester =>
        match decide (requester._id = user._id), ctx.request.json.get "isActive" with
        | true, some (Json.bool false) =>
          { response := badRequest "You cannot deactivate your own account", world := w,
            trace := [] }
        | _, _ =>
          match applyAdminUpdate env ctx.request.json user, env.saveUser with
          | some updated, none =>
            { response :=
                { status := 200,
                  body := Body.userUpdated "User updated successfully"
                    (selectWithoutPassword updated) },
              world := { w with users := replaceUser updated w.users },
              trace := [Event.userSaved updated._id] }
          | _, _ => { response := fails, world := w, trace := [] }
  | _, _ => { response := fails, world := w, trace := [] }

/-- The body of `DELETE /api/admin/users/:id`. -/
def adminDeleteUserHandler (env : StoreEnv) (ctx : Ctx) (w : World) : Outcome :=
  let fails : Response := serverError "Server error deleting user"
  match (ctx.request.params.lookup "id").bind castObjectId, env.find with
  | some id, none =>
    match findUser w id with
    | none => { response := notFound "User not found", world := w, trace := [] }
    | some user =>
      match ctx.user with
      | none => { response := fails, world := w, trace := [] }
      | some requester =>
        if requester._id = user._id then
          { response := badRequest "You cannot delete your own account", world := w, trace := [] }
        else
          match env.removeRecords with
          | some _ => { response := fails, world := w, trace := [] }
          | none =>
            let w1 : World := { w with detections := removeDetectionsOf user._id w.detections }
            match env.removeUser with
            | some _ => { response := fails, world := w1, trace := [Event.recordsRemoved user._id] }
            | none =>
              { response := { status := 200, body := Body.message "User deleted successfully" },
                world := { w1 with users := removeUser id w1.users },
                trace := [Event.recordsRemoved user._id, Event.userRemoved id] }
  | _, _ => { response := fails, world := w, trace := [] }

/-! ## `routes/user.js`: account deletion -/

/-- The loop `for (const detection of detections)` that removes the files that
exist. -/
def unlinkAll (owned : List Detection) (files : List String) : List String :=
  owned.foldl (fun fs d => unlinkIfExists d.filePath fs) files

/-- The `fs.unlinkSync` calls of that loop, in order: one for each record whose
file still exists when its turn comes. -/
def unlinkTrace : List Detection → List String → List Event
  | [], _ => []
  | d :: ds, files =>
    if d.filePath ∈ files then
      Event.unlinked d.filePath :: unlinkTrace ds (unlinkIfExists d.filePath files)
    else unlinkTrace ds files

/-- The body of `DELETE /api/user/account`. -/
def userDeleteAccountHandler (env : StoreEnv) (ctx : Ctx) (w : World) : Outcome :=
  let fails : Response := serverError "Server error deleting account"
  match ctx.request.json.get "password" with
  | none =>
    { response :=
        { status := 400,
          body := Body.validation "Validation failed" ["Password is required for account deletion"] },
      world := w, trace := [] }
  | some password =>
    match ctx.user, env.find with
    | some requester, none =>
      match findUser w requester._id with
      | none => { response := notFound "User not found", world := w, trace := [] }
      | some user =>
        match env.comparePassword password user with
        | Except.error _ => { response := fails, world := w, trace := [] }
        | Except.ok false =>
          { response := badRequest "Incorrect password", world := w, trace := [] }
        | Except.ok true =>
          match env.findOwned with
          | some _ => { response := fails, world := w, trace := [] }
          | none =>
            let owned := w.detections.filter (fun d => decide (d.user = user._id))
            let existing := owned.filter (fun d => decide (d.filePath ∈ w.files))
            match existing, env.unlink with
            | _ :: _, some _ => { response := fails, world := w, trace := [] }
            | _, _ =>
              let w1 : World := { w with files := unlinkAll owned w.files }
              let t1 := unlinkTrace owned w.files
              match env.removeRecords with
              | some _ => { response := fails, world := w1, trace := t1 }
              | none =>
                let w2 : World :=
                  { w1 with detections := removeDetectionsOf user._id w1.detections }
                let t2 := t1 ++ [Event.recordsRemoved user._id]
                match env.removeUser with
                | some _ => { response := fails, world := w2, trace := t2 }
                | none =>
                  { response :=
                      { status := 200, body := Body.message "Account deleted successfully" },
                    world := { w2 with users := removeUser user._id w2.users },
                    trace := t2 ++ [Event.userRemoved user._id] }
    | _, _ => { response := fails, world := w, trace := [] }

/-! ## Statistics -/

/-- The stage `$group` with `_id: null`: one group when a document reaches it,
none otherwise. -/
def groupAll {α σ : Type} (docs : List α) (summarize : List α → σ) : Option σ :=
  match docs with
  | [] => none
  | _ :: _ => some (summarize docs)

/-- The accumulators of the detection statistics of `GET /admin/stats`. -/
def systemStatsOf (ds : List Detection) : SystemStats :=
  { totalDetections := ds.length,
    completedDetections := ds.countP (fun d => decide (d.status = Status.completed)),
    failedDetections := ds.countP (fun d => decide (d.status = Status.failed)),
    processingDetections := ds.countP (fun d => decide (d.status = Status.processing)) }

/-- The accumulators of the user statistics of `GET /admin/stats`. -/
def userStatsOf (us : List User) : UserStats :=
  { totalUsers := us.length,
    activeUsers := us.countP (fun u => u.isActive),
    adminUsers := us.countP (fun u => decide (u.role = Role.admin)) }

/-- The accumulators of `GET /detection/stats/summary`. -/
def summaryStatsOf (ds : List Detection) : SummaryStats :=
  { totalDetections := ds.length,
    completedDetections := ds.countP (fun d => decide (d.status = Status.completed)),
    failedDetections := ds.countP (fun d => decide (d.status = Status.failed)),
    faceDetections := ds.countP (fun d => decide (d.detectionType ∈ ["face", "both"])),
    bodyDetections := ds.countP (fun d => decide (d.detectionType ∈ ["body", "both"])),
    totalFacesDetected :=
      (ds.map (fun d => lengthOrZero (d.results.bind (fun r => r.faces)))).sum,
    totalBodyPartsDetected :=
      (ds.map (fun d => lengthOrZero (d.results.bind (fun r => r.bodyParts)))).sum }

/-- The accumulators of `GET /user/dashboard`. -/
def dashboardStatsOf (ds : List Detection) : DashboardStats :=
  { totalDetections := ds.length,
    completedDetections := ds.countP (fun d => decide (d.status = Status.completed)),
    failedDetections := ds.countP (fun d => decide (d.status = Status.failed)),
    faceDetections := ds.countP (fun d => decide (d.detectionType ∈ ["face", "both"])),
    bodyDetections := ds.countP (fun d => decide (d.detectionType ∈ ["body", "both"])) }

/-- The body of `GET /api/admin/stats`. -/
def adminStatsHandler (env : StoreEnv) (_ctx : Ctx) (w : World) : Outcome :=
  match env.find, env.aggregate, env.activity with
  | none, none, Except.ok recentActivity =>
    { response :=
        { status := 200,
          body := Body.adminStats ((groupAll w.users userStatsOf).getD {})
            ((groupAll w.detections systemStatsOf).getD {}) recentActivity },
      world := w, trace := [] }
  | _, _, _ =>
    { response := serverError "Server error retrieving statistics", world := w, trace := [] }

/-- The body of `GET /api/detection/stats/summary`. -/
def statsSummaryHandler (env : StoreEnv) (ctx : Ctx) (w : World) : Outcome :=
  match ctx.user, env.aggregate with
  | some user, none =>
    { response :=
        { status := 200,
          body := Body.summary
            ((groupAll (w.detections.filter (fun d => decide (d.user = user._id)))
              summaryStatsOf).getD {}) },
      world := w, trace := [] }
  | _, _ =>
    { response := serverError "Server error retrieving statistics", world := w, trace := [] }

/-- The projection of the recent detections of the dashboard. -/
def dashboardView (d : Detection) : DashboardView :=
  { _id := d._id, originalFileName := d.originalFileName, detectionType := d.detectionType,
    status := d.status, totalDetections := d.results.map (fun r => r.totalDetections),
    createdAt := d.createdAt }

/-- The body of `GET /api/user/dashboard`. -/
def dashboardHandler (env : StoreEnv) (ctx : Ctx) (w : World) : Outcome :=
  match ctx.user, env.find, env.aggregate, env.activity with
  | some user, none, none, Except.ok weeklyActivity =>
    let owned := w.detections.filter (fun d => decide (d.user = user._id))
    { response :=
        { status := 200,
          body := Body.dashboard (((newestFirst owned).take 5).map dashboardView)
            ((groupAll owned dashboardStatsOf).getD {}) weeklyActivity },
      world := w, trace := [] }
  | _, _, _, _ =>
    { response := serverError "Server error retrieving dashboard data", world := w, trace := [] }

/-! ## `routes/user.js`: profile and password -/

/-- The sanitizer `trim()`. -/
def trimText (text : String) : String :=
  String.mk ((text.data.dropWhile isJsWhitespace).reverse.dropWhile isJsWhitespace).reverse

/-- The text a validator chain works on for a body value. -/
def bodyText (env : StoreEnv) (v : Json) : String :=
  match v with
  | Json.str text => text
  | other => env.validatorText other

/-- The value of `req.body.name` after the chain `optional().trim()`. -/
def profileName (env : StoreEnv) (req : Request) : Option String :=
  (req.json.get "name").map (fun v => trimText (bodyText env v))

/-- The value of `req.body.email` after the chain
`optional().isEmail().normalizeEmail()`. -/
def profileEmail (env : StoreEnv) (req : Request) : Option String :=
  (req.json.get "email").map (fun v => env.normalizeEmail (bodyText env v))

/-- The result of `validationResult(req)` for the chains of `PUT /profile`. -/
def profileValidationErrors (env : StoreEnv) (req : Request) : List String :=
  (match profileName env req with
   | some name =>
     if 2 ≤ name.length ∧ name.length ≤ 50 then []
     else ["Name must be between 2 and 50 characters"]
   | none => []) ++
  (match req.json.get "email" with
   | some v => if env.isEmail (bodyText env v) then [] else ["Please enter a valid email"]
   | none => [])

/-- The query `User.findOne({ email })`. -/
def findUserByEmail (w : World) (email : String) : Option User :=
  w.users.find? (fun u => decide (u.email = email))

/-- The body of `PUT /api/user/profile`. -/
def putProfileHandler (env : StoreEnv) (ctx : Ctx) (w : World) : Outcome :=
  let fails : Response := serverError "Server error updating profile"
  match profileValidationErrors env ctx.request with
  | e :: es =>
    { response := { status := 400, body := Body.validation "Validation failed" (e :: es) },
      world := w, trace := [] }
  | [] =>
    match ctx.user, env.find with
    | some requester, none =>
      match findUser w requester._id with
      | none => { response := notFound "User not found", world := w, trace := [] }
      | some user =>
        let email := (profileEmail env ctx.request).getD ""
        let name := (profileName env ctx.request).getD ""
        let named : User := if name = "" then user else { user with name := name }
        let finish (updated : User) : Outcome :=
          match env.saveUser with
          | some _ => { response := fails, world := w, trace := [] }
          | none =>
            { response :=
                { status := 200,
                  body := Body.userUpdated "Profile updated successfully"
                    (selectWithoutPassword updated) },
              world := { w with users := replaceUser updated w.users },
              trace := [Event.userSaved updated._id] }
        if email ≠ "" ∧ email ≠ user.email then
          match env.findEmail with
          | some _ => { response := fails, world := w, trace := [] }
          | none =>
            match findUserByEmail w email with
            | some _ => { response := badRequest "Email already in use", world := w, trace := [] }
            | none => finish { named with email := email }
        else finish named
    | _, _ => { response := fails, world := w, trace := [] }

/-- The characters the `.` of a regular expression does not match. -/
def isLineTerminator (c : Char) : Bool :=
  c.toNat = 0x0A || c.toNat = 0x0D || c.toNat = 0x2028 || c.toNat = 0x2029

/-- The test of `/^(?=.*[a-z])(?=.*[A-Z])(?=.*\d)/`: each lookahead asks for a
character of its class after any number of characters that are not line
terminators, from the start of the text. -/
def matchesPasswordPattern (text : String) : Bool :=
  let line := text.data.takeWhile (fun c => !isLineTerminator c)
  line.any (fun c => decide (97 ≤ c.toNat ∧ c.toNat ≤ 122)) &&
  line.any (fun c => decide (65 ≤ c.toNat ∧ c.toNat ≤ 90)) &&
  line.any (fun c => decide (48 ≤ c.toNat ∧ c.toNat ≤ 57))

/-- The text the chain of `newPassword` works on; an absent value is the empty
text. -/
def newPasswordText (env : StoreEnv) (req : Request) : String :=
  match req.json.get "newPassword" with
  | some v => bodyText env v
  | none => ""

/-- The errors of the chain `body('newPassword').isLength({ min: 6 }).matches(...)`. -/
def newPasswordErrors (text : String) : List String :=
  (if 6 ≤ text.length then [] else ["New password must be at least 6 characters long"]) ++
  (if matchesPasswordPattern text then []
   else ["New password must contain at least one uppercase letter, one lowercase letter, and one number"])

/-- The result of `validationResult(req)` for the chains of `PUT /change-password`. -/
def changePasswordErrors (env : StoreEnv) (req : Request) : List String :=
  (match req.json.get "currentPassword" with
   | some _ => []
   | none => ["Current password is required"]) ++
  newPasswordErrors (newPasswordText env req)

/-- The write of a new password: the stored user with the identifier gets the
hash. -/
def storePassword (id : Nat) (hash : String) (us : List User) : List User :=
  us.map (fun u => if u._id = id then { u with password := some hash } else u)

/-- The body of `PUT /api/user/change-password`. -/
def changePasswordHandler (env : StoreEnv) (ctx : Ctx) (w : World) : Outcome :=
  let fails : Response := serverError "Server error changing password"
  match changePasswordErrors env ctx.request with
  | e :: es =>
    { response := { status := 400, body := Body.validation "Validation failed" (e :: es) },
      world := w, trace := [] }
  | [] =>
    match ctx.user, env.find, ctx.request.json.get "currentPassword",
      ctx.request.json.get "newPassword" with
    | some requester, none, some currentPassword, some newPassword =>
      match findUser w requester._id with
      | none => { response := notFound "User not found", world := w, trace := [] }
      | some user =>
        match env.comparePassword currentPassword user with
        | Except.error _ => { response := fails, world := w, trace := [] }
        | Except.ok false =>
          { response := badRequest "Current password is incorrect", world := w, trace := [] }
        | Except.ok true =>
          match env.castString newPassword, env.saveUser with
          | some text, none =>
            { response := { status := 200, body := Body.message "Password changed successfully" },
              world := { w with users := storePassword user._id (env.hashPassword text) w.users },
              trace := [Event.userSaved user._id] }
          | _, _ => { response := fails, world := w, trace := [] }
    | _, _, _, _ => { response := fails, world := w, trace := [] }

/-! ## The realtime path: what is forwarded -/

/-- The kinds the realtime path is specified for. -/
def realtimeKinds : List String := ["face", "body", "both", "objects"]

/-- The JSON body of the `axios.post` to `/api/detect-realtime`, when the handler
gets as far as the call: `{ image_data: imageData, detection_type: detectionType }`. -/
def realtimeAiRequest (ctx : Ctx) : Option JsObject :=
  let imageData := ctx.request.json.get "imageData"
  let detectionType := ctx.request.json.get "detectionType"
  if truthy imageData = false ∨ truthy detectionType = false then none
  else
    match imageData, detectionType with
    | some (Json.str image), some kind =>
      some [("image_data", Json.str image), ("detection_type", kind)]
    | _, _ => none

/-! ## `frontend/src/pages/Detection.js` and `frontend/src/services/api.js` -/

/-- The values of the buttons of the detection type selector. -/
def detectionTypeOptions : List String := ["all", "face", "body", "objects"]

/-- The state `detectionType` after a run of clicks on the selector, each click
a `setDetectionType(type.value)`; the initial state is `useState('all')`. -/
def detectionTypeState (clicks : List String) : String :=
  clicks.foldl (fun _ value => value) "all"

/-- The function `detectionAPI.detectFromImage(imageData, detectionType = 'all')`:
the JSON body posted to `/detection/realtime`. -/
def detectFromImage (imageData : String) (detectionType : Option String) : JsObject :=
  [("imageData", Json.str imageData), ("detectionType", Json.str (detectionType.getD "all"))]

/-- The call of `detectFromCamera`: the frame and the current state. -/
def detectFromCamera (clicks : List String) (frame : String) : JsObject :=
  detectFromImage frame (some (detectionTypeState clicks))

/-- The text fields of the form `handleFileUpload` builds: it appends the file
under `file` and nothing else. -/
def handleFileUploadFields : List (String × String) := []

/-- The request `detectionAPI.detectFromFile(formData)` sends for that form; the
request interceptor adds the bearer token when one is stored. -/
def detectFromFileRequest (token : Option String) : Request :=
  { authorization := token.map (fun t => "Bearer " ++ t), fields := handleFileUploadFields }

/-- A finite JavaScript number as the engine holds it, an IEEE 754 double: the
number `mantissa * 2 ^ exponent`, where `|mantissa| < 2 ^ 53` and
`-1074 ≤ exponent ≤ 971`. -/
structure Double where
  mantissa : Int
  exponent : Int
  deriving Repr

/-- The number a double stands for. -/
def Double.toRat (d : Double) : ℚ :=
  (d.mantissa : ℚ) * (2 : ℚ) ^ d.exponent

def bitLengthAux : Nat → Nat → Nat
  | 0, _ => 0
  | fuel + 1, n => if n = 0 then 0 else bitLengthAux fuel (n / 2) + 1

/-- The number of binary digits of a natural number. -/
def bitLength (n : Nat) : Nat :=
  bitLengthAux n n

/-- The quotient `n / 2 ^ shift` rounded to the nearest integer, a tie going to
the even one. -/
def roundHalfEven (n shift : Nat) : Nat :=
  if shift = 0 then n
  else
    let quotient := n / 2 ^ shift
    let rest := n % 2 ^ shift
    let half := 2 ^ (shift - 1)
    if rest < half then quotient
    else if half < rest then quotient + 1
    else if quotient % 2 = 0 then quotient else quotient + 1

/-- The result of an arithmetic operation on doubles: a double, or an infinity. -/
inductive JsFloat where
  | finite (d : Double)
  | infinite (negative : Bool)
  deriving Repr

/-- The operator `*` on doubles: the exact product, rounded to 53 binary digits
(fewer below `2 ^ -1022`), a tie going to the even mantissa; a rounded product of
`2 ^ 1024` or more is an infinity. -/
def Double.mul (a b : Double) : JsFloat :=
  let m := a.mantissa * b.mantissa
  let e := a.exponent + b.exponent
  let shift := max (bitLength m.natAbs - 53) (-1074 - e).toNat
  let rounded := roundHalfEven m.natAbs shift
  if rounded ≠ 0 ∧ 1025 ≤ (bitLength rounded : Int) + (e + shift) then
    JsFloat.infinite (decide (m < 0))
  else
    JsFloat.finite { mantissa := if m < 0 then -(rounded : Int) else rounded, exponent := e + shift }

/-- The number literal `100`. -/
def hundred : Double :=
  { mantissa := 100, exponent := 0 }

/-- The integer `n` of `Number.prototype.toFixed` for one fraction digit: the one
for which `n / 10` is closest to `x`, the larger one of two. -/
def tenths (x : ℚ) : Nat :=
  ⌊x * 10 + 1 / 2⌋.toNat

/-- The method `toFixed(1)` on a double: the sign, then the digits of `n` with
a point before the last one.  From `10 ^ 21` on the method gives the text of
`String(x)`, in exponent notation, which is not spelled out here (`none`). -/
def toFixed1 (d : Double) : Option String :=
  if (10 : ℚ) ^ 21 ≤ |d.toRat| then none
  else
    some ((if d.mantissa < 0 then "-" else "") ++
      toString (tenths |d.toRat| / 10) ++ "." ++ toString (tenths |d.toRat| % 10))

/-- A map from emotion names to scores, as `Object.entries` lists it. -/
abbrev EmotionMap := List (String × Double)

/-- The comparison `emotions[a[0]] > emotions[b[0]]`; a comparison with
`undefined` is false. -/
def scoreGreater (emotions : EmotionMap) (a b : String × Double) : Bool :=
  match emotions.lookup a.1, emotions.lookup b.1 with
  | some x, some y => decide (y.toRat < x.toRat)
  | _, _ => false

/-- The reducer `(a, b) => emotions[a[0]] > emotions[b[0]] ? a : b`. -/
def pickTop (emotions : EmotionMap) (a b : String × Double) : String × Double :=
  if scoreGreater emotions a b then a else b

/-- The field `confidence` of the object `getTopEmotion` returns: the number `0`
or the text of `toFixed`. -/
inductive Confidence where
  | number (n : JsNumber)
  | text (s : String)
  deriving DecidableEq, Repr

/-- The expression `(score * 100).toFixed(1)`; `none` is a text that `toFixed1`
does not spell out. -/
def confidenceOf (score : Double) : Option Confidence :=
  match Double.mul score hundred with
  | JsFloat.finite product => (toFixed1 product).map Confidence.text
  | JsFloat.infinite negative =>
    some (Confidence.text (if negative then "-Infinity" else "Infinity"))

/-- The object `getTopEmotion` returns. -/
structure TopEmotion where
  emotion : String
  confidence : Option Confidence
  deriving DecidableEq, Repr

/-- The function `getTopEmotion`: `none` is a `null` or `undefined` argument;
`reduce` without an initial value throws on an empty list of entries. -/
def getTopEmotion (emotions : Option EmotionMap) : Except JsError TopEmotion :=
  match emotions with
  | none => Except.ok { emotion := "neutral", confidence := some (Confidence.number 0) }
  | some [] =>
    Except.error { name := "TypeError", message := "Reduce of empty array with no initial value" }
  | some (first :: rest) =>
    let topEmotion := rest.foldl (pickTop (first :: rest)) first
    Except.ok { emotion := topEmotion.1, confidence := confidenceOf topEmotion.2 }

/-! ## The query routes through their chains -/

/-- A request to `GET /api/detection/history`. -/
def historyRoute (cenv : ChainEnv) (env : StoreEnv) (req : Request) (w : World) : Outcome :=
  runRoute cenv Endpoint.detectionHistory (historyHandler env) req w

/-- A request to `GET /api/detection/:id`. -/
def detectionGetRoute (cenv : ChainEnv) (env : StoreEnv) (req : Request) (w : World) : Outcome :=
  runRoute cenv Endpoint.detectionGet (detectionGetHandler env) req w

/-- A request to `DELETE /api/detection/:id`. -/
def detectionDeleteRoute (cenv : ChainEnv) (env : StoreEnv) (req : Request) (w : World) :
    Outcome :=
  runRoute cenv Endpoint.detectionDelete (detectionDeleteHandler env) req w

/-- A request to `GET /api/admin/users`. -/
def adminUsersRoute (cenv : ChainEnv) (env : StoreEnv) (req : Request) (w : World) : Outcome :=
  runRoute cenv Endpoint.adminGetUsers (adminUsersHandler env) req w

/-- A request to `GET /api/admin/detections`. -/
def adminDetectionsRoute (cenv : ChainEnv) (env : StoreEnv) (req : Request) (w : World) :
    Outcome :=
  runRoute cenv Endpoint.adminGetDetections (adminDetectionsHandler env) req w

/-- A request to `GET /api/admin/detections/:id`. -/
def adminDetectionGetRoute (cenv : ChainEnv) (env : StoreEnv) (req : Request) (w : World) :
    Outcome :=
  runRoute cenv Endpoint.adminGetDetection (adminDetectionGetHandler env) req w

/-- A request to `DELETE /api/admin/detections/:id`. -/
def adminDetectionDeleteRoute (cenv : ChainEnv) (env : StoreEnv) (req : Request) (w : World) :
    Outcome :=
  runRoute cenv Endpoint.adminDeleteDetection (adminDetectionDeleteHandler env) req w

/-- A request to `PUT /api/admin/users/:id`. -/
def adminPutUserRoute (cenv : ChainEnv) (env : StoreEnv) (req : Request) (w : World) : Outcome :=
  runRoute cenv Endpoint.adminPutUser (adminPutUserHandler env) req w

/-- A request to `DELETE /api/admin/users/:id`. -/
def adminDeleteUserRoute (cenv : ChainEnv) (env : StoreEnv) (req : Request) (w : World) :
    Outcome :=
  runRoute cenv Endpoint.adminDeleteUser (adminDeleteUserHandler env) req w

/-- A request to `DELETE /api/user/account`. -/
def userDeleteAccountRoute (cenv : ChainEnv) (env : StoreEnv) (req : Request) (w : World) :
    Outcome :=
  runRoute cenv Endpoint.userDeleteAccount (userDeleteAccountHandler env) req w

/-- A request to `PUT /api/user/profile`. -/
def putProfileRoute (cenv : ChainEnv) (env : StoreEnv) (req : Request) (w : World) : Outcome :=
  runRoute cenv Endpoint.userPutProfile (putProfileHandler env) req w

/-- A request to `PUT /api/user/change-password`. -/
def changePasswordRoute (cenv : ChainEnv) (env : StoreEnv) (req : Request) (w : World) :
    Outcome :=
  runRoute cenv Endpoint.userChangePassword (changePasswordHandler env) req w

/-! ## Vocabulary of the statements -/

/-- The status of the response the guard sent; `none` when it called `next`. -/
def AuthResult.rejection : AuthResult → Option Nat
  | AuthResult.respond r => some r.status
  | AuthResult.next _ => none

/-- The request lacks a valid bearer credential: no token is present, or the
verification of the token throws `JsonWebTokenError` (malformed, bad signature)
or `TokenExpiredError`, or the token verifies and its identity resolves to no
user, or to a user whose `isActive` is false. -/
def lacksValidCredential (env : AuthEnv) (w : World) (authorization : Option String) : Prop :=
  match extractToken authorization with
  | none => True
  | some token =>
    token = "" ∨
    (∃ e, env.jwtVerify token = Except.error e ∧
      (e.name = "JsonWebTokenError" ∨ e.name = "TokenExpiredError")) ∨
    (∃ decoded, env.jwtVerify token = Except.ok decoded ∧ env.findById = none ∧
      (decoded.id.bind (findUser w) = none ∨
        ∃ u, decoded.id.bind (findUser w) = some u ∧ u.isActive = false))

/-- A property of a response body that is a JSON object. -/
def Body.field (b : Body) (k : String) : Option Json :=
  match b with
  | Body.object o => o.get k
  | _ => none

/-- The number of entities in a list response. -/
def Body.listLength : Body → Option Nat
  | Body.detectionList detections _ => some detections.length
  | Body.userList users _ => some users.length
  | _ => none

/-- The field `pagination.pages` of a list response. -/
def Body.pages : Body → Option Int
  | Body.detectionList _ p => some p.pages
  | Body.userList _ p => some p.pages
  | _ => none

/-- The size of the last page of `total` entities in pages of `limit`. -/
def lastPageSize (total limit : Nat) : Nat :=
  if total % limit = 0 then limit else total % limit

/-- What the deletion of the record `d` leaves of the stores `w` in `w'`: the
backing file is gone and every other file is kept, the records are those of `w`
but the one with the identifier of `d`, the counter of the owner is one lower
and every other user is as before. -/
def deletionEffect (w w' : World) (d : Detection) : Prop :=
  d.filePath ∉ w'.files ∧
  (∀ f, f ∈ w'.files ↔ f ∈ w.files ∧ f ≠ d.filePath) ∧
  (∀ e, e ∈ w'.detections ↔ e ∈ w.detections ∧ e._id ≠ d._id) ∧
  findUser w' d.user =
    (findUser w d.user).map (fun u => { u with detectionCount := u.detectionCount - 1 }) ∧
  (∀ uid, uid ≠ d.user → findUser w' uid = findUser w uid)

/-- The events of a deletion of the record `d`, in order: the file, if it
existed, then the record, then the counter. -/
def deletionTrace (w : World) (d : Detection) : List Event :=
  (if d.filePath ∈ w.files then [Event.unlinked d.filePath] else []) ++
    [Event.recordRemoved d._id, Event.counterChanged d.user (-1)]

/-- The values of the field `filePath` of the records a response body holds (a
body without records holds none). -/
def Body.filePathFields : Body → List (Option String)
  | Body.detectionList detections _ => detections.map (fun d => d.filePath)
  | Body.detectionDetail detection => [detection.filePath]
  | _ => []

/-- The page of a list request: `parseInt(req.query.page) || 1`. -/
def effectivePage (req : Request) : Int :=
  parseIntOr (req.query.lookup "page") 1

/-- The page size of a list request: `parseInt(req.query.limit) || 10`. -/
def effectiveLimit (req : Request) : Int :=
  parseIntOr (req.query.lookup "limit") 10

/-- The skip of a list request: `(page - 1) * limit`. -/
def effectiveSkip (req : Request) : Int :=
  (effectivePage req - 1) * effectiveLimit req

/-- The field `stats.detections` of the response of `GET /admin/stats`. -/
def Body.systemStats : Body → Option SystemStats
  | Body.adminStats _ detections _ => some detections
  | _ => none

/-- The field `stats` of the response of `GET /detection/stats/summary`. -/
def Body.summaryStats : Body → Option SummaryStats
  | Body.summary stats => some stats
  | _ => none

/-- The field `stats` of the response of `GET /user/dashboard`. -/
def Body.dashboardStats : Body → Option DashboardStats
  | Body.dashboard _ stats _ => some stats
  | _ => none

/-- The number of records of `owner` whose `detectionType` is `both`. -/
def bothCount (w : World) (owner : Nat) : Nat :=
  (w.detections.filter (fun d => decide (d.user = owner))).countP
    (fun d => decide (d.detectionType = "both"))

/-- The bodies of the routes of the three routers, for given outcomes of their
awaited operations. -/
def routeHandlers (uenv : UploadEnv) (renv : RealtimeEnv) (env : StoreEnv) :
    List (Ctx → World → Outcome) :=
  [uploadHandler uenv, realtimeHandler renv, historyHandler env, detectionGetHandler env,
   detectionDeleteHandler env, statsSummaryHandler env, dashboardHandler env,
   putProfileHandler env, changePasswordHandler env, userDeleteAccountHandler env,
   adminUsersHandler env, adminPutUserHandler env, adminDeleteUserHandler env,
   adminDetectionsHandler env, adminDetectionGetHandler env, adminDetectionDeleteHandler env,
   adminStatsHandler env]

/-- A run that persists no Detection Record: every record of the stores after
the run is a record of the stores before it, as it was, and no save of a record
succeeded. -/
def persistsNoRecord (w : World) (out : Outcome) : Prop :=
  (∀ d ∈ out.world.detections, d ∈ w.detections) ∧
    ∀ id status, Event.saved id status ∉ out.trace

/-! ## Sample data -/

/-- A face as the AI service reports one. -/
def sampleFace : Face :=
  { boundingBox := { x := 10, y := 20, width := 30, height := 40 }, confidence := 1 }

/-- Results with one face, no body part, and a stale total of 7. -/
def sampleResults : Results :=
  { faces := some [sampleFace], bodyParts := some [], processingTime := some 12,
    totalDetections := 7 }

def sampleUser : User :=
  { _id := 5, name := "Ada", email := "ada@example.com", password := some "hash",
    detectionCount := 3 }

def sampleWorld : World :=
  { users := [sampleUser], detections := [], files := [] }

def sampleFile : UploadedFile :=
  { originalname := "cat.png", path := "uploads/cat.png", mimetype := "image/png", size := 2048 }

/-- A record of the sample user carrying the sample results. -/
def sampleDetection : Detection :=
  { _id := 1, user := 5, originalFileName := "cat.png", filePath := "uploads/cat.png",
    fileType := FileType.image, mimeType := "image/png", fileSize := 2048,
    detectionType := "face", results := some sampleResults }

/-- A verifier that accepts the token `good` as issued to user 5, reports the
token `old` as expired and rejects every other token. -/
def sampleVerify (token : String) : Except JsError JwtPayload :=
  if token = "good" then Except.ok { id := some 5 }
  else if token = "old" then
    Except.error { name := "TokenExpiredError", message := "jwt expired" }
  else Except.error { name := "JsonWebTokenError", message := "invalid signature" }

def sampleAuthEnv : AuthEnv := { jwtVerify := sampleVerify }

/-- A chain environment in which the upload middleware stored the sample file. -/
def sampleChainEnv : ChainEnv :=
  { auth := sampleAuthEnv, multer := Except.ok (some sampleFile) }

/-- An upload request with a valid credential and detection kind. -/
def sampleUploadRequest : Request :=
  { authorization := some "Bearer good", fields := [("detectionType", "face")] }

/-- An upload for which the AI service would answer with the sample results and
no store operation fails. -/
def sampleUploadEnv : UploadEnv :=
  { now := 100, aiService := Except.ok { results := some sampleResults } }

/-- A response body of the AI service that carries its own `backend_processed`. -/
def taggedAiBody : JsObject :=
  [("results", Json.obj [("faces", Json.arr [])]), ("backend_processed", Json.bool false)]

/-- A plain response body of the AI service. -/
def plainAiBody : JsObject :=
  [("success", Json.bool true), ("results", Json.obj [("faces", Json.arr [])])]

/-- A realtime request with an image frame and a detection kind. -/
def sampleRealtimeCtx : Ctx :=
  { request :=
      { authorization := some "Bearer good",
        json := [("imageData", Json.str "data:image/jpeg;base64,AAAA"),
                 ("detectionType", Json.str "face")] },
    user := some (selectWithoutPassword sampleUser) }

/-- The error of a call to the AI service that timed out. -/
def timeoutError : JsError :=
  { name := "AxiosError", message := "timeout of 300000ms exceeded" }

/-- An upload for which a call to the AI service would time out. -/
def failingAiEnv : UploadEnv :=
  { now := 100, aiService := Except.error timeoutError }

/-- An administrator. -/
def sampleAdmin : User :=
  { _id := 9, name := "Root", email := "root@example.com", password := some "hash9",
    role := Role.admin }

/-- The sample record as stored. -/
def storedDetection : Detection :=
  { sampleDetection with status := Status.completed, createdAt := some 50, updatedAt := some 50 }

/-- A world with the sample user, who owns one record with its file on disk, and
the administrator. -/
def populatedWorld : World :=
  { users := [sampleUser, sampleAdmin], detections := [storedDetection],
    files := ["uploads/cat.png"] }

/-- A verifier that accepts `good` as the token of user 5 and `root` as the token
of user 9. -/
def adminVerify (token : String) : Except JsError JwtPayload :=
  if token = "good" then Except.ok { id := some 5 }
  else if token = "root" then Except.ok { id := some 9 }
  else Except.error { name := "JsonWebTokenError", message := "invalid signature" }

def adminChainEnv : ChainEnv := { auth := { jwtVerify := adminVerify } }

/-- A store environment in which the password `secret` matches. -/
def sampleStoreEnv : StoreEnv :=
  { comparePassword := fun candidate _ =>
      match candidate with
      | Json.str text => Except.ok (decide (text = "secret"))
      | _ => Except.error { name := "Error", message := "Illegal arguments" } }

/-- A request of the sample user for the first page of ten. -/
def firstPageCtx : Ctx :=
  { request := { query := [("page", "1"), ("limit", "10")] },
    user := some (selectWithoutPassword sampleUser) }

/-- A request of the sample user about the record 1. -/
def ownRecordCtx : Ctx :=
  { request := { authorization := some "Bearer good", params := [("id", "1")] },
    user := some (selectWithoutPassword sampleUser) }

/-- A request of the sample user about the record 2, which does not exist. -/
def missingRecordCtx : Ctx :=
  { request := { authorization := some "Bearer good", params := [("id", "2")] },
    user := some (selectWithoutPassword sampleUser) }

/-- The administrator's `PUT /admin/users/9` with `isActive` as the text `false`. -/
def selfDeactivateRequest : Request :=
  { authorization := some "Bearer root", params := [("id", "9")],
    json := [("isActive", Json.str "false")] }

/-- The administrator's `DELETE /admin/users/9`. -/
def selfDeleteRequest : Request :=
  { authorization := some "Bearer root", params := [("id", "9")] }

/-- The administrator's `DELETE /admin/users/5`. -/
def deleteUserRequest : Request :=
  { authorization := some "Bearer root", params := [("id", "5")] }

/-- The sample user's `DELETE /user/account` with the matching password. -/
def deleteAccountRequest : Request :=
  { authorization := some "Bearer good", json := [("password", Json.str "secret")] }

/-- The sample user's `DELETE /user/account` with another password. -/
def wrongPasswordRequest : Request :=
  { authorization := some "Bearer good", json := [("password", Json.str "guess")] }

/-- A change of password by the sample user to a new password with a line break
after its lowercase letters. -/
def lineBreakPasswordRequest : Request :=
  { authorization := some "Bearer good",
    json := [("currentPassword", Json.str "secret"), ("newPassword", Json.str "abc\nDEF1")] }

/-- The same change with the line break left out. -/
def plainPasswordRequest : Request :=
  { authorization := some "Bearer good",
    json := [("currentPassword", Json.str "secret"), ("newPassword", Json.str "abcDEF1")] }

/-! ## Lemmas on the stores -/

theorem upsert_find (d : Detection) (ds : List Detection) :
    (upsert d ds).find? (fun e => e._id = d._id) = some d := by
  induction ds with
  | nil => simp [upsert]
  | cons e es ih =>
    by_cases h : e._id = d._id
    · simp [upsert, h]
    · simp [upsert, h, ih]

theorem preSave_id (d : Detection) : (preSave d)._id = d._id := by
  unfold preSave
  cases d.results <;> rfl

theorem preSave_status (d : Detection) : (preSave d).status = d.status := by
  unfold preSave
  cases d.results <;> rfl

theorem preSave_total (d : Detection) (r : Results) (h : (preSave d).results = some r) :
    r.totalDetections = ((lengthOrZero r.faces + lengthOrZero r.bodyParts : Nat) : JsNumber) := by
  unfold preSave at h
  cases hr : d.results with
  | none => rw [hr] at h; simp [hr] at h
  | some r0 =>
    rw [hr] at h
    simp only [Option.some.injEq] at h
    subst h
    rfl

/-! ## Detection records -/

/-- A save that succeeds was given a document whose `results` are set. -/
theorem save_ok_results (fault : Option JsError) (now : Nat) (w w' : World)
    (d d' : Detection) (h : Detection.save fault now w d = Except.ok (d', w')) :
    (∃ r, d.results = some r) ∧ d' = written now d ∧
      w' = { w with detections := upsert (written now d) w.detections } := by
  unfold Detection.save at h
  split at h
  · cases h
  · rename_i hvalid
    cases fault with
    | some e => cases h
    | none =>
      simp only [Except.ok.injEq, Prod.mk.injEq] at h
      refine ⟨?_, h.1.symm, h.2.symm⟩
      cases hr : d.results with
      | some r => exact ⟨r, rfl⟩
      | none =>
        unfold validationFailures at hvalid
        rw [hr] at hvalid
        simp at hvalid

/-- C1: after a successful save the stored record is the returned one; its
`results` have the lists `faces` and `bodyParts` of the document that was saved,
and `results.totalDetections` is the number of entries of `faces` plus the
number of entries of `bodyParts` (a list that is not set has no entry),
whatever the total was before. -/
theorem save_recomputes_totalDetections (fault : Option JsError) (now : Nat) (w w' : World)
    (d d' : Detection) (h : Detection.save fault now w d = Except.ok (d', w')) :
    findDetection w' d._id = some d' ∧
      ∃ r r', d.results = some r ∧ d'.results = some r' ∧
        r'.faces = r.faces ∧ r'.bodyParts = r.bodyParts ∧
        r'.totalDetections =
          (((r.faces.getD []).length + (r.bodyParts.getD []).length : Nat) : JsNumber) := by
  obtain ⟨⟨r, hr⟩, hd, hw⟩ := save_ok_results fault now w w' d d' h
  subst hd
  subst hw
  constructor
  · have hid : (written now d)._id = d._id := by
      unfold written
      rw [preSave_id]; rfl
    have hfind := upsert_find (written now d) w.detections
    rw [hid] at hfind
    exact hfind
  · have hstamp : (stamp now d).results = some r := hr
    refine ⟨r, { r with totalDetections :=
      ((lengthOrZero r.faces + lengthOrZero r.bodyParts : Nat) : JsNumber) }, hr, ?_, rfl, rfl, ?_⟩
    · unfold written preSave
      rw [hstamp]
    · cases r.faces <;> cases r.bodyParts <;> rfl

/-- Witness of C1 on the sample record, with one face and no body part, whose
stale total 7 becomes 1. -/
theorem save_recomputes_totalDetections_witness :
    findDetection { sampleWorld with
        detections := upsert (written 0 sampleDetection) sampleWorld.detections } 1 =
        some (written 0 sampleDetection) ∧
      ∃ r r', sampleDetection.results = some r ∧ (written 0 sampleDetection).results = some r' ∧
        r'.faces = r.faces ∧ r'.bodyParts = r.bodyParts ∧
        r'.totalDetections =
          (((r.faces.getD []).length + (r.bodyParts.getD []).length : Nat) : JsNumber) :=
  save_recomputes_totalDetections none 0 sampleWorld _ sampleDetection _ rfl

/-! ## The access guard -/

theorem authCatch_jwt (e : JsError) (h : e.name = "JsonWebTokenError") :
    (authCatch e).status = 401 := by
  simp [authCatch, h]

theorem authCatch_expired (e : JsError) (h : e.name = "TokenExpiredError") :
    (authCatch e).status = 401 := by
  unfold authCatch
  split
  · rfl
  · simp [h]

/-- The guard calls `next` exactly when a non-empty token verifies, the query
succeeds and the resolved user is active; `req.user` is that user without the
password. -/
theorem auth_next_iff (env : AuthEnv) (w : World) (authorization : Option String) (u : User) :
    auth env w authorization = AuthResult.next u ↔
      ∃ token decoded u0, extractToken authorization = some token ∧ token ≠ "" ∧
        env.jwtVerify token = Except.ok decoded ∧ env.findById = none ∧
        decoded.id.bind (findUser w) = some u0 ∧ u0.isActive = true ∧
        u = selectWithoutPassword u0 := by
  unfold auth
  constructor
  · intro h
    split at h
    · cases h
    · rename_i token htok
      split at h
      · cases h
      · rename_i hne
        split at h
        · cases h
        · rename_i decoded hver
          split at h
          · cases h
          · rename_i hfind
            split at h
            · cases h
            · rename_i user hres
              split at h
              · cases h
              · rename_i hact
                cases hb : decoded.id.bind (findUser w) with
                | none => rw [hb] at hres; cases hres
                | some u0 =>
                  rw [hb] at hres
                  simp only [Option.map_some', Option.some.injEq] at hres
                  injection h with h
                  subst h
                  subst hres
                  refine ⟨token, decoded, u0, htok, hne, hver, hfind, hb, ?_, rfl⟩
                  simpa [selectWithoutPassword] using hact
  · rintro ⟨token, decoded, u0, htok, hne, hver, hfind, hres, hact, rfl⟩
    rw [htok]
    simp only [hne, if_false, hver, hfind, hres, Option.map_some']
    simp [selectWithoutPassword, hact]

/-- Every request that lacks a valid bearer credential is answered 401 by the
guard. -/
theorem auth_rejects (env : AuthEnv) (w : World) (authorization : Option String)
    (h : lacksValidCredential env w authorization) :
    (auth env w authorization).rejection = some 401 := by
  unfold lacksValidCredential at h
  unfold auth
  cases htok : extractToken authorization with
  | none => rfl
  | some token =>
    rw [htok] at h
    simp only
    by_cases hne : token = ""
    · simp [hne, AuthResult.rejection]
    · simp only [hne, if_false]
      rcases h with h | ⟨e, hver, hname⟩ | ⟨decoded, hver, hfind, hres⟩
      · exact absurd h hne
      · rw [hver]
        simp only [AuthResult.rejection]
        rcases hname with hname | hname
        · rw [authCatch_jwt e hname]
        · rw [authCatch_expired e hname]
      · rw [hver]
        simp only [hfind]
        rcases hres with hres | ⟨u0, hres, hact⟩
        · rw [hres]; rfl
        · rw [hres]
          simp [selectWithoutPassword, hact, AuthResult.rejection]

/-- C6: the guard answers 401 without calling `next` when no credential is
present, when verification throws `JsonWebTokenError` (bad signature) or
`TokenExpiredError`, when the identity resolves to no user and when the resolved
user is inactive; it calls `next` with `req.user` set to the resolved user exactly
when the token verifies and that user exists and is active. -/
theorem auth_contract (env : AuthEnv) (w : World) (authorization : Option String) :
    (authorization = none → (auth env w authorization).rejection = some 401) ∧
    (extractToken authorization = some "" → (auth env w authorization).rejection = some 401) ∧
    (∀ token e, extractToken authorization = some token →
      env.jwtVerify token = Except.error e → e.name = "JsonWebTokenError" →
      (auth env w authorization).rejection = some 401) ∧
    (∀ token e, extractToken authorization = some token →
      env.jwtVerify token = Except.error e → e.name = "TokenExpiredError" →
      (auth env w authorization).rejection = some 401) ∧
    (∀ token decoded, extractToken authorization = some token →
      env.jwtVerify token = Except.ok decoded → env.findById = none →
      decoded.id.bind (findUser w) = none →
      (auth env w authorization).rejection = some 401) ∧
    (∀ token decoded u0, extractToken authorization = some token →
      env.jwtVerify token = Except.ok decoded → env.findById = none →
      decoded.id.bind (findUser w) = some u0 → u0.isActive = false →
      (auth env w authorization).rejection = some 401) ∧
    (∀ u, auth env w authorization = AuthResult.next u ↔
      ∃ token decoded u0, extractToken authorization = some token ∧ token ≠ "" ∧
        env.jwtVerify token = Except.ok decoded ∧ env.findById = none ∧
        decoded.id.bind (findUser w) = some u0 ∧ u0.isActive = true ∧
        u = selectWithoutPassword u0) := by
  refine ⟨?_, ?_, ?_, ?_, ?_, ?_, fun u => auth_next_iff env w authorization u⟩
  · intro h
    apply auth_rejects
    subst h
    simp [lacksValidCredential, extractToken]
  · intro h
    apply auth_rejects
    simp [lacksValidCredential, h]
  · intro token e htok hver hname
    apply auth_rejects
    simp only [lacksValidCredential, htok]
    exact Or.inr (Or.inl ⟨e, hver, Or.inl hname⟩)
  · intro token e htok hver hname
    apply auth_rejects
    simp only [lacksValidCredential, htok]
    exact Or.inr (Or.inl ⟨e, hver, Or.inr hname⟩)
  · intro token decoded htok hver hfind hres
    apply auth_rejects
    simp only [lacksValidCredential, htok]
    exact Or.inr (Or.inr ⟨decoded, hver, hfind, Or.inl hres⟩)
  · intro token decoded u0 htok hver hfind hres hact
    apply auth_rejects
    simp only [lacksValidCredential, htok]
    exact Or.inr (Or.inr ⟨decoded, hver, hfind, Or.inr ⟨u0, hres, hact⟩⟩)

/-- Witness of C6: no header and an expired token are answered 401, and the
token issued to the sample user lets the request through as that user. -/
theorem auth_contract_witness :
    (auth sampleAuthEnv sampleWorld none).rejection = some 401 ∧
    (auth sampleAuthEnv sampleWorld (some "Bearer old")).rejection = some 401 ∧
    auth sampleAuthEnv sampleWorld (some "Bearer good") =
      AuthResult.next (selectWithoutPassword sampleUser) :=
  ⟨(auth_contract sampleAuthEnv sampleWorld none).1 rfl,
   (auth_contract sampleAuthEnv sampleWorld (some "Bearer old")).2.2.2.1 "old"
     { name := "TokenExpiredError", message := "jwt expired" } (by decide) rfl rfl,
   ((auth_contract sampleAuthEnv sampleWorld (some "Bearer good")).2.2.2.2.2.2
      (selectWithoutPassword sampleUser)).2
     ⟨"good", { id := some 5 }, sampleUser, by decide, by decide, rfl, rfl, by decide,
      rfl, rfl⟩⟩

/-! ## Middleware chains -/

theorem routeChain_guarded (e : Endpoint) (he : e ≠ Endpoint.detectionRealtimeTest) :
    ∃ rest, routeChain e = Middleware.auth :: rest := by
  cases e <;> first | exact absurd rfl he | exact ⟨_, rfl⟩

/-- A chain that starts with the guard ends at the guard when the guard
answers. -/
theorem runChain_auth_respond (env : ChainEnv) (handler : Ctx → World → Outcome)
    (rest : List Middleware) (req : Request) (w : World) (r : Response)
    (h : auth env.auth w req.authorization = AuthResult.respond r) :
    runChain env handler (Middleware.auth :: rest) { request := req } w =
      { response := r, world := w, trace := [Event.authRan] } := by
  simp [runChain, h]

/-- C7: on every route of the user and admin routers and every detection route
other than `GET /realtime-test`, a request without a valid bearer credential is
answered 401 by the guard, which is the only stage that runs: the stores are
unchanged and neither the upload middleware nor the route handler runs.  The
same holds, with the response of the guard, whenever the guard answers. -/
theorem protected_route_guard (e : Endpoint) (he : e ≠ Endpoint.detectionRealtimeTest)
    (env : ChainEnv) (handler : Ctx → World → Outcome) (req : Request) (w : World) :
    (lacksValidCredential env.auth w req.authorization →
      (runRoute env e handler req w).response.status = 401 ∧
      (runRoute env e handler req w).world = w ∧
      (runRoute env e handler req w).trace = [Event.authRan]) ∧
    (∀ r, auth env.auth w req.authorization = AuthResult.respond r →
      runRoute env e handler req w = { response := r, world := w, trace := [Event.authRan] }) := by
  obtain ⟨rest, hrest⟩ := routeChain_guarded e he
  have hrun : ∀ r, auth env.auth w req.authorization = AuthResult.respond r →
      runRoute env e handler req w = { response := r, world := w, trace := [Event.authRan] } := by
    intro r hauth
    unfold runRoute
    rw [hrest, runChain_auth_respond env handler rest req w r hauth]
  refine ⟨?_, hrun⟩
  intro h
  have hrej := auth_rejects env.auth w req.authorization h
  cases hauth : auth env.auth w req.authorization with
  | next u => rw [hauth] at hrej; cases hrej
  | respond r =>
    rw [hauth] at hrej
    simp only [AuthResult.rejection, Option.some.injEq] at hrej
    rw [hrun r hauth]
    exact ⟨hrej, rfl, rfl⟩

/-- Witness of C7: an upload request without an `Authorization` header. -/
theorem protected_route_guard_witness :
    (runRoute sampleChainEnv Endpoint.detectionUpload (uploadHandler sampleUploadEnv)
        { fields := [("detectionType", "face")] } sampleWorld).response.status = 401 ∧
      (runRoute sampleChainEnv Endpoint.detectionUpload (uploadHandler sampleUploadEnv)
        { fields := [("detectionType", "face")] } sampleWorld).world = sampleWorld ∧
      (runRoute sampleChainEnv Endpoint.detectionUpload (uploadHandler sampleUploadEnv)
        { fields := [("detectionType", "face")] } sampleWorld).trace = [Event.authRan] :=
  (protected_route_guard Endpoint.detectionUpload (by decide) sampleChainEnv
    (uploadHandler sampleUploadEnv) { fields := [("detectionType", "face")] } sampleWorld).1
    True.intro

/-! ## Token extraction -/

theorem replaceFirst_strip (pat l : List Char) (hpat : pat ≠ []) :
    replaceFirst pat [] (pat ++ l) = l := by
  cases pat with
  | nil => exact absurd rfl hpat
  | cons p ps =>
    have hpre : (p :: ps).isPrefixOf (p :: (ps ++ l)) = true := by
      have hp : (p :: ps) <+: (p :: ps) ++ l := List.prefix_append _ _
      exact List.isPrefixOf_iff_prefix.mpr hp
    simp only [List.cons_append, replaceFirst, hpre, if_true, List.nil_append]
    simp

theorem replaceFirst_absent (pat : List Char) (c : Char) (hc : c ∈ pat) (l : List Char)
    (hl : c ∉ l) : replaceFirst pat [] l = l := by
  induction l with
  | nil =>
    cases pat with
    | nil => cases hc
    | cons p ps => simp [replaceFirst]
  | cons x xs ih =>
    have hnot : pat.isPrefixOf (x :: xs) = false := by
      cases hp : pat.isPrefixOf (x :: xs) with
      | false => rfl
      | true =>
        have hpre : pat <+: (x :: xs) := List.isPrefixOf_iff_prefix.mp hp
        exact absurd (hpre.subset hc) hl
    have hxs : c ∉ xs := fun hmem => hl (List.mem_cons_of_mem _ hmem)
    simp [replaceFirst, hnot, ih hxs]

/-- C8, the claim as stated fails: the header holding the bare token `good`,
with no `Bearer ` before it, is accepted and reaches the route as the sample
user. -/
theorem bare_token_accepted :
    "Bearer ".data.isPrefixOf "good".data = false ∧
      auth sampleAuthEnv sampleWorld (some "good") =
        AuthResult.next (selectWithoutPassword sampleUser) :=
  ⟨by decide, rfl⟩

/-- C8 as amended: the guard removes the first `Bearer ` from the header and
verifies what remains, so a header holding a token without a space is treated
exactly as the header `Bearer ` followed by that token; a request without the
header, or whose header is empty after the removal, is answered 401. -/
theorem auth_bearer_optional (env : AuthEnv) (w : World) (token : String)
    (h : ' ' ∉ token.data) :
    auth env w (some token) = auth env w (some ("Bearer " ++ token)) ∧
      (auth env w none).rejection = some 401 ∧
      (auth env w (some "Bearer ")).rejection = some 401 ∧
      (auth env w (some "")).rejection = some 401 := by
  refine ⟨?_, rfl, ?_, ?_⟩
  · have h1 : extractToken (some token) = some token := by
      simp only [extractToken, Option.map_some']
      rw [replaceFirst_absent "Bearer ".data ' ' (by decide) token.data h]
    have h2 : extractToken (some ("Bearer " ++ token)) = some token := by
      simp only [extractToken, Option.map_some', String.data_append]
      rw [replaceFirst_strip "Bearer ".data token.data (by decide)]
    unfold auth
    rw [h1, h2]
  · apply auth_rejects
    simp [lacksValidCredential, extractToken, replaceFirst]
  · apply auth_rejects
    simp [lacksValidCredential, extractToken, replaceFirst]

/-- Witness of the amended C8 at the token `good`. -/
theorem auth_bearer_optional_witness :
    auth sampleAuthEnv sampleWorld (some "good") =
        auth sampleAuthEnv sampleWorld (some ("Bearer " ++ "good")) ∧
      (auth sampleAuthEnv sampleWorld none).rejection = some 401 ∧
      (auth sampleAuthEnv sampleWorld (some "Bearer ")).rejection = some 401 ∧
      (auth sampleAuthEnv sampleWorld (some "")).rejection = some 401 :=
  auth_bearer_optional sampleAuthEnv sampleWorld "good" (by decide)

/-! ## The realtime path -/

theorem realtimeHandler_world (env : RealtimeEnv) (ctx : Ctx) (w : World) :
    (realtimeHandler env ctx w).world = w := by
  unfold realtimeHandler
  simp only
  split
  · rfl
  · split
    · split <;> rfl
    · rfl

/-- C9: a request to `POST /detection/realtime` leaves both collections and the
file store as they were, whatever the guard decides and whatever the outcome of
the call to the AI service is. -/
theorem realtime_persists_nothing (cenv : ChainEnv) (env : RealtimeEnv) (req : Request)
    (w : World) : (realtimeRoute cenv env req w).world = w := by
  unfold realtimeRoute runRoute
  simp only [routeChain, runChain, Option.isSome_none, Bool.false_eq_true, if_false]
  split
  · rfl
  · exact realtimeHandler_world env _ w

theorem JsObject.get_set (o : JsObject) (k k' : String) (v : Json) :
    (JsObject.set o k v).get k' = if k = k' then some v else o.get k' := by
  induction o with
  | nil =>
    by_cases h : k = k' <;> simp [JsObject.set, JsObject.get, h]
  | cons kv rest ih =>
    obtain ⟨k0, v0⟩ := kv
    by_cases h0 : k0 = k
    · subst h0
      by_cases h : k0 = k' <;> simp [JsObject.set, JsObject.get, h]
    · by_cases h : k = k'
      · subst h
        simp [JsObject.set, JsObject.get, h0, ih]
      · by_cases h1 : k0 = k'
        · subst h1
          simp [JsObject.set, JsObject.get, h0, h]
        · simp [JsObject.set, JsObject.get, h0, h, h1, ih]

theorem JsObject.get_eq_none (o : JsObject) (k : String) (h : k ∉ o.map Prod.fst) :
    o.get k = none := by
  induction o with
  | nil => rfl
  | cons kv rest ih =>
    obtain ⟨k0, v0⟩ := kv
    simp only [List.map_cons, List.mem_cons, not_or] at h
    have hne : ¬ k0 = k := fun e => h.1 e.symm
    simp [JsObject.get, hne, ih h.2]

/-- A property of a spread is the one of the source when the source has it, and
the one of the base otherwise. -/
theorem JsObject.get_spread (src : JsObject) (hsrc : (src.map Prod.fst).Nodup)
    (base : JsObject) (k : String) :
    (JsObject.spread base src).get k =
      match src.get k with
      | some v => some v
      | none => base.get k := by
  induction src generalizing base with
  | nil => rfl
  | cons kv rest ih =>
    obtain ⟨k0, v0⟩ := kv
    simp only [List.map_cons, List.nodup_cons] at hsrc
    have hstep : JsObject.spread base ((k0, v0) :: rest) =
        JsObject.spread (JsObject.set base k0 v0) rest := rfl
    rw [hstep, ih hsrc.2, JsObject.get_set]
    by_cases h : k0 = k
    · subst h
      simp [JsObject.get, JsObject.get_eq_none rest k0 hsrc.1]
    · simp [JsObject.get, h]

theorem realtimeHandler_success (env : RealtimeEnv) (ctx : Ctx) (w : World) (image : String)
    (data : JsObject) (himg : ctx.request.json.get "imageData" = some (Json.str image))
    (hne : image ≠ "") (hkind : truthy (ctx.request.json.get "detectionType") = true)
    (hai : env.aiService = Except.ok data) :
    (realtimeHandler env ctx w).response =
      { status := 200, body := Body.object (realtimeBody env.now data) } := by
  have h1 : truthy (some (Json.str image)) = true := by simp [truthy, hne]
  unfold realtimeHandler
  simp only [himg, h1, hkind, hai]
  simp

theorem realtimeBody_get (now : String) (data : JsObject) (hkeys : (data.map Prod.fst).Nodup)
    (k : String) (v : Json) (h : data.get k = some v) : (realtimeBody now data).get k = some v := by
  unfold realtimeBody
  simp only
  rw [JsObject.get_spread data hkeys, h]

theorem realtimeBody_results (now : String) (data : JsObject)
    (hkeys : (data.map Prod.fst).Nodup) :
    (realtimeBody now data).get "results" = data.get "results" := by
  cases h : data.get "results" with
  | some r => exact realtimeBody_get now data hkeys "results" r h
  | none =>
    unfold realtimeBody
    simp only
    rw [JsObject.get_spread data hkeys, h]
    rfl

theorem realtimeBody_tag (now : String) (data : JsObject) (hkeys : (data.map Prod.fst).Nodup)
    (h : data.get "backend_processed" = none) :
    (realtimeBody now data).get "backend_processed" = some (Json.bool true) := by
  unfold realtimeBody
  simp only
  rw [JsObject.get_spread data hkeys, h]
  cases data.get "results" <;> rfl

/-- C10, the claim as stated fails: when the body of the AI service has its own
`backend_processed: false`, the spread written last puts it over the tag and the
caller receives `backend_processed == false`. -/
theorem realtime_tag_overridden :
    (realtimeHandler { now := "2024-01-01T00:00:00.000Z", aiService := Except.ok taggedAiBody }
        sampleRealtimeCtx sampleWorld).response.body.field "backend_processed" =
      some (Json.bool false) := by
  rfl

/-- C10 as amended: on a successful AI response body the caller gets a 200 whose
body has every property of that body with its value, `results` among them, and
`backend_processed == true` whenever the AI body has no `backend_processed` of
its own. -/
theorem realtime_relay (env : RealtimeEnv) (ctx : Ctx) (w : World) (image : String)
    (data : JsObject) (himg : ctx.request.json.get "imageData" = some (Json.str image))
    (hne : image ≠ "") (hkind : truthy (ctx.request.json.get "detectionType") = true)
    (hai : env.aiService = Except.ok data) (hkeys : (data.map Prod.fst).Nodup) :
    (realtimeHandler env ctx w).response.status = 200 ∧
      (∀ k v, data.get k = some v →
        (realtimeHandler env ctx w).response.body.field k = some v) ∧
      (realtimeHandler env ctx w).response.body.field "results" = data.get "results" ∧
      (data.get "backend_processed" = none →
        (realtimeHandler env ctx w).response.body.field "backend_processed" =
          some (Json.bool true)) := by
  rw [realtimeHandler_success env ctx w image data himg hne hkind hai]
  exact ⟨rfl, fun k v h => realtimeBody_get env.now data hkeys k v h,
    realtimeBody_results env.now data hkeys, realtimeBody_tag env.now data hkeys⟩

/-- Witness of the amended C10 on a plain body of the AI service. -/
theorem realtime_relay_witness :
    (realtimeHandler { now := "2024-01-01T00:00:00.000Z", aiService := Except.ok plainAiBody }
        sampleRealtimeCtx sampleWorld).response.status = 200 ∧
      (∀ k v, plainAiBody.get k = some v →
        (realtimeHandler { now := "2024-01-01T00:00:00.000Z", aiService := Except.ok plainAiBody }
          sampleRealtimeCtx sampleWorld).response.body.field k = some v) ∧
      (realtimeHandler { now := "2024-01-01T00:00:00.000Z", aiService := Except.ok plainAiBody }
          sampleRealtimeCtx sampleWorld).response.body.field "results" =
        plainAiBody.get "results" ∧
      (plainAiBody.get "backend_processed" = none →
        (realtimeHandler { now := "2024-01-01T00:00:00.000Z", aiService := Except.ok plainAiBody }
          sampleRealtimeCtx sampleWorld).response.body.field "backend_processed" =
          some (Json.bool true)) :=
  realtime_relay { now := "2024-01-01T00:00:00.000Z", aiService := Except.ok plainAiBody }
    sampleRealtimeCtx sampleWorld "data:image/jpeg;base64,AAAA" plainAiBody rfl (by decide) rfl
    rfl (by decide)

/-! ## The upload path -/

/-- The upload route, stage by stage. -/
theorem uploadRoute_eq (cenv : ChainEnv) (env : UploadEnv) (req : Request) (w : World) :
    uploadRoute cenv env req w =
      match auth cenv.auth w req.authorization with
      | AuthResult.respond r => { response := r, world := w, trace := [Event.authRan] }
      | AuthResult.next u =>
        match cenv.multer with
        | Except.error e =>
          { response := cenv.handleMulterError e, world := w,
            trace := [Event.authRan, Event.uploadRan] }
        | Except.ok none =>
          { uploadHandler env { request := req, user := some u } w with
            trace := Event.authRan :: Event.uploadRan :: Event.handlerRan ::
              (uploadHandler env { request := req, user := some u } w).trace }
        | Except.ok (some f) =>
          { uploadHandler env { request := req, user := some u, file := some f }
              { w with files := f.path :: w.files } with
            trace := Event.authRan :: Event.uploadRan :: Event.handlerRan ::
              (uploadHandler env { request := req, user := some u, file := some f }
                { w with files := f.path :: w.files }).trace } := by
  unfold uploadRoute runRoute
  simp only [routeChain, runChain, Option.isSome_none, Bool.false_eq_true, if_false]
  cases auth cenv.auth w req.authorization with
  | respond r => rfl
  | next u =>
    simp only
    cases cenv.multer with
    | error e => rfl
    | ok f =>
      cases f with
      | none => rfl
      | some f => rfl

theorem uploadValidationErrors_valid (req : Request) (kind : String)
    (hkind : req.fields.lookup "detectionType" = some kind) (hvalid : kind ∈ detectionTypes) :
    uploadValidationErrors req = [] := by
  simp [uploadValidationErrors, hkind, hvalid]

theorem uploadValidationErrors_invalid (req : Request)
    (h : ∀ kind, req.fields.lookup "detectionType" = some kind → kind ∉ detectionTypes) :
    uploadValidationErrors req = ["Detection type must be face, body, or both"] := by
  unfold uploadValidationErrors
  cases hk : req.fields.lookup "detectionType" with
  | none => rfl
  | some v => simp [h v hk]

theorem id_le_foldr_max (ds : List Detection) (d : Detection) (hd : d ∈ ds) :
    d._id ≤ (ds.map (fun e => e._id)).foldr max 0 := by
  induction ds with
  | nil => cases hd
  | cons e es ih =>
    simp only [List.map_cons, List.foldr_cons]
    rcases List.mem_cons.mp hd with h | h
    · subst h
      exact le_max_left _ _
    · exact le_trans (ih h) (le_max_right _ _)

/-- No stored document carries the identifier of a new document. -/
theorem freshId_fresh (w : World) : findDetection w (freshId w.detections) = none := by
  unfold findDetection
  rw [List.find?_eq_none]
  intro d hd
  have hle := id_le_foldr_max w.detections d hd
  simp only [freshId, decide_eq_true_eq]
  omega

theorem incDetectionCount_find (id : Nat) (n : Int) (us : List User) :
    (incDetectionCount id n us).find? (fun u => u._id = id) =
      (us.find? (fun u => u._id = id)).map
        (fun u => { u with detectionCount := u.detectionCount + n }) := by
  induction us with
  | nil => rfl
  | cons u us ih =>
    by_cases h : u._id = id
    · simp [incDetectionCount, h]
    · simp [incDetectionCount, h, ih]

/-- The user the guard attaches is stored under its identifier. -/
theorem auth_next_stored (env : AuthEnv) (w : World) (authorization : Option String) (u : User)
    (h : auth env w authorization = AuthResult.next u) :
    ∃ u0, findUser w u._id = some u0 ∧ u = selectWithoutPassword u0 := by
  obtain ⟨token, decoded, u0, -, -, -, -, hres, -, hu⟩ := (auth_next_iff env w authorization u).mp h
  refine ⟨u0, ?_, hu⟩
  cases hid : decoded.id with
  | none => rw [hid] at hres; cases hres
  | some i =>
    rw [hid] at hres
    simp only [Option.some_bind] at hres
    have hi : u0._id = i := by
      have := List.find?_some hres
      simpa using this
    subst hu
    simp only [selectWithoutPassword]
    rw [hi]
    exact hres

theorem written_id (now : Nat) (d : Detection) : (written now d)._id = d._id := by
  unfold written
  rw [preSave_id]; rfl

theorem written_status (now : Nat) (d : Detection) : (written now d).status = d.status := by
  unfold written
  rw [preSave_status]; rfl

theorem preSave_errorMessage (d : Detection) : (preSave d).errorMessage = d.errorMessage := by
  unfold preSave
  cases d.results <;> rfl

theorem preSave_user (d : Detection) : (preSave d).user = d.user := by
  unfold preSave
  cases d.results <;> rfl

theorem written_errorMessage (now : Nat) (d : Detection) :
    (written now d).errorMessage = d.errorMessage := by
  unfold written
  rw [preSave_errorMessage]; rfl

theorem written_user (now : Nat) (d : Detection) : (written now d).user = d.user := by
  unfold written
  rw [preSave_user]; rfl

theorem uploadHandler_invalid (env : UploadEnv) (ctx : Ctx) (w : World)
    (h : ∀ kind, ctx.request.fields.lookup "detectionType" = some kind →
      kind ∉ detectionTypes) :
    uploadHandler env ctx w =
      { response :=
          { status := 400,
            body := Body.validation "Validation failed"
              ["Detection type must be face, body, or both"] },
        world := w, trace := [] } := by
  unfold uploadHandler
  simp only [uploadValidationErrors_invalid ctx.request h]

theorem uploadHandler_noFile (env : UploadEnv) (req : Request) (user : Option User) (w : World)
    (kind : String) (hkind : req.fields.lookup "detectionType" = some kind)
    (hvalid : kind ∈ detectionTypes) :
    uploadHandler env { request := req, user := user } w =
      { response := { status := 400, body := Body.message "No file uploaded" },
        world := w, trace := [] } := by
  unfold uploadHandler
  simp only [uploadValidationErrors_valid req kind hkind hvalid]

/-- C4: an upload request whose `detectionType` is missing or not one of `face`,
`body`, `both` creates no Detection Record and, once past the guard and the
upload middleware, is answered 400 `Validation failed`; a request with a valid
kind but no file creates no record either and is answered 400
`No file uploaded`. -/
theorem upload_validation (cenv : ChainEnv) (env : UploadEnv) (req : Request) (w : World) :
    ((∀ kind, req.fields.lookup "detectionType" = some kind → kind ∉ detectionTypes) →
      (uploadRoute cenv env req w).world.detections = w.detections ∧
      (uploadRoute cenv env req w).world.users = w.users ∧
      ∀ user file, auth cenv.auth w req.authorization = AuthResult.next user →
        cenv.multer = Except.ok file →
        (uploadRoute cenv env req w).response =
          { status := 400,
            body := Body.validation "Validation failed"
              ["Detection type must be face, body, or both"] }) ∧
    (∀ kind, req.fields.lookup "detectionType" = some kind → kind ∈ detectionTypes →
      cenv.multer = Except.ok none →
      (uploadRoute cenv env req w).world.detections = w.detections ∧
      (uploadRoute cenv env req w).world.users = w.users ∧
      ∀ user, auth cenv.auth w req.authorization = AuthResult.next user →
        (uploadRoute cenv env req w).response =
          { status := 400, body := Body.message "No file uploaded" }) := by
  constructor
  · intro h
    rw [uploadRoute_eq]
    cases hauth : auth cenv.auth w req.authorization with
    | respond r =>
      refine ⟨rfl, rfl, ?_⟩
      intro user file hu
      cases hu
    | next u =>
      cases hm : cenv.multer with
      | error e =>
        refine ⟨rfl, rfl, ?_⟩
        intro user file _ hf
        cases hf
      | ok f =>
        cases f with
        | none =>
          simp [uploadHandler_invalid env { request := req, user := some u } w h]
        | some f =>
          simp [uploadHandler_invalid env { request := req, user := some u, file := some f }
            { w with files := f.path :: w.files } h]
  · intro kind hkind hvalid hm
    rw [uploadRoute_eq]
    cases hauth : auth cenv.auth w req.authorization with
    | respond r =>
      refine ⟨rfl, rfl, ?_⟩
      intro user hu
      cases hu
    | next u =>
      simp [hm, uploadHandler_noFile env req (some u) w kind hkind hvalid]

/-- Witness of C4: an authenticated upload with the kind `faces`, and one with
the kind `face` and no file. -/
theorem upload_validation_witness :
    (uploadRoute sampleChainEnv sampleUploadEnv
        { authorization := some "Bearer good", fields := [("detectionType", "faces")] }
        sampleWorld).response =
        { status := 400,
          body := Body.validation "Validation failed"
            ["Detection type must be face, body, or both"] } ∧
      (uploadRoute { auth := sampleAuthEnv } sampleUploadEnv sampleUploadRequest
        sampleWorld).response =
        { status := 400, body := Body.message "No file uploaded" } :=
  ⟨((upload_validation sampleChainEnv sampleUploadEnv
        { authorization := some "Bearer good", fields := [("detectionType", "faces")] }
        sampleWorld).1 (by decide)).2.2 (selectWithoutPassword sampleUser) (some sampleFile)
      rfl rfl,
   ((upload_validation { auth := sampleAuthEnv } sampleUploadEnv sampleUploadRequest
        sampleWorld).2 "face" rfl (by decide) rfl).2.2 (selectWithoutPassword sampleUser) rfl⟩

/-! ## Guarded chains -/

/-- A route made of the guard and the handler, for a request the guard lets
through. -/
theorem runRoute_authenticated (cenv : ChainEnv) (e : Endpoint)
    (handler : Ctx → World → Outcome) (req : Request) (w : World) (user : User)
    (hchain : routeChain e = [Middleware.auth, Middleware.handler])
    (hauth : auth cenv.auth w req.authorization = AuthResult.next user) :
    runRoute cenv e handler req w =
      { handler { request := req, user := some user } w with
        trace := Event.authRan :: Event.handlerRan ::
          (handler { request := req, user := some user } w).trace } := by
  unfold runRoute
  rw [hchain]
  simp [runChain, hauth]

/-- A route made of the guard, validators and the handler, for a request the
guard lets through. -/
theorem runRoute_validated (cenv : ChainEnv) (e : Endpoint)
    (handler : Ctx → World → Outcome) (req : Request) (w : World) (user : User)
    (hchain : routeChain e = [Middleware.auth, Middleware.validators, Middleware.handler])
    (hauth : auth cenv.auth w req.authorization = AuthResult.next user) :
    runRoute cenv e handler req w =
      { handler { request := req, user := some user } w with
        trace := Event.authRan :: Event.handlerRan ::
          (handler { request := req, user := some user } w).trace } := by
  unfold runRoute
  rw [hchain]
  simp [runChain, hauth]

/-- A route of the admin router, for an administrator the guard lets through. -/
theorem runRoute_admin (cenv : ChainEnv) (e : Endpoint)
    (handler : Ctx → World → Outcome) (req : Request) (w : World) (user : User)
    (hchain : routeChain e = [Middleware.auth, Middleware.adminAuth, Middleware.handler])
    (hauth : auth cenv.auth w req.authorization = AuthResult.next user)
    (hrole : user.role = Role.admin) :
    runRoute cenv e handler req w =
      { handler { request := req, user := some user } w with
        trace := Event.authRan :: Event.adminAuthRan :: Event.handlerRan ::
          (handler { request := req, user := some user } w).trace } := by
  unfold runRoute
  rw [hchain]
  simp [runChain, hauth, adminAuth, hrole]

/-- A route of the admin router, for a user without the elevated role: the admin
guard answers 403 and the handler does not run. -/
theorem runRoute_forbidden (cenv : ChainEnv) (e : Endpoint)
    (handler : Ctx → World → Outcome) (req : Request) (w : World) (user : User)
    (hchain : routeChain e = [Middleware.auth, Middleware.adminAuth, Middleware.handler])
    (hauth : auth cenv.auth w req.authorization = AuthResult.next user)
    (hrole : user.role ≠ Role.admin) :
    runRoute cenv e handler req w =
      { response :=
          { status := 403, body := Body.message "Access denied. Admin privileges required." },
        world := w, trace := [Event.authRan, Event.adminAuthRan] } := by
  unfold runRoute
  rw [hchain]
  simp [runChain, hauth, adminAuth, hrole]

/-! ## The realtime path: failures -/

theorem realtimeHandler_trace (env : RealtimeEnv) (ctx : Ctx) (w : World) :
    (realtimeHandler env ctx w).trace = [] ∨
      (realtimeHandler env ctx w).trace = [Event.aiCalled] := by
  unfold realtimeHandler
  simp only
  split
  · exact Or.inl rfl
  · split
    · split <;> exact Or.inr rfl
    · exact Or.inl rfl

theorem realtimeHandler_failure (env : RealtimeEnv) (ctx : Ctx) (w : World) (image : String)
    (e : JsError) (himg : ctx.request.json.get "imageData" = some (Json.str image))
    (hne : image ≠ "") (hkind : truthy (ctx.request.json.get "detectionType") = true)
    (hai : env.aiService = Except.error e) :
    (realtimeHandler env ctx w).response =
      { status := 500, body := Body.realtimeFailed "Realtime detection failed" e.message } := by
  have h1 : truthy (some (Json.str image)) = true := by simp [truthy, hne]
  unfold realtimeHandler
  simp only [himg, h1, hkind, hai]
  simp

/-- C11: when the call to the AI service fails on the realtime path, the caller
gets a 500 whose `error` is the message of that failure; and in every run of the
route the AI service is called at most once. -/
theorem realtime_ai_failure (cenv : ChainEnv) (env : RealtimeEnv) (req : Request) (w : World) :
    (∀ user image e, auth cenv.auth w req.authorization = AuthResult.next user →
      req.json.get "imageData" = some (Json.str image) → image ≠ "" →
      truthy (req.json.get "detectionType") = true →
      env.aiService = Except.error e →
      (realtimeRoute cenv env req w).response =
        { status := 500, body := Body.realtimeFailed "Realtime detection failed" e.message }) ∧
    (realtimeRoute cenv env req w).trace.count Event.aiCalled ≤ 1 := by
  constructor
  · intro user image e hauth himg hne hkind hai
    unfold realtimeRoute
    rw [runRoute_authenticated cenv Endpoint.detectionRealtime (realtimeHandler env) req w user
      rfl hauth]
    exact realtimeHandler_failure env _ w image e himg hne hkind hai
  · unfold realtimeRoute
    cases hauth : auth cenv.auth w req.authorization with
    | respond r =>
      have hrun : runRoute cenv Endpoint.detectionRealtime (realtimeHandler env) req w =
          { response := r, world := w, trace := [Event.authRan] } := by
        unfold runRoute
        simp [routeChain, runChain, hauth]
      rw [hrun]
      simp
    | next user =>
      rw [runRoute_authenticated cenv Endpoint.detectionRealtime (realtimeHandler env) req w user
        rfl hauth]
      rcases realtimeHandler_trace env { request := req, user := some user } w with h | h
      · simp [h]
      · simp [h]

/-- Witness of C11: a realtime request of the sample user whose AI call times
out. -/
theorem realtime_ai_failure_witness :
    (realtimeRoute sampleChainEnv
        { now := "2024-01-01T00:00:00.000Z", aiService := Except.error timeoutError }
        sampleRealtimeCtx.request sampleWorld).response =
      { status := 500,
        body := Body.realtimeFailed "Realtime detection failed" timeoutError.message } :=
  (realtime_ai_failure sampleChainEnv
      { now := "2024-01-01T00:00:00.000Z", aiService := Except.error timeoutError }
      sampleRealtimeCtx.request sampleWorld).1
    (selectWithoutPassword sampleUser) "data:image/jpeg;base64,AAAA" timeoutError rfl rfl
    (by decide) rfl rfl

/-! ## Pagination -/

theorem ceil_div_nat (N L : ℕ) (hL : 1 ≤ L) :
    ⌈((N : ℤ) : ℚ) / ((L : ℤ) : ℚ)⌉ =
      if N % L = 0 then ((N / L : ℕ) : ℤ) else ((N / L + 1 : ℕ) : ℤ) := by
  have hdiv := (Nat.div_add_mod N L).symm
  have hmod := Nat.mod_lt N hL
  generalize N / L = k at hdiv ⊢
  generalize N % L = r at hdiv hmod ⊢
  have hLq : (0 : ℚ) < (L : ℚ) := by exact_mod_cast hL
  have hdm : (N : ℚ) = (L : ℚ) * (k : ℚ) + (r : ℚ) := by exact_mod_cast hdiv
  have hr : (r : ℚ) < (L : ℚ) := by exact_mod_cast hmod
  rw [Int.ceil_eq_iff]
  simp only [Int.cast_natCast]
  split
  · rename_i h0
    subst h0
    simp only [Nat.cast_zero, add_zero] at hdm
    constructor
    · rw [lt_div_iff₀ hLq, hdm]
      push_cast
      nlinarith
    · rw [div_le_iff₀ hLq, hdm]
      push_cast
      nlinarith
  · rename_i h0
    have hrpos : (0 : ℚ) < (r : ℚ) := by
      exact_mod_cast Nat.pos_of_ne_zero h0
    constructor
    · rw [lt_div_iff₀ hLq, hdm]
      push_cast
      nlinarith
    · rw [div_le_iff₀ hLq, hdm]
      push_cast
      nlinarith

theorem ceil_div_nat_ne_zero (N L : ℕ) (hN : 1 ≤ N) (hL : 1 ≤ L) :
    ⌈((N : ℤ) : ℚ) / ((L : ℤ) : ℚ)⌉ ≠ 0 := by
  have hpos : (0 : ℚ) < ((N : ℤ) : ℚ) / ((L : ℤ) : ℚ) := by
    apply div_pos
    · exact_mod_cast hN
    · exact_mod_cast hL
  have := Int.ceil_pos.mpr hpos
  omega

/-- The last page of a non-empty list: skipping `(⌈N/L⌉ - 1) * L` entries and
taking `L` leaves `N mod L` of them, or `L` when `L` divides `N`. -/
theorem skipLimit_lastPage {α : Type} (xs : List α) (L : ℕ) (hN : 1 ≤ xs.length)
    (hL : 1 ≤ L) :
    ∃ docs, skipLimit ((⌈((xs.length : ℤ) : ℚ) / ((L : ℤ) : ℚ)⌉ - 1) * (L : ℤ)) (L : ℤ) xs =
        Except.ok docs ∧ docs.length = lastPageSize xs.length L := by
  rw [ceil_div_nat xs.length L hL]
  have hdiv := (Nat.div_add_mod xs.length L).symm
  have hmod := Nat.mod_lt xs.length hL
  unfold lastPageSize
  generalize xs.length / L = k at hdiv ⊢
  generalize hr : xs.length % L = r at hdiv hmod ⊢
  have hL0 : (L : ℤ) ≠ 0 := by exact_mod_cast (Nat.one_le_iff_ne_zero.mp hL)
  by_cases h0 : r = 0
  · subst h0
    simp only [if_true, add_zero] at hdiv ⊢
    have hk : 1 ≤ k := by
      rcases Nat.eq_zero_or_pos k with hk0 | hk0
      · subst hk0; omega
      · exact hk0
    have hskip : ((k : ℤ) - 1) * (L : ℤ) = (((k - 1) * L : ℕ) : ℤ) := by
      push_cast [Nat.cast_sub hk]; ring
    refine ⟨(xs.drop ((k - 1) * L)).take L, ?_, ?_⟩
    · unfold skipLimit
      rw [hskip]
      generalize (k - 1) * L = m
      simp [hL0]
    · rw [List.length_take, List.length_drop, hdiv]
      have hsub : L * k - (k - 1) * L = L := by
        obtain ⟨j, rfl⟩ : ∃ j, k = j + 1 := ⟨k - 1, by omega⟩
        simp only [Nat.add_sub_cancel]
        rw [Nat.mul_succ, Nat.mul_comm j L]
        omega
      rw [hsub]; simp
  · simp only [h0, if_false]
    have hskip : (((k + 1 : ℕ) : ℤ) - 1) * (L : ℤ) = ((k * L : ℕ) : ℤ) := by
      push_cast; ring
    refine ⟨(xs.drop (k * L)).take L, ?_, ?_⟩
    · unfold skipLimit
      rw [hskip]
      generalize k * L = m
      simp [hL0]
    · rw [List.length_take, List.length_drop, hdiv, Nat.mul_comm L k]
      simp only [Nat.add_sub_cancel_left]
      omega

/-- The page a list route returns when the query asks for page `⌈N/L⌉` in pages
of `L` and `N` entities match. -/
theorem lastPage_docs {α : Type} (sorted : List α) (N L : ℕ) (pageQ limitQ : Option String)
    (hL : 1 ≤ L) (hlen : sorted.length = N)
    (hpage : parseInt pageQ = some ⌈((N : ℤ) : ℚ) / ((L : ℤ) : ℚ)⌉)
    (hlimit : parseInt limitQ = some (L : ℤ)) :
    parseIntOr limitQ 10 = (L : ℤ) ∧
    ∃ docs, skipLimit ((parseIntOr pageQ 1 - 1) * parseIntOr limitQ 10) (parseIntOr limitQ 10)
        sorted = Except.ok docs ∧
      docs.length = if N = 0 then 0 else lastPageSize N L := by
  have hL0 : (L : ℤ) ≠ 0 := by exact_mod_cast (Nat.one_le_iff_ne_zero.mp hL)
  have hlim : parseIntOr limitQ 10 = (L : ℤ) := by
    simp [parseIntOr, hlimit, hL0]
  refine ⟨hlim, ?_⟩
  rw [hlim]
  by_cases hN : N = 0
  · subst hN
    have hnil : sorted = [] := List.length_eq_zero.mp hlen
    subst hnil
    have hp : parseIntOr pageQ 1 = 1 := by
      simp [parseIntOr, hpage]
    rw [hp]
    refine ⟨[], ?_, by simp⟩
    simp [skipLimit, hL0]
  · have hN1 : 1 ≤ N := Nat.one_le_iff_ne_zero.mpr hN
    have hp : parseIntOr pageQ 1 = ⌈((N : ℤ) : ℚ) / ((L : ℤ) : ℚ)⌉ := by
      simp only [parseIntOr, hpage]
      rw [if_neg (ceil_div_nat_ne_zero N L hN1 hL)]
    rw [hp]
    subst hlen
    obtain ⟨docs, hdocs, hlen'⟩ := skipLimit_lastPage sorted L hN1 hL
    exact ⟨docs, hdocs, by simp [hN, hlen']⟩

theorem newestFirst_length (ds : List Detection) : (newestFirst ds).length = ds.length := by
  unfold newestFirst
  exact List.length_insertionSort _ _

theorem newestUsersFirst_length (us : List User) : (newestUsersFirst us).length = us.length := by
  unfold newestUsersFirst
  exact List.length_insertionSort _ _

/-- C12, the claim as stated fails: with no matching record (`N = 0`, which 10
divides) and pages of 10 the page `⌈0/10⌉ = 0` holds no record, not the 10 the
claim gives for a total that the page size divides. -/
theorem empty_store_last_page :
    (sampleWorld.detections.filter
        (historyFilter 5 { query := [("page", "0"), ("limit", "10")] })).length = 0 ∧
      lastPageSize 0 10 = 10 ∧
      (historyHandler {}
          { request := { query := [("page", "0"), ("limit", "10")] },
            user := some (selectWithoutPassword sampleUser) }
          sampleWorld).response.body.listLength = some 0 :=
  ⟨rfl, rfl, rfl⟩

/-- C12 as amended: when `N ≥ 1` entities match and the query asks for page
`⌈N/L⌉` in pages of `L ≥ 1`, each list route whose queries succeed returns
`N mod L` entities, or `L` when `L` divides `N`, and `pages == ⌈N/L⌉`; when
`N = 0` it returns no entity and `pages == 0`. -/
theorem list_last_page (env : StoreEnv) (ctx : Ctx) (w : World) (N L : ℕ) (hL : 1 ≤ L)
    (hfind : env.find = none) (hcount : env.count = none)
    (hpage : parseInt (ctx.request.query.lookup "page") =
      some ⌈((N : ℤ) : ℚ) / ((L : ℤ) : ℚ)⌉)
    (hlimit : parseInt (ctx.request.query.lookup "limit") = some (L : ℤ)) :
    (∀ user, ctx.user = some user →
      (w.detections.filter (historyFilter user._id ctx.request)).length = N →
      (historyHandler env ctx w).response.body.listLength =
          some (if N = 0 then 0 else lastPageSize N L) ∧
        (historyHandler env ctx w).response.body.pages =
          some ⌈((N : ℤ) : ℚ) / ((L : ℤ) : ℚ)⌉) ∧
    ((w.users.filter (adminUsersFilter env ctx.request)).length = N →
      (adminUsersHandler env ctx w).response.body.listLength =
          some (if N = 0 then 0 else lastPageSize N L) ∧
        (adminUsersHandler env ctx w).response.body.pages =
          some ⌈((N : ℤ) : ℚ) / ((L : ℤ) : ℚ)⌉) ∧
    (∀ owned, ownerFilter (ctx.request.query.lookup "userId") = some owned →
      (w.detections.filter (fun d =>
        optionalFilter (ctx.request.query.lookup "status") d.status.text &&
        optionalFilter (ctx.request.query.lookup "detectionType") d.detectionType &&
        owned d.user)).length = N →
      (adminDetectionsHandler env ctx w).response.body.listLength =
          some (if N = 0 then 0 else lastPageSize N L) ∧
        (adminDetectionsHandler env ctx w).response.body.pages =
          some ⌈((N : ℤ) : ℚ) / ((L : ℤ) : ℚ)⌉) := by
  refine ⟨?_, ?_, ?_⟩
  · intro user huser hN
    obtain ⟨hlim, docs, hdocs, hlen⟩ := lastPage_docs
      (newestFirst (w.detections.filter (historyFilter user._id ctx.request))) N L
      (ctx.request.query.lookup "page") (ctx.request.query.lookup "limit") hL
      (by rw [newestFirst_length, hN]) hpage hlimit
    rw [hlim] at hdocs
    unfold historyHandler
    simp only [huser, hfind, hcount, hdocs, Body.listLength, Body.pages, List.length_map, hlen,
      pagination, hlim, hN]
    simp
  · intro hN
    obtain ⟨hlim, docs, hdocs, hlen⟩ := lastPage_docs
      (newestUsersFirst (w.users.filter (adminUsersFilter env ctx.request))) N L
      (ctx.request.query.lookup "page") (ctx.request.query.lookup "limit") hL
      (by rw [newestUsersFirst_length, hN]) hpage hlimit
    rw [hlim] at hdocs
    unfold adminUsersHandler
    simp only [hfind, hcount, hdocs, Body.listLength, Body.pages, List.length_map, hlen,
      pagination, hlim, hN]
    simp
  · intro owned howned hN
    obtain ⟨hlim, docs, hdocs, hlen⟩ := lastPage_docs
      (newestFirst (w.detections.filter (fun d =>
        optionalFilter (ctx.request.query.lookup "status") d.status.text &&
        optionalFilter (ctx.request.query.lookup "detectionType") d.detectionType &&
        owned d.user))) N L
      (ctx.request.query.lookup "page") (ctx.request.query.lookup "limit") hL
      (by rw [newestFirst_length, hN]) hpage hlimit
    rw [hlim] at hdocs
    unfold adminDetectionsHandler
    simp only [howned, hfind, hcount, hdocs, Body.listLength, Body.pages, List.length_map, hlen,
      pagination, hlim, hN]
    simp

/-! ## Detail reads -/

/-- The owner-scoped query only looks at the records of the owner. -/
theorem findOwn_filter (ds : List Detection) (id user : Nat) :
    ds.find? (fun d => decide (d._id = id ∧ d.user = user)) =
      (ds.filter (fun d => decide (d.user = user))).find?
        (fun d => decide (d._id = id ∧ d.user = user)) := by
  rw [List.find?_filter]
  congr 1
  funext d
  by_cases hu : d.user = user <;> by_cases hi : d._id = id <;> simp [hu, hi]

theorem findOwn_of_find (w : World) (id user : Nat) (r : Detection)
    (hr : findDetection w id = some r) (howner : r.user = user) :
    findOwnDetection w id user = some r := by
  unfold findDetection at hr
  unfold findOwnDetection
  generalize w.detections = ds at hr
  induction ds with
  | nil => cases hr
  | cons d ds ih =>
    by_cases hi : d._id = id
    · simp only [List.find?, hi, decide_True, Option.some.injEq] at hr
      subst hr
      simp [List.find?, hi, howner]
    · simp only [List.find?, hi, decide_False] at hr
      have hrec := ih hr
      simpa [List.find?, hi] using hrec

theorem findOwn_none (w : World) (id user : Nat)
    (h : ∀ d ∈ w.detections, d._id = id → d.user ≠ user) :
    findOwnDetection w id user = none := by
  unfold findOwnDetection
  rw [List.find?_eq_none]
  intro d hd
  simp only [decide_eq_true_eq, not_and]
  exact h d hd

theorem findOwn_some (w : World) (id user : Nat) (r : Detection)
    (h : findOwnDetection w id user = some r) :
    r ∈ w.detections ∧ r._id = id ∧ r.user = user := by
  unfold findOwnDetection at h
  have hp := List.find?_some h
  have hm := List.mem_of_find?_eq_some h
  simp only [decide_eq_true_eq] at hp
  exact ⟨hm, hp.1, hp.2⟩

/-- C13: `GET /detection/:id` answers with a record exactly when the record with
that identifier belongs to the requester, answers not-found when it belongs to
someone else or does not exist, and its response is the same for any two stores
that agree on the requester's records; `GET /admin/detections/:id` answers with
any record that exists, and is reached only by an administrator. -/
theorem detail_scoped (env : StoreEnv) (ctx : Ctx) (w : World) (user : User) (text : String)
    (id : Nat) (huser : ctx.user = some user)
    (hparam : ctx.request.params.lookup "id" = some text) (hcast : castObjectId text = some id) :
    (env.find = none → ∀ r, findDetection w id = some r → r.user = user._id →
      (detectionGetHandler env ctx w).response =
        { status := 200, body := Body.detectionDetail (selectWithoutFilePath r) }) ∧
    (env.find = none → (∀ d ∈ w.detections, d._id = id → d.user ≠ user._id) →
      (detectionGetHandler env ctx w).response = notFound "Detection not found") ∧
    (∀ v, (detectionGetHandler env ctx w).response.body = Body.detectionDetail v →
      ∃ r ∈ w.detections, r._id = id ∧ r.user = user._id ∧ v = selectWithoutFilePath r) ∧
    (∀ w' : World,
      w'.detections.filter (fun d => decide (d.user = user._id)) =
        w.detections.filter (fun d => decide (d.user = user._id)) →
      (detectionGetHandler env ctx w').response = (detectionGetHandler env ctx w).response) ∧
    (env.find = none → ∀ r, findDetection w id = some r →
      (adminDetectionGetHandler env ctx w).response =
        { status := 200,
          body := Body.detectionDetail (populateUser w r.user (selectWithoutFilePath r)) }) ∧
    (∀ (cenv : ChainEnv) (req : Request) (requester : User),
      auth cenv.auth w req.authorization = AuthResult.next requester →
      requester.role ≠ Role.admin →
      (adminDetectionGetRoute cenv env req w).response.status = 403 ∧
        (adminDetectionGetRoute cenv env req w).trace = [Event.authRan, Event.adminAuthRan]) := by
  refine ⟨?_, ?_, ?_, ?_, ?_, ?_⟩
  · intro hfind r hr howner
    unfold detectionGetHandler
    simp [huser, hparam, hcast, hfind, findOwn_of_find w id user._id r hr howner]
  · intro hfind hnone
    unfold detectionGetHandler
    simp [huser, hparam, hcast, hfind, findOwn_none w id user._id hnone]
  · intro v hv
    unfold detectionGetHandler at hv
    simp only [huser, hparam, hcast, Option.some_bind] at hv
    cases hfind : env.find with
    | some e => rw [hfind] at hv; simp [serverError] at hv
    | none =>
      rw [hfind] at hv
      dsimp only at hv
      cases hown : findOwnDetection w id user._id with
      | none => rw [hown] at hv; simp [notFound] at hv
      | some r =>
        rw [hown] at hv
        simp only [Body.detectionDetail.injEq] at hv
        obtain ⟨hm, hi, hu⟩ := findOwn_some w id user._id r hown
        exact ⟨r, hm, hi, hu, hv.symm⟩
  · intro w' hsame
    have hown : findOwnDetection w' id user._id = findOwnDetection w id user._id := by
      unfold findOwnDetection
      rw [findOwn_filter w'.detections, findOwn_filter w.detections, hsame]
    unfold detectionGetHandler
    simp only [huser, hparam, hcast, Option.some_bind]
    cases env.find with
    | some e => rfl
    | none =>
      dsimp only
      rw [hown]
      cases findOwnDetection w id user._id <;> rfl
  · intro hfind r hr
    unfold adminDetectionGetHandler
    simp [hparam, hcast, hfind, hr]
  · intro cenv req requester hauth hrole
    unfold adminDetectionGetRoute
    rw [runRoute_forbidden cenv Endpoint.adminGetDetection (adminDetectionGetHandler env) req w
      requester rfl hauth hrole]
    exact ⟨rfl, rfl⟩

/-! ## Deleting a record -/

theorem incDetectionCount_find_other (id uid : Nat) (n : Int) (us : List User)
    (h : uid ≠ id) :
    (incDetectionCount id n us).find? (fun u => u._id = uid) =
      us.find? (fun u => u._id = uid) := by
  induction us with
  | nil => rfl
  | cons u us ih =>
    by_cases hu : u._id = id
    · have hne : ¬ u._id = uid := fun e => h (e.symm.trans hu)
      have hne' : ¬ id = uid := fun e => h e.symm
      simp only [incDetectionCount, hu, if_true, List.find?, hne', decide_False]
    · rw [incDetectionCount, if_neg hu]
      by_cases hq : u._id = uid
      · simp only [List.find?, hq, decide_True]
      · simp only [List.find?, hq, decide_False, ih]

/-- The three steps after the record was found, when none of them throws. -/
theorem deleteFound_ok (env : StoreEnv) (id counted : Nat) (d : Detection) (w : World)
    (hunlink : env.unlink = none) (hremove : env.removeRecords = none)
    (hcount : env.updateCount = none) :
    deleteFound env id counted d w =
      { response := { status := 200, body := Body.message "Detection deleted successfully" },
        world :=
          { users := incDetectionCount counted (-1) w.users,
            detections := removeDetection id w.detections,
            files := unlinkIfExists d.filePath w.files },
        trace :=
          (if d.filePath ∈ w.files then [Event.unlinked d.filePath] else []) ++
            [Event.recordRemoved id, Event.counterChanged counted (-1)] } := by
  unfold deleteFound
  simp only [hunlink, hremove, hcount]
  by_cases hf : d.filePath ∈ w.files <;> simp [hf]

/-- The stores after the three steps show the effect of a deletion. -/
theorem deletionEffect_of_steps (w : World) (d : Detection) :
    deletionEffect w
      { users := incDetectionCount d.user (-1) w.users,
        detections := removeDetection d._id w.detections,
        files := unlinkIfExists d.filePath w.files } d := by
  refine ⟨?_, ?_, ?_, ?_, ?_⟩
  · simp [unlinkIfExists]
  · intro f
    simp [unlinkIfExists]
  · intro e
    simp [removeDetection]
  · simp only [findUser]
    rw [incDetectionCount_find]
    simp only [Int.sub_eq_add_neg]
  · intro uid huid
    simp only [findUser]
    exact incDetectionCount_find_other d.user uid (-1) w.users huid

/-- C14: deleting an existing record, by its owner or by an administrator, when
no step throws: the answer is 200, the backing file is removed if it was there,
then the record, then the counter of the owner goes down by exactly 1; every
other file, record and user is left as it was. -/
theorem delete_record (env : StoreEnv) (ctx : Ctx) (w : World) (user : User) (text : String)
    (id : Nat) (d : Detection) (huser : ctx.user = some user)
    (hparam : ctx.request.params.lookup "id" = some text) (hcast : castObjectId text = some id)
    (hfind : env.find = none) (hunlink : env.unlink = none)
    (hremove : env.removeRecords = none) (hcount : env.updateCount = none) :
    (findOwnDetection w id user._id = some d →
      (detectionDeleteHandler env ctx w).response.status = 200 ∧
      deletionEffect w (detectionDeleteHandler env ctx w).world d ∧
      (detectionDeleteHandler env ctx w).trace = deletionTrace w d) ∧
    (findDetection w id = some d →
      (adminDetectionDeleteHandler env ctx w).response.status = 200 ∧
      deletionEffect w (adminDetectionDeleteHandler env ctx w).world d ∧
      (adminDetectionDeleteHandler env ctx w).trace = deletionTrace w d) := by
  constructor
  · intro hd
    obtain ⟨-, hid, hu⟩ := findOwn_some w id user._id d hd
    have hrun : detectionDeleteHandler env ctx w = deleteFound env id user._id d w := by
      unfold detectionDeleteHandler
      simp [huser, hparam, hcast, hfind, hd]
    rw [hrun, deleteFound_ok env id user._id d w hunlink hremove hcount]
    subst hid
    rw [← hu]
    exact ⟨rfl, deletionEffect_of_steps w d, rfl⟩
  · intro hd
    have hid : d._id = id := by
      have := List.find?_some hd
      simpa using this
    have hrun : adminDetectionDeleteHandler env ctx w = deleteFound env id d.user d w := by
      unfold adminDetectionDeleteHandler
      simp [hparam, hcast, hfind, hd]
    rw [hrun, deleteFound_ok env id d.user d w hunlink hremove hcount]
    subst hid
    exact ⟨rfl, deletionEffect_of_steps w d, rfl⟩

theorem detectionDelete_absent (env : StoreEnv) (ctx : Ctx) (w : World) (user : User)
    (text : String) (id : Nat) (huser : ctx.user = some user)
    (hparam : ctx.request.params.lookup "id" = some text) (hcast : castObjectId text = some id)
    (habsent : ∀ d ∈ w.detections, d._id = id → d.user ≠ user._id) :
    (detectionDeleteHandler env ctx w).world = w ∧
      (detectionDeleteHandler env ctx w).trace = [] ∧
      (env.find = none →
        (detectionDeleteHandler env ctx w).response = notFound "Detection not found") := by
  have hnone := findOwn_none w id user._id habsent
  unfold detectionDeleteHandler
  simp only [huser, hparam, hcast, Option.some_bind]
  cases env.find with
  | some e => exact ⟨rfl, rfl, fun h => by cases h⟩
  | none =>
    dsimp only
    rw [hnone]
    exact ⟨rfl, rfl, fun _ => rfl⟩

theorem adminDetectionDelete_absent (env : StoreEnv) (ctx : Ctx) (w : World)
    (text : String) (id : Nat)
    (hparam : ctx.request.params.lookup "id" = some text) (hcast : castObjectId text = some id)
    (habsent : ∀ d ∈ w.detections, d._id ≠ id) :
    (adminDetectionDeleteHandler env ctx w).world = w ∧
      (adminDetectionDeleteHandler env ctx w).trace = [] ∧
      (env.find = none →
        (adminDetectionDeleteHandler env ctx w).response = notFound "Detection not found") := by
  have hnone : findDetection w id = none := by
    unfold findDetection
    rw [List.find?_eq_none]
    intro d hd
    simpa using habsent d hd
  unfold adminDetectionDeleteHandler
  simp only [hparam, hcast, Option.some_bind]
  cases env.find with
  | some e => exact ⟨rfl, rfl, fun h => by cases h⟩
  | none =>
    dsimp only
    rw [hnone]
    exact ⟨rfl, rfl, fun _ => rfl⟩

/-- C15: a delete of an identifier that no record of the requester carries (the
record is missing, or belongs to someone else), and an admin delete of an
identifier that no record carries, remove no file and no record and change no
counter, and are answered 404 when the query does not throw; this is the case of
a delete repeated after a delete that succeeded. -/
theorem delete_missing (env : StoreEnv) (ctx : Ctx) (w : World) (user : User) (text : String)
    (id : Nat) (huser : ctx.user = some user)
    (hparam : ctx.request.params.lookup "id" = some text) (hcast : castObjectId text = some id) :
    ((∀ d ∈ w.detections, d._id = id → d.user ≠ user._id) →
      (detectionDeleteHandler env ctx w).world = w ∧
      (detectionDeleteHandler env ctx w).trace = [] ∧
      (env.find = none →
        (detectionDeleteHandler env ctx w).response = notFound "Detection not found")) ∧
    ((∀ d ∈ w.detections, d._id ≠ id) →
      (adminDetectionDeleteHandler env ctx w).world = w ∧
      (adminDetectionDeleteHandler env ctx w).trace = [] ∧
      (env.find = none →
        (adminDetectionDeleteHandler env ctx w).response = notFound "Detection not found")) ∧
    (∀ (first : StoreEnv) (d : Detection), findOwnDetection w id user._id = some d →
      first.find = none → first.unlink = none → first.removeRecords = none →
      first.updateCount = none →
      (detectionDeleteHandler env ctx (detectionDeleteHandler first ctx w).world).world =
        (detectionDeleteHandler first ctx w).world ∧
      (detectionDeleteHandler env ctx (detectionDeleteHandler first ctx w).world).trace = [] ∧
      (env.find = none →
        (detectionDeleteHandler env ctx (detectionDeleteHandler first ctx w).world).response =
          notFound "Detection not found")) := by
  refine ⟨detectionDelete_absent env ctx w user text id huser hparam hcast,
    adminDetectionDelete_absent env ctx w text id hparam hcast, ?_⟩
  intro first d hd h1 h2 h3 h4
  apply detectionDelete_absent env ctx _ user text id huser hparam hcast
  intro e he hid
  have hrun : detectionDeleteHandler first ctx w = deleteFound first id user._id d w := by
    unfold detectionDeleteHandler
    simp [huser, hparam, hcast, h1, hd]
  rw [hrun, deleteFound_ok first id user._id d w h2 h3 h4] at he
  simp only [removeDetection, List.mem_filter, decide_eq_true_eq] at he
  exact absurd hid he.2

/-! ## Deleting an account -/

theorem findUser_id (w : World) (id : Nat) (u : User) (h : findUser w id = some u) :
    u._id = id := by
  unfold findUser at h
  have hp := List.find?_some h
  simpa using hp

theorem mem_unlinkAll (owned : List Detection) (files : List String) (f : String) :
    f ∈ unlinkAll owned files ↔ f ∈ files ∧ ∀ d ∈ owned, d.filePath ≠ f := by
  unfold unlinkAll
  induction owned generalizing files with
  | nil => simp
  | cons d ds ih =>
    rw [List.foldl_cons, ih]
    simp only [unlinkIfExists, List.mem_filter, decide_eq_true_eq, List.mem_cons,
      forall_eq_or_imp]
    constructor
    · rintro ⟨⟨hf, hne⟩, hrest⟩
      exact ⟨hf, fun e => hne e.symm, hrest⟩
    · rintro ⟨hf, hne, hrest⟩
      exact ⟨⟨hf, fun e => hne e.symm⟩, hrest⟩

/-- C17: an administrator who sends `DELETE /admin/users/:id` with their own
identifier changes nothing in the stores, and is answered 400 when the user
query does not throw. -/
theorem admin_cannot_delete_self (cenv : ChainEnv) (env : StoreEnv) (req : Request)
    (w : World) (requester : User) (text : String)
    (hauth : auth cenv.auth w req.authorization = AuthResult.next requester)
    (hrole : requester.role = Role.admin)
    (hparam : req.params.lookup "id" = some text)
    (hcast : castObjectId text = some requester._id) :
    (adminDeleteUserRoute cenv env req w).world = w ∧
      (adminDeleteUserRoute cenv env req w).trace =
        [Event.authRan, Event.adminAuthRan, Event.handlerRan] ∧
      (env.find = none →
        (adminDeleteUserRoute cenv env req w).response =
          badRequest "You cannot delete your own account") := by
  obtain ⟨u0, hu0, -⟩ := auth_next_stored cenv.auth w req.authorization requester hauth
  have hid := findUser_id w requester._id u0 hu0
  unfold adminDeleteUserRoute
  rw [runRoute_admin cenv Endpoint.adminDeleteUser (adminDeleteUserHandler env) req w requester
    rfl hauth hrole]
  unfold adminDeleteUserHandler
  simp only [hparam, hcast, Option.some_bind]
  cases env.find with
  | some e => exact ⟨rfl, rfl, fun h => by cases h⟩
  | none =>
    dsimp only
    rw [hu0]
    dsimp only
    rw [if_pos hid.symm]
    exact ⟨rfl, rfl, fun _ => rfl⟩

/-- C18: a `DELETE /user/account` request without a password, or with a password
that does not match the one stored for the caller, removes no file, no record
and no user; it is answered 400 (for the mismatch, when the user query does not
throw). -/
theorem account_deletion_verified (cenv : ChainEnv) (env : StoreEnv) (req : Request)
    (w : World) (requester : User)
    (hauth : auth cenv.auth w req.authorization = AuthResult.next requester) :
    (req.json.get "password" = none →
      (userDeleteAccountRoute cenv env req w).world = w ∧
      (userDeleteAccountRoute cenv env req w).response =
        { status := 400,
          body := Body.validation "Validation failed"
            ["Password is required for account deletion"] }) ∧
    (∀ password stored, req.json.get "password" = some password →
      findUser w requester._id = some stored →
      env.comparePassword password stored = Except.ok false →
      (userDeleteAccountRoute cenv env req w).world = w ∧
      (env.find = none →
        (userDeleteAccountRoute cenv env req w).response = badRequest "Incorrect password")) := by
  unfold userDeleteAccountRoute
  rw [runRoute_validated cenv Endpoint.userDeleteAccount (userDeleteAccountHandler env) req w
    requester rfl hauth]
  constructor
  · intro hpw
    unfold userDeleteAccountHandler
    rw [hpw]
    exact ⟨rfl, rfl⟩
  · intro password stored hpw hstored hcompare
    unfold userDeleteAccountHandler
    rw [hpw]
    dsimp only
    cases env.find with
    | some e => exact ⟨rfl, fun h => by cases h⟩
    | none =>
      dsimp only
      rw [hstored]
      dsimp only
      rw [hcompare]
      exact ⟨rfl, fun _ => rfl⟩

/-- The handler of `DELETE /user/account` when the password matches and nothing
throws. -/
theorem userDeleteAccount_ok (env : StoreEnv) (req : Request) (w : World)
    (requester stored : User) (password : Json)
    (hpw : req.json.get "password" = some password)
    (hstored : findUser w requester._id = some stored)
    (hcompare : env.comparePassword password stored = Except.ok true)
    (hfind : env.find = none) (howned : env.findOwned = none) (hunlink : env.unlink = none)
    (hremove : env.removeRecords = none) (hremoveUser : env.removeUser = none) :
    (userDeleteAccountHandler env { request := req, user := some requester } w).response.status =
        200 ∧
      (userDeleteAccountHandler env { request := req, user := some requester } w).world =
        { users := removeUser requester._id w.users,
          detections := removeDetectionsOf requester._id w.detections,
          files := unlinkAll (w.detections.filter (fun d => decide (d.user = requester._id)))
            w.files } := by
  have hid := findUser_id w requester._id stored hstored
  unfold userDeleteAccountHandler
  simp only [hpw, hfind, hstored, hcompare, howned, hunlink, hremove, hremoveUser, hid]
  constructor
  · split <;> first | rfl | simp_all
  · split <;> first | rfl | simp_all

/-- C19: a `DELETE /user/account` with the matching password, when no step
throws, is answered 200 and leaves no user with the identifier of the caller, no
record owned by the caller and none of the files of those records; every record
and user of somebody else, and every file that backs no record of the caller,
is kept. -/
theorem account_deletion_cascades (cenv : ChainEnv) (env : StoreEnv) (req : Request)
    (w : World) (requester stored : User) (password : Json)
    (hauth : auth cenv.auth w req.authorization = AuthResult.next requester)
    (hpw : req.json.get "password" = some password)
    (hstored : findUser w requester._id = some stored)
    (hcompare : env.comparePassword password stored = Except.ok true)
    (hfind : env.find = none) (howned : env.findOwned = none) (hunlink : env.unlink = none)
    (hremove : env.removeRecords = none) (hremoveUser : env.removeUser = none) :
    (userDeleteAccountRoute cenv env req w).response.status = 200 ∧
      findUser (userDeleteAccountRoute cenv env req w).world requester._id = none ∧
      (∀ d ∈ (userDeleteAccountRoute cenv env req w).world.detections,
        d.user ≠ requester._id) ∧
      (∀ d ∈ w.detections, d.user = requester._id →
        d.filePath ∉ (userDeleteAccountRoute cenv env req w).world.files) ∧
      (∀ d ∈ w.detections, d.user ≠ requester._id →
        d ∈ (userDeleteAccountRoute cenv env req w).world.detections) ∧
      (∀ u ∈ w.users, u._id ≠ requester._id →
        u ∈ (userDeleteAccountRoute cenv env req w).world.users) ∧
      (∀ f ∈ w.files, (∀ d ∈ w.detections, d.user = requester._id → d.filePath ≠ f) →
        f ∈ (userDeleteAccountRoute cenv env req w).world.files) := by
  obtain ⟨hstatus, hworld⟩ := userDeleteAccount_ok env req w requester stored password hpw
    hstored hcompare hfind howned hunlink hremove hremoveUser
  unfold userDeleteAccountRoute
  rw [runRoute_validated cenv Endpoint.userDeleteAccount (userDeleteAccountHandler env) req w
    requester rfl hauth]
  simp only [hworld]
  refine ⟨hstatus, ?_, ?_, ?_, ?_, ?_, ?_⟩
  · unfold findUser removeUser
    rw [List.find?_eq_none]
    intro u hu
    simp only [List.mem_filter, decide_eq_true_eq] at hu
    simpa using hu.2
  · intro d hd
    simp only [removeDetectionsOf, List.mem_filter, decide_eq_true_eq] at hd
    exact hd.2
  · intro d hd howner
    rw [mem_unlinkAll]
    intro hmem
    exact hmem.2 d (by simp [hd, howner]) rfl
  · intro d hd howner
    simp [removeDetectionsOf, hd, howner]
  · intro u hu hne
    simp [removeUser, hu, hne]
  · intro f hf hother
    rw [mem_unlinkAll]
    refine ⟨hf, ?_⟩
    intro d hd
    simp only [List.mem_filter, decide_eq_true_eq] at hd
    exact hother d hd.1 hd.2

/-! ## Admin edits and deletions at their failing inputs -/

/-- C16, the code at the failing input: the administrator sends
`PUT /admin/users/9` for their own account with `isActive` as the text `false`;
the test `isActive === false` lets it through, the store casts the text to
false, the answer is 200 and the guard then rejects the administrator's token. -/
theorem admin_self_deactivation_by_text :
    (adminPutUserRoute adminChainEnv {} selfDeactivateRequest populatedWorld).response.status =
        200 ∧
      (findUser (adminPutUserRoute adminChainEnv {} selfDeactivateRequest populatedWorld).world
        9).map (fun u => u.isActive) = some false ∧
      (auth adminChainEnv.auth
        (adminPutUserRoute adminChainEnv {} selfDeactivateRequest populatedWorld).world
        (some "Bearer root")).rejection = some 401 :=
  ⟨rfl, rfl, rfl⟩

/-- C20, the code at the failing input: the administrator deletes user 5, whose
record has its file on disk; the user and the record are gone and the file is
still there, whereas the same account deleted through `DELETE /user/account`
leaves no file. -/
theorem admin_delete_user_keeps_files :
    (adminDeleteUserRoute adminChainEnv {} deleteUserRequest populatedWorld).response.status =
        200 ∧
      (adminDeleteUserRoute adminChainEnv {} deleteUserRequest populatedWorld).world =
        { users := [sampleAdmin], detections := [], files := ["uploads/cat.png"] } ∧
      (userDeleteAccountRoute adminChainEnv sampleStoreEnv deleteAccountRequest
        populatedWorld).world =
        { users := [sampleAdmin], detections := [], files := [] } :=
  ⟨rfl, rfl, rfl⟩

/-! ## Witnesses on the sample stores -/

/-- Witness of the amended C12: the sample user has one record and asks for page
`⌈1/10⌉` in pages of 10. -/
theorem list_last_page_witness :
    (historyHandler {} firstPageCtx populatedWorld).response.body.listLength =
        some (if 1 = 0 then 0 else lastPageSize 1 10) ∧
      (historyHandler {} firstPageCtx populatedWorld).response.body.pages =
        some ⌈(((1 : ℕ) : ℤ) : ℚ) / (((10 : ℕ) : ℤ) : ℚ)⌉ :=
  (list_last_page {} firstPageCtx populatedWorld 1 10 (by decide) rfl rfl
    (by rw [ceil_div_nat 1 10 (by decide)]; rfl) rfl).1
    (selectWithoutPassword sampleUser) rfl rfl

/-- Witness of C13: the sample user reads their own record. -/
theorem detail_scoped_witness :
    (detectionGetHandler {} ownRecordCtx populatedWorld).response =
      { status := 200, body := Body.detectionDetail (selectWithoutFilePath storedDetection) } :=
  (detail_scoped {} ownRecordCtx populatedWorld (selectWithoutPassword sampleUser) "1" 1 rfl rfl
    rfl).1 rfl storedDetection rfl rfl

/-- Witness of C14: the sample user deletes their record, whose file exists. -/
theorem delete_record_witness :
    (detectionDeleteHandler {} ownRecordCtx populatedWorld).response.status = 200 ∧
      deletionEffect populatedWorld (detectionDeleteHandler {} ownRecordCtx populatedWorld).world
        storedDetection ∧
      (detectionDeleteHandler {} ownRecordCtx populatedWorld).trace =
        deletionTrace populatedWorld storedDetection :=
  (delete_record {} ownRecordCtx populatedWorld (selectWithoutPassword sampleUser) "1" 1
    storedDetection rfl rfl rfl rfl rfl rfl rfl).1 rfl

/-- Witness of C15: the sample user deletes the record 2, which does not
exist. -/
theorem delete_missing_witness :
    (detectionDeleteHandler {} missingRecordCtx populatedWorld).world = populatedWorld ∧
      (detectionDeleteHandler {} missingRecordCtx populatedWorld).trace = [] ∧
      ((({} : StoreEnv).find = none) →
        (detectionDeleteHandler {} missingRecordCtx populatedWorld).response =
          notFound "Detection not found") :=
  (delete_missing {} missingRecordCtx populatedWorld (selectWithoutPassword sampleUser) "2" 2
    rfl rfl rfl).1 (by decide)

/-- Witness of C17: the administrator sends `DELETE /admin/users/9`. -/
theorem admin_cannot_delete_self_witness :
    (adminDeleteUserRoute adminChainEnv {} selfDeleteRequest populatedWorld).world =
      populatedWorld :=
  (admin_cannot_delete_self adminChainEnv {} selfDeleteRequest populatedWorld
    (selectWithoutPassword sampleAdmin) "9" rfl rfl rfl rfl).1

/-- Witness of C18: the sample user sends `DELETE /user/account` with a password
that does not match. -/
theorem account_deletion_verified_witness :
    (userDeleteAccountRoute adminChainEnv sampleStoreEnv wrongPasswordRequest
        populatedWorld).world = populatedWorld :=
  ((account_deletion_verified adminChainEnv sampleStoreEnv wrongPasswordRequest populatedWorld
    (selectWithoutPassword sampleUser) rfl).2 (Json.str "guess") sampleUser rfl rfl rfl).1

/-- Witness of C19: the sample user sends `DELETE /user/account` with the
matching password. -/
theorem account_deletion_cascades_witness :
    (userDeleteAccountRoute adminChainEnv sampleStoreEnv deleteAccountRequest
        populatedWorld).response.status = 200 ∧
      findUser (userDeleteAccountRoute adminChainEnv sampleStoreEnv deleteAccountRequest
        populatedWorld).world (selectWithoutPassword sampleUser)._id = none :=
  ⟨(account_deletion_cascades adminChainEnv sampleStoreEnv deleteAccountRequest populatedWorld
      (selectWithoutPassword sampleUser) sampleUser (Json.str "secret") rfl rfl rfl rfl rfl rfl
      rfl rfl rfl).1,
   (account_deletion_cascades adminChainEnv sampleStoreEnv deleteAccountRequest populatedWorld
      (selectWithoutPassword sampleUser) sampleUser (Json.str "secret") rfl rfl rfl rfl rfl rfl
      rfl rfl rfl).2.1⟩

/-! ## File paths in responses -/

theorem uploadCatch_noPaths (env : UploadEnv) (e : JsError) (d : Detection) (w : World)
    (trace : List Event) : (uploadCatch env e d w trace).response.body.filePathFields = [] := by
  unfold uploadCatch
  split <;> rfl

theorem uploadTry_noPaths (env : UploadEnv) (user : User) (d : Detection) (w : World)
    (trace : List Event) : (uploadTry env user d w trace).response.body.filePathFields = [] := by
  unfold uploadTry
  split
  · exact uploadCatch_noPaths _ _ _ _ _
  · split
    · exact uploadCatch_noPaths _ _ _ _ _
    · dsimp only
      split
      · exact uploadCatch_noPaths _ _ _ _ _
      · try dsimp only
        split
        · exact uploadCatch_noPaths _ _ _ _ _
        · rfl

theorem uploadHandler_noPaths (env : UploadEnv) (ctx : Ctx) (w : World) :
    (uploadHandler env ctx w).response.body.filePathFields = [] := by
  unfold uploadHandler
  split
  · rfl
  · split
    · rfl
    · split
      · dsimp only
        split
        · rfl
        · exact uploadTry_noPaths _ _ _ _ _
      · rfl

/-- C24: no record in a response of `GET /detection/history`,
`GET /detection/:id`, `GET /admin/detections` or `GET /admin/detections/:id`
has a `filePath`, and the responses of the upload handler hold no `filePath`
field at all. -/
theorem responses_hide_filePath (env : StoreEnv) (uenv : UploadEnv) (ctx : Ctx) (w : World) :
    (∀ p ∈ (historyHandler env ctx w).response.body.filePathFields, p = none) ∧
    (∀ p ∈ (detectionGetHandler env ctx w).response.body.filePathFields, p = none) ∧
    (∀ p ∈ (adminDetectionsHandler env ctx w).response.body.filePathFields, p = none) ∧
    (∀ p ∈ (adminDetectionGetHandler env ctx w).response.body.filePathFields, p = none) ∧
    (uploadHandler uenv ctx w).response.body.filePathFields = [] := by
  refine ⟨?_, ?_, ?_, ?_, uploadHandler_noPaths uenv ctx w⟩
  · intro p hp
    unfold historyHandler at hp
    split at hp
    · simp [serverError, Body.filePathFields] at hp
    · dsimp only at hp
      split at hp
      · simp only [Body.filePathFields, List.map_map, List.mem_map] at hp
        obtain ⟨d, -, hd⟩ := hp
        exact hd.symm
      · simp [serverError, Body.filePathFields] at hp
  · intro p hp
    unfold detectionGetHandler at hp
    split at hp
    · split at hp
      · simp [notFound, Body.filePathFields] at hp
      · simp only [Body.filePathFields, List.mem_singleton] at hp
        exact hp
    · simp [serverError, Body.filePathFields] at hp
  · intro p hp
    unfold adminDetectionsHandler at hp
    dsimp only at hp
    split at hp
    · simp [serverError, Body.filePathFields] at hp
    · try dsimp only at hp
      split at hp
      · simp only [Body.filePathFields, List.map_map, List.mem_map] at hp
        obtain ⟨d, -, hd⟩ := hp
        exact hd.symm
      · simp [serverError, Body.filePathFields] at hp
  · intro p hp
    unfold adminDetectionGetHandler at hp
    split at hp
    · split at hp
      · simp [notFound, Body.filePathFields] at hp
      · simp only [Body.filePathFields, List.mem_singleton] at hp
        exact hp
    · simp [serverError, Body.filePathFields] at hp

/-! ## The upload form of the frontend -/

/-- C27: the form `handleFileUpload` sends holds no `detectionType`, and an
upload request without `detectionType` creates no Detection Record and changes
no user; once past the guard and the upload middleware it is answered 400
`Validation failed`. -/
theorem frontend_upload_rejected (cenv : ChainEnv) (env : UploadEnv) (w : World) :
    (∀ token, (detectFromFileRequest token).fields.lookup "detectionType" = none) ∧
    (∀ req : Request, req.fields.lookup "detectionType" = none →
      (uploadRoute cenv env req w).world.detections = w.detections ∧
      (uploadRoute cenv env req w).world.users = w.users ∧
      (∀ id status, Event.saved id status ∉ (uploadRoute cenv env req w).trace) ∧
      ∀ user file, auth cenv.auth w req.authorization = AuthResult.next user →
        cenv.multer = Except.ok file →
        (uploadRoute cenv env req w).response =
          { status := 400,
            body := Body.validation "Validation failed"
              ["Detection type must be face, body, or both"] }) := by
  refine ⟨fun _ => rfl, ?_⟩
  intro req hnone
  have h : ∀ kind, req.fields.lookup "detectionType" = some kind → kind ∉ detectionTypes := by
    intro kind hk
    rw [hnone] at hk
    cases hk
  rw [uploadRoute_eq]
  cases hauth : auth cenv.auth w req.authorization with
  | respond r =>
    refine ⟨rfl, rfl, ?_, ?_⟩
    · intro id status hmem
      simp at hmem
    · intro user file hu
      cases hu
  | next u =>
    cases hm : cenv.multer with
    | error e =>
      refine ⟨rfl, rfl, ?_, ?_⟩
      · intro id status hmem
        simp at hmem
      · intro user file _ hf
        cases hf
    | ok f =>
      cases f with
      | none =>
        simp [uploadHandler_invalid env { request := req, user := some u } w h]
      | some f =>
        simp [uploadHandler_invalid env { request := req, user := some u, file := some f }
          { w with files := f.path :: w.files } h]

/-- Witness of C27: the request of the frontend with the sample credential and
file is answered 400 and stores no record. -/
theorem frontend_upload_rejected_witness :
    (uploadRoute sampleChainEnv sampleUploadEnv (detectFromFileRequest (some "good"))
        sampleWorld).world.detections = sampleWorld.detections ∧
      (uploadRoute sampleChainEnv sampleUploadEnv (detectFromFileRequest (some "good"))
        sampleWorld).response =
        { status := 400,
          body := Body.validation "Validation failed"
            ["Detection type must be face, body, or both"] } :=
  ⟨((frontend_upload_rejected sampleChainEnv sampleUploadEnv sampleWorld).2
      (detectFromFileRequest (some "good")) rfl).1,
    ((frontend_upload_rejected sampleChainEnv sampleUploadEnv sampleWorld).2
      (detectFromFileRequest (some "good")) rfl).2.2.2
      (selectWithoutPassword sampleUser) (some sampleFile) rfl rfl⟩

/-! ## Pagination from the query -/

theorem pages_negative_limit (page limit : Int) (total : Nat) (hlimit : limit < 0) :
    (pagination page limit total).pages ≤ 0 ∧
      ((pagination page limit total).pages < 0 ↔ -limit ≤ (total : Int)) := by
  have hl : ((limit : Int) : ℚ) < 0 := by exact_mod_cast hlimit
  have ht : (0 : ℚ) ≤ ((total : Int) : ℚ) := by exact_mod_cast Int.natCast_nonneg total
  show ⌈((total : Int) : ℚ) / (limit : ℚ)⌉ ≤ 0 ∧
    (⌈((total : Int) : ℚ) / (limit : ℚ)⌉ < 0 ↔ -limit ≤ (total : Int))
  constructor
  · rw [Int.ceil_le]
    push_cast
    exact div_nonpos_iff.mpr (Or.inl ⟨ht, hl.le⟩)
  · have hstep : ⌈((total : Int) : ℚ) / (limit : ℚ)⌉ < 0 ↔
        ⌈((total : Int) : ℚ) / (limit : ℚ)⌉ ≤ -1 := by omega
    rw [hstep, Int.ceil_le, div_le_iff_of_neg hl]
    constructor
    · intro h
      have h2 : ((-limit : Int) : ℚ) ≤ ((total : Int) : ℚ) := by
        push_cast at h ⊢
        linarith
      exact_mod_cast h2
    · intro h
      have h2 : ((-limit : Int) : ℚ) ≤ ((total : Int) : ℚ) := by exact_mod_cast h
      push_cast at h2 ⊢
      linarith

theorem skipLimit_negative {α : Type} (skip limit : Int) (docs : List α) (h : skip < 0) :
    ∀ found, skipLimit skip limit docs ≠ Except.ok found := by
  intro found
  unfold skipLimit
  rw [if_pos h]
  intro hc
  cases hc

/-- C30, the claim as stated fails: with `limit=-5`, no `page` and one matching
record the limit is passed through as -5, yet the skip is 0 and the summary has
`pages` 0: neither is negative. -/
theorem negative_limit_nothing_negative :
    effectiveLimit { query := [("limit", "-5")] } = -5 ∧
      effectiveSkip { query := [("limit", "-5")] } = 0 ∧
      (historyHandler {}
          { request := { query := [("limit", "-5")] },
            user := some (selectWithoutPassword sampleUser) }
          populatedWorld).response.body.pages = some 0 := by
  refine ⟨by decide, by decide, ?_⟩
  have h := pages_negative_limit 1 (-5) 1 (by decide)
  have hzero : (pagination 1 (-5) 1).pages = 0 := by
    have h1 := h.1
    have h2 : ¬ (pagination 1 (-5) 1).pages < 0 := by
      rw [h.2]
      decide
    omega
  exact congrArg some hzero

/-- C30 as amended: the list routes take `page = parseInt(query.page) || 1`,
`limit = parseInt(query.limit) || 10` and `skip = (page - 1) * limit`; a page or
limit that is missing, non-numeric or zero gives page 1, limit 10 and skip 0,
and any other value, negative ones included, is passed through unchanged.  A
negative page with a positive limit gives a negative skip, which the query
rejects (500); a negative limit gives `pages = ⌈total/limit⌉ ≤ 0`, negative
exactly when `total ≥ |limit|`. -/
theorem pagination_from_query (env : StoreEnv) (ctx : Ctx) (w : World) :
    ((parseInt (ctx.request.query.lookup "page") = none ∨
        parseInt (ctx.request.query.lookup "page") = some 0) →
      effectivePage ctx.request = 1) ∧
    ((parseInt (ctx.request.query.lookup "limit") = none ∨
        parseInt (ctx.request.query.lookup "limit") = some 0) →
      effectiveLimit ctx.request = 10) ∧
    (effectivePage ctx.request = 1 → effectiveSkip ctx.request = 0) ∧
    (∀ n, n ≠ 0 → parseInt (ctx.request.query.lookup "page") = some n →
      effectivePage ctx.request = n) ∧
    (∀ n, n ≠ 0 → parseInt (ctx.request.query.lookup "limit") = some n →
      effectiveLimit ctx.request = n) ∧
    (∀ user, ctx.user = some user → env.find = none → env.count = none →
      0 ≤ effectiveSkip ctx.request →
      ∃ docs,
        skipLimit (effectiveSkip ctx.request) (effectiveLimit ctx.request)
          (newestFirst (w.detections.filter (historyFilter user._id ctx.request))) =
            Except.ok docs ∧
        (historyHandler env ctx w).response =
          { status := 200,
            body := Body.detectionList (docs.map selectWithoutFilePath)
              (pagination (effectivePage ctx.request) (effectiveLimit ctx.request)
                (w.detections.filter (historyFilter user._id ctx.request)).length) }) ∧
    (effectivePage ctx.request < 0 → 0 < effectiveLimit ctx.request →
      effectiveSkip ctx.request < 0 ∧
      (∀ user, ctx.user = some user →
        (historyHandler env ctx w).response =
          serverError "Server error retrieving history") ∧
      (adminUsersHandler env ctx w).response = serverError "Server error retrieving users") ∧
    (effectiveLimit ctx.request < 0 → ∀ total : Nat,
      (pagination (effectivePage ctx.request) (effectiveLimit ctx.request) total).pages ≤ 0 ∧
      ((pagination (effectivePage ctx.request) (effectiveLimit ctx.request) total).pages < 0 ↔
        -effectiveLimit ctx.request ≤ (total : Int))) := by
  refine ⟨?_, ?_, ?_, ?_, ?_, ?_, ?_, ?_⟩
  · intro h
    unfold effectivePage parseIntOr
    rcases h with h | h <;> simp [h]
  · intro h
    unfold effectiveLimit parseIntOr
    rcases h with h | h <;> simp [h]
  · intro h
    unfold effectiveSkip
    rw [h]
    simp
  · intro n hn h
    unfold effectivePage parseIntOr
    simp [h, hn]
  · intro n hn h
    unfold effectiveLimit parseIntOr
    simp [h, hn]
  · intro user huser hfind hcount hskip
    have hnot : ¬ effectiveSkip ctx.request < 0 := by omega
    have hdocs : ∃ docs, skipLimit (effectiveSkip ctx.request) (effectiveLimit ctx.request)
        (newestFirst (w.detections.filter (historyFilter user._id ctx.request))) =
          Except.ok docs := by
      unfold skipLimit
      rw [if_neg hnot]
      split
      · exact ⟨_, rfl⟩
      · exact ⟨_, rfl⟩
    obtain ⟨docs, hdocs⟩ := hdocs
    refine ⟨docs, hdocs, ?_⟩
    have hdocs2 := hdocs
    unfold effectiveSkip effectivePage effectiveLimit at hdocs2
    unfold historyHandler effectivePage effectiveLimit
    simp only [huser, hfind, hcount, hdocs2]
  · intro hpage hlimit
    have hskip : effectiveSkip ctx.request < 0 := by
      unfold effectiveSkip
      exact mul_neg_of_neg_of_pos (by omega) hlimit
    refine ⟨hskip, ?_, ?_⟩
    · intro user huser
      unfold effectiveSkip effectivePage effectiveLimit at hskip
      unfold historyHandler
      simp only [huser]
      split
      · rename_i docs _ hok _
        exact absurd hok (skipLimit_negative _ _ _ hskip docs)
      · rfl
    · unfold effectiveSkip effectivePage effectiveLimit at hskip
      unfold adminUsersHandler
      dsimp only
      split
      · rename_i docs _ hok _
        exact absurd hok (skipLimit_negative _ _ _ hskip docs)
      · rfl
  · intro hlimit total
    exact pages_negative_limit _ _ total hlimit

/-- Witness of the amended C30: a page that is not a number and a limit of 0
give page 1, limit 10 and skip 0. -/
theorem pagination_from_query_witness :
    effectivePage { query := [("page", "abc"), ("limit", "0")] } = 1 ∧
      effectiveLimit { query := [("page", "abc"), ("limit", "0")] } = 10 ∧
      effectiveSkip { query := [("page", "abc"), ("limit", "0")] } = 0 :=
  ⟨(pagination_from_query {} { request := { query := [("page", "abc"), ("limit", "0")] } }
      sampleWorld).1 (Or.inl (by decide)),
    (pagination_from_query {} { request := { query := [("page", "abc"), ("limit", "0")] } }
      sampleWorld).2.1 (Or.inr (by decide)),
    (pagination_from_query {} { request := { query := [("page", "abc"), ("limit", "0")] } }
      sampleWorld).2.2.1 (by decide)⟩

/-! ## The detection kind on the realtime path -/

theorem detectionTypeState_mem (clicks : List String)
    (h : ∀ c ∈ clicks, c ∈ detectionTypeOptions) :
    detectionTypeState clicks ∈ detectionTypeOptions := by
  unfold detectionTypeState
  have hinit : "all" ∈ detectionTypeOptions := by decide
  generalize "all" = init at hinit
  induction clicks generalizing init with
  | nil => exact hinit
  | cons c cs ih =>
    rw [List.foldl_cons]
    exact ih (fun x hx => h x (List.mem_cons_of_mem _ hx)) c (h c (List.mem_cons_self _ _))

theorem realtimeAiRequest_kind (ctx : Ctx) (payload : JsObject)
    (h : realtimeAiRequest ctx = some payload) :
    payload.get "detection_type" = ctx.request.json.get "detectionType" ∧
      truthy (ctx.request.json.get "detectionType") = true := by
  unfold realtimeAiRequest at h
  dsimp only at h
  split at h
  · cases h
  · rename_i hfalsy
    have htruthy : truthy (ctx.request.json.get "detectionType") = true := by
      cases ht : truthy (ctx.request.json.get "detectionType")
      · exact absurd (Or.inr ht) hfalsy
      · rfl
    split at h
    · rename_i image kind himage hkind
      cases h
      refine ⟨?_, htruthy⟩
      rw [hkind]
      rfl
    · cases h

/-- C23, the claim as stated fails: with the selector untouched the frontend
sends `detectionType` `all`, which is none of `face`, `body`, `both`, `objects`,
and the backend forwards it to the AI service as `detection_type`. -/
theorem realtime_kind_all_forwarded :
    (detectFromCamera [] "data:image/jpeg;base64,AAAA").get "detectionType" =
        some (Json.str "all") ∧
      "all" ∉ realtimeKinds ∧
      realtimeAiRequest
          { request := { json := detectFromCamera [] "data:image/jpeg;base64,AAAA" } } =
        some [("image_data", Json.str "data:image/jpeg;base64,AAAA"),
              ("detection_type", Json.str "all")] ∧
      (realtimeHandler { now := "t", aiService := Except.ok plainAiBody }
          { request := { json := detectFromCamera [] "data:image/jpeg;base64,AAAA" } }
          sampleWorld).trace = [Event.aiCalled] :=
  ⟨rfl, by decide, rfl, rfl⟩

/-- C23 as amended: `POST /detection/realtime` forwards as `detection_type` the
`detectionType` of the request unchanged, whatever truthy value it is, without
checking it against a set of kinds, and calls the AI service exactly when it has
such a payload; the realtime call of the frontend sends the state of the
selector, which is one of `all`, `face`, `body`, `objects` and is `all` until
the selector is used, and `all` is also what `detectFromImage` sends when it is
given no kind. -/
theorem realtime_kind_forwarded (env : RealtimeEnv) (ctx : Ctx) (w : World) :
    (∀ payload, realtimeAiRequest ctx = some payload →
      payload.get "detection_type" = ctx.request.json.get "detectionType" ∧
      truthy (ctx.request.json.get "detectionType") = true) ∧
    (Event.aiCalled ∈ (realtimeHandler env ctx w).trace ↔
      (realtimeAiRequest ctx).isSome = true) ∧
    (∀ (kind : Json) (image : String), truthy (some kind) = true → image ≠ "" →
      realtimeAiRequest
          { request := { json := [("imageData", Json.str image), ("detectionType", kind)] } } =
        some [("image_data", Json.str image), ("detection_type", kind)]) ∧
    (∀ clicks frame, (∀ c ∈ clicks, c ∈ detectionTypeOptions) →
      ∃ kind ∈ detectionTypeOptions,
        (detectFromCamera clicks frame).get "detectionType" = some (Json.str kind)) ∧
    (∀ frame, (detectFromCamera [] frame).get "detectionType" = some (Json.str "all")) ∧
    (∀ frame, (detectFromImage frame none).get "detectionType" = some (Json.str "all")) := by
  refine ⟨realtimeAiRequest_kind ctx, ?_, ?_, ?_, fun _ => rfl, fun _ => rfl⟩
  · unfold realtimeHandler realtimeAiRequest
    dsimp only
    split
    · simp
    · rename_i hfalsy
      have htruthy : truthy (ctx.request.json.get "detectionType") = true := by
        cases ht : truthy (ctx.request.json.get "detectionType")
        · exact absurd (Or.inr ht) hfalsy
        · rfl
      cases himage : ctx.request.json.get "imageData" with
      | none => simp
      | some image =>
        cases hkind : ctx.request.json.get "detectionType" with
        | none => rw [hkind] at htruthy; cases htruthy
        | some kind =>
          cases image <;> cases env.aiService <;> simp
  · intro kind image hkind himage
    unfold realtimeAiRequest
    have h1 : JsObject.get [("imageData", Json.str image), ("detectionType", kind)]
        "imageData" = some (Json.str image) := rfl
    have h2 : JsObject.get [("imageData", Json.str image), ("detectionType", kind)]
        "detectionType" = some kind := rfl
    simp only [h1, h2, hkind]
    simp [truthy, himage]
  · intro clicks frame hclicks
    exact ⟨detectionTypeState clicks, detectionTypeState_mem clicks hclicks, rfl⟩

/-- Witness of the amended C23: the kind `objects` of a request is forwarded, and
after a click on `face` the frontend sends `face`. -/
theorem realtime_kind_forwarded_witness :
    realtimeAiRequest
        { request := { json := [("imageData", Json.str "data:image/jpeg;base64,AAAA"),
                                ("detectionType", Json.str "objects")] } } =
      some [("image_data", Json.str "data:image/jpeg;base64,AAAA"),
            ("detection_type", Json.str "objects")] ∧
    ∃ kind ∈ detectionTypeOptions,
      (detectFromCamera ["face"] "data:image/jpeg;base64,AAAA").get "detectionType" =
        some (Json.str kind) :=
  ⟨(realtime_kind_forwarded { now := "t", aiService := Except.ok plainAiBody } sampleRealtimeCtx
      sampleWorld).2.2.1 (Json.str "objects") "data:image/jpeg;base64,AAAA" (by decide)
      (by decide),
    (realtime_kind_forwarded { now := "t", aiService := Except.ok plainAiBody } sampleRealtimeCtx
      sampleWorld).2.2.2.1 ["face"] "data:image/jpeg;base64,AAAA" (by decide)⟩

/-! ## Statistics -/

theorem status_counts (ds : List Detection) :
    ds.length =
      ds.countP (fun d => decide (d.status = Status.completed)) +
        ds.countP (fun d => decide (d.status = Status.failed)) +
        ds.countP (fun d => decide (d.status = Status.processing)) := by
  induction ds with
  | nil => rfl
  | cons d ds ih =>
    simp only [List.length_cons, List.countP_cons]
    cases d.status <;> simp <;> omega

theorem kind_counts (ds : List Detection) (h : ∀ d ∈ ds, d.detectionType ∈ detectionTypes) :
    ds.countP (fun d => decide (d.detectionType ∈ ["face", "both"])) +
        ds.countP (fun d => decide (d.detectionType ∈ ["body", "both"])) =
      ds.length + ds.countP (fun d => decide (d.detectionType = "both")) := by
  induction ds with
  | nil => rfl
  | cons d ds ih =>
    have hrest := ih (fun x hx => h x (List.mem_cons_of_mem _ hx))
    have hd := h d (List.mem_cons_self _ _)
    simp only [List.length_cons, List.countP_cons]
    generalize ds.countP (fun d => decide (d.detectionType ∈ ["face", "both"])) = a at hrest ⊢
    generalize ds.countP (fun d => decide (d.detectionType ∈ ["body", "both"])) = b at hrest ⊢
    generalize ds.countP (fun d => decide (d.detectionType = "both")) = c at hrest ⊢
    simp only [detectionTypes, List.mem_cons, List.mem_singleton, List.not_mem_nil,
      or_false] at hd
    rcases hd with hd | hd | hd <;> rw [hd] <;> simp <;> omega

theorem groupAll_getD_system (ds : List Detection) :
    (groupAll ds systemStatsOf).getD {} = systemStatsOf ds := by
  cases ds <;> rfl

theorem groupAll_getD_summary (ds : List Detection) :
    (groupAll ds summaryStatsOf).getD {} = summaryStatsOf ds := by
  cases ds <;> rfl

theorem groupAll_getD_dashboard (ds : List Detection) :
    (groupAll ds dashboardStatsOf).getD {} = dashboardStatsOf ds := by
  cases ds <;> rfl

/-- C29: when the queries of `GET /admin/stats` succeed its detection statistics
satisfy `totalDetections = completedDetections + failedDetections +
processingDetections`, and all four are 0 for an empty store; when every record
has a `detectionType` of the schema, the statistics of
`GET /detection/stats/summary` and of `GET /user/dashboard` satisfy
`faceDetections + bodyDetections = totalDetections +` the number of the
requester's records of type `both`. -/
theorem stats_identities (env : StoreEnv) (ctx : Ctx) (w : World) (user : User)
    (activity : List (String × Nat)) (huser : ctx.user = some user)
    (hfind : env.find = none) (haggregate : env.aggregate = none)
    (hactivity : env.activity = Except.ok activity) :
    (∃ s, (adminStatsHandler env ctx w).response.body.systemStats = some s ∧
      s.totalDetections =
        s.completedDetections + s.failedDetections + s.processingDetections ∧
      (w.detections = [] →
        s.totalDetections = 0 ∧ s.completedDetections = 0 ∧ s.failedDetections = 0 ∧
          s.processingDetections = 0)) ∧
    ((∀ d ∈ w.detections, d.detectionType ∈ detectionTypes) →
      (∃ s, (statsSummaryHandler env ctx w).response.body.summaryStats = some s ∧
        s.faceDetections + s.bodyDetections = s.totalDetections + bothCount w user._id) ∧
      (∃ s, (dashboardHandler env ctx w).response.body.dashboardStats = some s ∧
        s.faceDetections + s.bodyDetections = s.totalDetections + bothCount w user._id)) := by
  constructor
  · refine ⟨systemStatsOf w.detections, ?_, status_counts w.detections, ?_⟩
    · unfold adminStatsHandler
      simp only [hfind, haggregate, hactivity, groupAll_getD_system]
      rfl
    · intro hempty
      rw [hempty]
      exact ⟨rfl, rfl, rfl, rfl⟩
  · intro hkinds
    have howned : ∀ d ∈ w.detections.filter (fun d => decide (d.user = user._id)),
        d.detectionType ∈ detectionTypes :=
      fun d hd => hkinds d (List.mem_of_mem_filter hd)
    constructor
    · refine ⟨summaryStatsOf (w.detections.filter (fun d => decide (d.user = user._id))), ?_,
        kind_counts _ howned⟩
      unfold statsSummaryHandler
      simp only [huser, haggregate, groupAll_getD_summary]
      rfl
    · refine ⟨dashboardStatsOf (w.detections.filter (fun d => decide (d.user = user._id))), ?_,
        kind_counts _ howned⟩
      unfold dashboardHandler
      simp only [huser, hfind, haggregate, hactivity, groupAll_getD_dashboard]
      rfl

/-- Witness of C29: the store with one completed record of type `face`. -/
theorem stats_identities_witness :
    (∃ s, (adminStatsHandler {} firstPageCtx populatedWorld).response.body.systemStats =
        some s ∧
      s.totalDetections =
        s.completedDetections + s.failedDetections + s.processingDetections ∧
      (populatedWorld.detections = [] →
        s.totalDetections = 0 ∧ s.completedDetections = 0 ∧ s.failedDetections = 0 ∧
          s.processingDetections = 0)) ∧
    (∃ s, (statsSummaryHandler {} firstPageCtx populatedWorld).response.body.summaryStats =
        some s ∧
      s.faceDetections + s.bodyDetections =
        s.totalDetections + bothCount populatedWorld (selectWithoutPassword sampleUser)._id) :=
  ⟨(stats_identities {} firstPageCtx populatedWorld (selectWithoutPassword sampleUser) [] rfl rfl
      rfl rfl).1,
    ((stats_identities {} firstPageCtx populatedWorld (selectWithoutPassword sampleUser) [] rfl
      rfl rfl rfl).2 (by decide)).1⟩

/-! ## Profile updates keep emails unique -/

theorem named_id (name : String) (user : User) :
    (if name = "" then user else { user with name := name })._id = user._id := by
  split <;> rfl

theorem named_email (name : String) (user : User) :
    (if name = "" then user else { user with name := name }).email = user.email := by
  split <;> rfl

theorem replaceUser_emails (w : World) (user updated : User)
    (hfind : findUser w updated._id = some user)
    (hemail : updated.email = user.email ∨ findUserByEmail w updated.email = none) :
    ∀ u' ∈ replaceUser updated w.users, ∃ u ∈ w.users, u._id = u'._id ∧
      (u'.email = u.email ∨ findUserByEmail w u'.email = none) := by
  intro u' hu'
  unfold replaceUser at hu'
  obtain ⟨x, hx, hxu⟩ := List.mem_map.mp hu'
  by_cases hid : x._id = updated._id
  · rw [if_pos hid] at hxu
    subst hxu
    exact ⟨user, List.mem_of_find?_eq_some hfind, findUser_id w _ user hfind, hemail⟩
  · rw [if_neg hid] at hxu
    subst hxu
    exact ⟨x, hx, rfl, Or.inl rfl⟩

/-- Every user record after `PUT /user/profile` has the email it had, or one
that no user held. -/
theorem putProfile_saved (env : StoreEnv) (ctx : Ctx) (w : World) :
    ∀ u' ∈ (putProfileHandler env ctx w).world.users, ∃ u ∈ w.users, u._id = u'._id ∧
      (u'.email = u.email ∨ findUserByEmail w u'.email = none) := by
  have hsame : ∀ u' ∈ w.users, ∃ u ∈ w.users, u._id = u'._id ∧
      (u'.email = u.email ∨ findUserByEmail w u'.email = none) :=
    fun u' h => ⟨u', h, rfl, Or.inl rfl⟩
  unfold putProfileHandler
  dsimp only
  split
  · exact hsame
  · split
    · rename_i requester _ _
      split
      · exact hsame
      · rename_i user huser
        have hid := findUser_id w _ user huser
        split
        · split
          · exact hsame
          · split
            · exact hsame
            · rename_i hnone
              split
              · exact hsame
              · apply replaceUser_emails w user
                · show findUser w (if _ then user else _)._id = some user
                  rw [named_id, hid]
                  exact huser
                · exact Or.inr hnone
        · split
          · exact hsame
          · apply replaceUser_emails w user
            · rw [named_id, hid]
              exact huser
            · exact Or.inl (named_email _ user)
    · exact hsame

/-- A profile update whose email is held by a user and is not the requester's. -/
theorem putProfile_held (env : StoreEnv) (ctx : Ctx) (w : World) (requester user holder : User)
    (email : String) (huser : ctx.user = some requester)
    (hstored : findUser w requester._id = some user)
    (hemail : profileEmail env ctx.request = some email) (hne : email ≠ "")
    (hdiff : email ≠ user.email) (hheld : findUserByEmail w email = some holder) :
    (putProfileHandler env ctx w).world = w ∧
      (putProfileHandler env ctx w).trace = [] ∧
      (profileValidationErrors env ctx.request = [] → env.find = none →
        env.findEmail = none →
        (putProfileHandler env ctx w).response = badRequest "Email already in use") := by
  unfold putProfileHandler
  dsimp only
  split
  · refine ⟨rfl, rfl, ?_⟩
    intro h
    rename_i heq
    rw [h] at heq
    cases heq
  · rw [huser]
    cases hfind : env.find with
    | some e => exact ⟨rfl, rfl, fun _ h => by cases h⟩
    | none =>
      dsimp only
      rw [hstored]
      dsimp only
      rw [hemail]
      simp only [Option.getD_some]
      rw [if_pos ⟨hne, hdiff⟩]
      cases hfe : env.findEmail with
      | some e => exact ⟨rfl, rfl, fun _ _ h => by cases h⟩
      | none =>
        dsimp only
        rw [hheld]
        exact ⟨rfl, rfl, fun _ _ _ => rfl⟩


/-- C21: a request to `PUT /user/profile` whose email, as the handler reads it,
is not the requester's current email and is held by an existing user changes no
record, and once its validation passes and its queries succeed it is answered
400 `Email already in use`; whatever the request, every user record the handler
leaves has the email it had before or an email no user held. -/
theorem profile_email_unique (cenv : ChainEnv) (env : StoreEnv) (req : Request) (w : World)
    (requester holder : User) (email : String)
    (hauth : auth cenv.auth w req.authorization = AuthResult.next requester)
    (hemail : profileEmail env req = some email) (hne : email ≠ "")
    (hdiff : email ≠ requester.email) (hheld : findUserByEmail w email = some holder) :
    (putProfileRoute cenv env req w).world = w ∧
    (∀ id, Event.userSaved id ∉ (putProfileRoute cenv env req w).trace) ∧
    (profileValidationErrors env req = [] → env.find = none → env.findEmail = none →
      (putProfileRoute cenv env req w).response = badRequest "Email already in use") ∧
    (∀ ctx : Ctx, ∀ u' ∈ (putProfileHandler env ctx w).world.users,
      ∃ u ∈ w.users, u._id = u'._id ∧
        (u'.email = u.email ∨ findUserByEmail w u'.email = none)) := by
  obtain ⟨u0, hu0, hsel⟩ := auth_next_stored cenv.auth w req.authorization requester hauth
  have hdiff0 : email ≠ u0.email := by
    rw [hsel] at hdiff
    exact hdiff
  obtain ⟨hworld, htrace, hresponse⟩ :=
    putProfile_held env { request := req, user := some requester } w requester u0 holder email
      rfl hu0 hemail hne hdiff0 hheld
  unfold putProfileRoute
  rw [runRoute_validated cenv Endpoint.userPutProfile (putProfileHandler env) req w requester
    rfl hauth]
  refine ⟨hworld, ?_, hresponse, fun ctx => putProfile_saved env ctx w⟩
  intro id hmem
  dsimp only at hmem
  rw [htrace] at hmem
  simp at hmem

/-- Witness of C21: the sample user asks for the email of the administrator. -/
theorem profile_email_unique_witness :
    (putProfileRoute adminChainEnv {}
        { authorization := some "Bearer good", json := [("email", Json.str "root@example.com")] }
        populatedWorld).world = populatedWorld ∧
      (putProfileRoute adminChainEnv {}
        { authorization := some "Bearer good", json := [("email", Json.str "root@example.com")] }
        populatedWorld).response = badRequest "Email already in use" :=
  ⟨(profile_email_unique adminChainEnv {}
      { authorization := some "Bearer good", json := [("email", Json.str "root@example.com")] }
      populatedWorld (selectWithoutPassword sampleUser) sampleAdmin "root@example.com" rfl rfl
      (by decide) (by decide) rfl).1,
    (profile_email_unique adminChainEnv {}
      { authorization := some "Bearer good", json := [("email", Json.str "root@example.com")] }
      populatedWorld (selectWithoutPassword sampleUser) sampleAdmin "root@example.com" rfl rfl
      (by decide) (by decide) rfl).2.2.1 rfl rfl rfl⟩

/-! ## The new password at its failing input -/

/-- C22, the code at the failing input: the new password `abc`, line break,
`DEF1` has 8 characters, a lowercase letter, an uppercase letter and a digit,
yet the pattern rejects it, because its `.` stops at the line break: the request
is answered 400 with the message that asks for those three kinds of character
and the stored password stays; without the line break the same characters are
accepted and the password is changed. -/
theorem password_line_break_rejected :
    6 ≤ "abc\nDEF1".length ∧
      "abc\nDEF1".data.any (fun c => decide (97 ≤ c.toNat ∧ c.toNat ≤ 122)) = true ∧
      "abc\nDEF1".data.any (fun c => decide (65 ≤ c.toNat ∧ c.toNat ≤ 90)) = true ∧
      "abc\nDEF1".data.any (fun c => decide (48 ≤ c.toNat ∧ c.toNat ≤ 57)) = true ∧
      (changePasswordRoute adminChainEnv sampleStoreEnv lineBreakPasswordRequest
        populatedWorld).response =
        { status := 400,
          body := Body.validation "Validation failed"
            ["New password must contain at least one uppercase letter, one lowercase letter, and one number"] } ∧
      (changePasswordRoute adminChainEnv sampleStoreEnv lineBreakPasswordRequest
        populatedWorld).world = populatedWorld ∧
      newPasswordErrors "abcDEF1" = [] ∧
      (changePasswordRoute adminChainEnv sampleStoreEnv plainPasswordRequest
        populatedWorld).response =
        { status := 200, body := Body.message "Password changed successfully" } ∧
      (findUser (changePasswordRoute adminChainEnv sampleStoreEnv plainPasswordRequest
        populatedWorld).world 5).map (fun u => u.password) = some (some "abcDEF1") :=
  ⟨by decide, by decide, by decide, by decide, rfl, rfl, rfl, rfl, rfl⟩

/-! ## The upload path: the first save -/

/-- The record built by the upload handler has no `results`, so the schema
rejects its save, whatever the store does. -/
theorem save_newDetection (fault : Option JsError) (now : Nat) (w0 w : World) (user : User)
    (file : UploadedFile) (kind : String) :
    ∃ e, Detection.save fault now w0 (newDetection w user file kind) = Except.error e := by
  unfold Detection.save
  have hfailures : validationFailures (newDetection w user file kind) ≠ [] := by
    unfold validationFailures
    have hresults : (newDetection w user file kind).results = none := rfl
    rw [hresults]
    simp
  split
  · exact ⟨_, rfl⟩
  · rename_i hnone
    exact absurd hnone hfailures

/-- No run of the upload handler changes the stores or records an event. -/
theorem uploadHandler_unsaved (env : UploadEnv) (ctx : Ctx) (w : World) :
    (uploadHandler env ctx w).world = w ∧ (uploadHandler env ctx w).trace = [] := by
  unfold uploadHandler
  cases uploadValidationErrors ctx.request with
  | cons e es => exact ⟨rfl, rfl⟩
  | nil =>
    cases ctx.file with
    | none => exact ⟨rfl, rfl⟩
    | some file =>
      cases ctx.user with
      | none => exact ⟨rfl, rfl⟩
      | some user =>
        cases ctx.request.fields.lookup "detectionType" with
        | none => exact ⟨rfl, rfl⟩
        | some kind =>
          obtain ⟨e, he⟩ := save_newDetection env.saveCreated env.now w w user file kind
          dsimp only
          rw [he]
          exact ⟨rfl, rfl⟩

/-- An upload with a file and a valid kind is answered by the outer `catch`. -/
theorem uploadHandler_serverError (env : UploadEnv) (req : Request) (user : User)
    (file : UploadedFile) (w : World) (kind : String)
    (hkind : req.fields.lookup "detectionType" = some kind) (hvalid : kind ∈ detectionTypes) :
    uploadHandler env { request := req, user := some user, file := some file } w =
      { response := uploadServerError, world := w, trace := [] } := by
  obtain ⟨e, he⟩ := save_newDetection env.saveCreated env.now w w user file kind
  unfold uploadHandler
  simp only [uploadValidationErrors_valid req kind hkind hvalid, hkind, he]

/-- No run of the upload route stores or changes a record or a user, calls the
AI service or saves a record. -/
theorem uploadRoute_unsaved (cenv : ChainEnv) (env : UploadEnv) (req : Request) (w : World) :
    (uploadRoute cenv env req w).world.detections = w.detections ∧
      (uploadRoute cenv env req w).world.users = w.users ∧
      Event.aiCalled ∉ (uploadRoute cenv env req w).trace ∧
      ∀ id status, Event.saved id status ∉ (uploadRoute cenv env req w).trace := by
  rw [uploadRoute_eq]
  cases auth cenv.auth w req.authorization with
  | respond r => simp
  | next u =>
    cases cenv.multer with
    | error e => simp
    | ok f =>
      cases f with
      | none =>
        obtain ⟨hw, ht⟩ := uploadHandler_unsaved env { request := req, user := some u } w
        simp [hw, ht]
      | some f =>
        obtain ⟨hw, ht⟩ := uploadHandler_unsaved env
          { request := req, user := some u, file := some f } { w with files := f.path :: w.files }
        simp [hw, ht]

/-! ## No handler rewrites a record -/

theorem persistsNoRecord_same (w : World) (out : Outcome) (hw : out.world = w)
    (ht : out.trace = []) : persistsNoRecord w out := by
  unfold persistsNoRecord
  rw [hw, ht]
  exact ⟨fun _ h => h, fun _ _ h => by cases h⟩

theorem unlinkTrace_saved (owned : List Detection) (files : List String) (id : Nat)
    (status : Status) : Event.saved id status ∉ unlinkTrace owned files := by
  induction owned generalizing files with
  | nil => simp [unlinkTrace]
  | cons d ds ih =>
    unfold unlinkTrace
    split
    · simp only [List.mem_cons, not_or]
      exact ⟨fun h => (by cases h), ih _⟩
    · exact ih _

theorem deleteFound_quiet (env : StoreEnv) (id counted : Nat) (r : Detection) (w : World) :
    persistsNoRecord w (deleteFound env id counted r w) := by
  unfold deleteFound
  dsimp only
  split
  · exact persistsNoRecord_same w _ rfl rfl
  · split
    · unfold persistsNoRecord
      refine ⟨fun _ h => h, fun _ _ h => ?_⟩
      dsimp only at h
      split at h <;> simp at h
    · split
      · unfold persistsNoRecord
        refine ⟨fun _ h => List.mem_of_mem_filter h, fun _ _ h => ?_⟩
        dsimp only at h
        simp only [List.mem_append, List.mem_singleton] at h
        rcases h with h | h
        · split at h <;> simp at h
        · cases h
      · unfold persistsNoRecord
        refine ⟨fun _ h => List.mem_of_mem_filter h, fun _ _ h => ?_⟩
        dsimp only at h
        simp only [List.mem_append, List.mem_singleton, List.mem_cons, List.not_mem_nil,
          or_false] at h
        rcases h with (h | h) | h
        · split at h <;> simp at h
        · cases h
        · cases h

theorem historyHandler_quiet (env : StoreEnv) (ctx : Ctx) (w : World) :
    persistsNoRecord w (historyHandler env ctx w) := by
  apply persistsNoRecord_same <;> unfold historyHandler <;>
    repeat' (first | split | dsimp only)

theorem detectionGetHandler_quiet (env : StoreEnv) (ctx : Ctx) (w : World) :
    persistsNoRecord w (detectionGetHandler env ctx w) := by
  apply persistsNoRecord_same <;> unfold detectionGetHandler <;>
    repeat' (first | split | dsimp only)

theorem statsSummaryHandler_quiet (env : StoreEnv) (ctx : Ctx) (w : World) :
    persistsNoRecord w (statsSummaryHandler env ctx w) := by
  apply persistsNoRecord_same <;> unfold statsSummaryHandler <;>
    repeat' (first | split | dsimp only)

theorem dashboardHandler_quiet (env : StoreEnv) (ctx : Ctx) (w : World) :
    persistsNoRecord w (dashboardHandler env ctx w) := by
  apply persistsNoRecord_same <;> unfold dashboardHandler <;>
    repeat' (first | split | dsimp only)

theorem adminUsersHandler_quiet (env : StoreEnv) (ctx : Ctx) (w : World) :
    persistsNoRecord w (adminUsersHandler env ctx w) := by
  apply persistsNoRecord_same <;> unfold adminUsersHandler <;>
    repeat' (first | split | dsimp only)

theorem adminDetectionsHandler_quiet (env : StoreEnv) (ctx : Ctx) (w : World) :
    persistsNoRecord w (adminDetectionsHandler env ctx w) := by
  apply persistsNoRecord_same <;> unfold adminDetectionsHandler <;>
    repeat' (first | split | dsimp only)

theorem adminDetectionGetHandler_quiet (env : StoreEnv) (ctx : Ctx) (w : World) :
    persistsNoRecord w (adminDetectionGetHandler env ctx w) := by
  apply persistsNoRecord_same <;> unfold adminDetectionGetHandler <;>
    repeat' (first | split | dsimp only)

theorem adminStatsHandler_quiet (env : StoreEnv) (ctx : Ctx) (w : World) :
    persistsNoRecord w (adminStatsHandler env ctx w) := by
  apply persistsNoRecord_same <;> unfold adminStatsHandler <;>
    repeat' (first | split | dsimp only)

theorem realtimeHandler_quiet (env : RealtimeEnv) (ctx : Ctx) (w : World) :
    persistsNoRecord w (realtimeHandler env ctx w) := by
  unfold persistsNoRecord
  rw [realtimeHandler_world]
  refine ⟨fun _ h => h, fun id status h => ?_⟩
  unfold realtimeHandler at h
  dsimp only at h
  repeat' split at h
  all_goals simp at h

theorem detectionDeleteHandler_quiet (env : StoreEnv) (ctx : Ctx) (w : World) :
    persistsNoRecord w (detectionDeleteHandler env ctx w) := by
  unfold detectionDeleteHandler
  split
  · split
    · exact persistsNoRecord_same w _ rfl rfl
    · exact deleteFound_quiet _ _ _ _ _
  · exact persistsNoRecord_same w _ rfl rfl

theorem adminDetectionDeleteHandler_quiet (env : StoreEnv) (ctx : Ctx) (w : World) :
    persistsNoRecord w (adminDetectionDeleteHandler env ctx w) := by
  unfold adminDetectionDeleteHandler
  split
  · split
    · exact persistsNoRecord_same w _ rfl rfl
    · exact deleteFound_quiet _ _ _ _ _
  · exact persistsNoRecord_same w _ rfl rfl


theorem putProfileHandler_quiet (env : StoreEnv) (ctx : Ctx) (w : World) :
    persistsNoRecord w (putProfileHandler env ctx w) := by
  constructor
  · intro d hd
    unfold putProfileHandler at hd
    repeat' (first | split at hd | dsimp only at hd)
    all_goals exact hd
  · intro id status h
    unfold putProfileHandler at h
    repeat' (first | split at h | dsimp only at h)
    all_goals simp at h

theorem changePasswordHandler_quiet (env : StoreEnv) (ctx : Ctx) (w : World) :
    persistsNoRecord w (changePasswordHandler env ctx w) := by
  constructor
  · intro d hd
    unfold changePasswordHandler at hd
    repeat' (first | split at hd | dsimp only at hd)
    all_goals exact hd
  · intro id status h
    unfold changePasswordHandler at h
    repeat' (first | split at h | dsimp only at h)
    all_goals simp at h

theorem adminPutUserHandler_quiet (env : StoreEnv) (ctx : Ctx) (w : World) :
    persistsNoRecord w (adminPutUserHandler env ctx w) := by
  constructor
  · intro d hd
    unfold adminPutUserHandler at hd
    repeat' (first | split at hd | dsimp only at hd)
    all_goals exact hd
  · intro id status h
    unfold adminPutUserHandler at h
    repeat' (first | split at h | dsimp only at h)
    all_goals simp at h

theorem adminDeleteUserHandler_quiet (env : StoreEnv) (ctx : Ctx) (w : World) :
    persistsNoRecord w (adminDeleteUserHandler env ctx w) := by
  constructor
  · intro d hd
    unfold adminDeleteUserHandler at hd
    repeat' (first | split at hd | dsimp only at hd)
    all_goals first | exact hd | exact List.mem_of_mem_filter hd
  · intro id status h
    unfold adminDeleteUserHandler at h
    repeat' (first | split at h | dsimp only at h)
    all_goals simp at h

theorem userDeleteAccountHandler_quiet (env : StoreEnv) (ctx : Ctx) (w : World) :
    persistsNoRecord w (userDeleteAccountHandler env ctx w) := by
  constructor
  · intro d hd
    unfold userDeleteAccountHandler at hd
    repeat' (first | split at hd | dsimp only at hd)
    all_goals first | exact hd | exact List.mem_of_mem_filter hd
  · intro id status h
    unfold userDeleteAccountHandler at h
    repeat' (first | split at h | dsimp only at h)
    all_goals simp [unlinkTrace_saved] at h

theorem uploadHandler_quiet (env : UploadEnv) (ctx : Ctx) (w : World) :
    persistsNoRecord w (uploadHandler env ctx w) :=
  persistsNoRecord_same w _ (uploadHandler_unsaved env ctx w).1 (uploadHandler_unsaved env ctx w).2

/-- C5: the record the upload handler builds starts at `processing`, and no run
of a route handler persists a record again: in every run of the upload route no
save of a record succeeds, whatever the AI service answers and also when the
counter increment throws, and after every run of every handler each stored
record is a record that was stored before, as it was, so a record stored as
`completed` or `failed` keeps that status for as long as it is stored. -/
theorem status_terminal (cenv : ChainEnv) (uenv : UploadEnv) (renv : RealtimeEnv)
    (env : StoreEnv) (req : Request) (ctx : Ctx) (w : World) :
    (∀ user file kind, (newDetection w user file kind).status = Status.processing) ∧
    (∀ id status, Event.saved id status ∉ (uploadRoute cenv uenv req w).trace) ∧
    (uploadRoute cenv uenv req w).world.detections = w.detections ∧
    (∀ handler ∈ routeHandlers uenv renv env, persistsNoRecord w (handler ctx w)) ∧
    (∀ handler ∈ routeHandlers uenv renv env, ∀ d ∈ (handler ctx w).world.detections,
      ∃ d0 ∈ w.detections, d0._id = d._id ∧ d0.status = d.status) := by
  have hall : ∀ handler ∈ routeHandlers uenv renv env, persistsNoRecord w (handler ctx w) := by
    intro handler hmem
    simp only [routeHandlers, List.mem_cons, List.mem_singleton, List.not_mem_nil,
      or_false] at hmem
    rcases hmem with h | h | h | h | h | h | h | h | h | h | h | h | h | h | h | h | h <;>
      subst h
    · exact uploadHandler_quiet _ _ _
    · exact realtimeHandler_quiet _ _ _
    · exact historyHandler_quiet _ _ _
    · exact detectionGetHandler_quiet _ _ _
    · exact detectionDeleteHandler_quiet _ _ _
    · exact statsSummaryHandler_quiet _ _ _
    · exact dashboardHandler_quiet _ _ _
    · exact putProfileHandler_quiet _ _ _
    · exact changePasswordHandler_quiet _ _ _
    · exact userDeleteAccountHandler_quiet _ _ _
    · exact adminUsersHandler_quiet _ _ _
    · exact adminPutUserHandler_quiet _ _ _
    · exact adminDeleteUserHandler_quiet _ _ _
    · exact adminDetectionsHandler_quiet _ _ _
    · exact adminDetectionGetHandler_quiet _ _ _
    · exact adminDetectionDeleteHandler_quiet _ _ _
    · exact adminStatsHandler_quiet _ _ _
  refine ⟨fun _ _ _ => rfl, (uploadRoute_unsaved cenv uenv req w).2.2.2,
    (uploadRoute_unsaved cenv uenv req w).1, hall, ?_⟩
  intro handler hmem d hd
  exact ⟨d, (hall handler hmem).1 d hd, rfl, rfl⟩


/-! ## The upload path at its failing inputs -/

/-- C2, the code at the failing input: the sample user uploads `cat.png` with
kind `face`, and the AI service would answer with one face; the save of the
record, built without `results`, is rejected for the required path
`results.processingTime`, so the outer `catch` answers 500
`Server error during upload`: the AI service is never called, no record is
stored and the counter stays at 3. -/
theorem upload_rejected_before_ai :
    Detection.save none 100 { sampleWorld with files := ["uploads/cat.png"] }
        (newDetection { sampleWorld with files := ["uploads/cat.png"] }
          (selectWithoutPassword sampleUser) sampleFile "face") =
        Except.error (validationError
          ["results.processingTime: Path `results.processingTime` is required."]) ∧
      (uploadRoute sampleChainEnv sampleUploadEnv sampleUploadRequest sampleWorld).response =
        { status := 500, body := Body.message "Server error during upload" } ∧
      (uploadRoute sampleChainEnv sampleUploadEnv sampleUploadRequest sampleWorld).trace =
        [Event.authRan, Event.uploadRan, Event.handlerRan] ∧
      (uploadRoute sampleChainEnv sampleUploadEnv sampleUploadRequest sampleWorld).world.detections =
        [] ∧
      (findUser (uploadRoute sampleChainEnv sampleUploadEnv sampleUploadRequest sampleWorld).world
        5).map (fun u => u.detectionCount) = some 3 :=
  ⟨rfl, rfl, rfl, rfl, rfl⟩

/-- C3, the code at the failing input: the sample upload while the AI service
times out; the handler never gets as far as the call, so the block
`catch (aiError)` does not run: no record is stored, with status `failed` or
any other, and the response is the 500 `Server error during upload` of the outer
`catch`, which carries neither a record id nor a status. -/
theorem upload_failure_never_recorded :
    failingAiEnv.aiService = Except.error timeoutError ∧
      (uploadRoute sampleChainEnv failingAiEnv sampleUploadRequest sampleWorld).response =
        { status := 500, body := Body.message "Server error during upload" } ∧
      Event.aiCalled ∉
        (uploadRoute sampleChainEnv failingAiEnv sampleUploadRequest sampleWorld).trace ∧
      findDetection
        (uploadRoute sampleChainEnv failingAiEnv sampleUploadRequest sampleWorld).world 1 = none ∧
      (uploadRoute sampleChainEnv failingAiEnv sampleUploadRequest sampleWorld).world.detections =
        [] :=
  ⟨rfl, rfl, by decide, rfl, rfl⟩

/-- C26, the code at the failing input: the sample upload while the AI service
times out, then `DELETE /detection/1` by the same user; the upload stored no
record, so the deletion finds none, is answered 404 and the counter is 3 after
it as before the upload, not 2. -/
theorem failed_upload_leaves_nothing_to_delete :
    (findUser sampleWorld 5).map (fun u => u.detectionCount) = some 3 ∧
      (detectionDeleteHandler sampleStoreEnv
          { request := { params := [("id", "1")] }, user := some (selectWithoutPassword sampleUser) }
          (uploadRoute sampleChainEnv failingAiEnv sampleUploadRequest sampleWorld).world).response =
        notFound "Detection not found" ∧
      (findUser (detectionDeleteHandler sampleStoreEnv
          { request := { params := [("id", "1")] }, user := some (selectWithoutPassword sampleUser) }
          (uploadRoute sampleChainEnv failingAiEnv sampleUploadRequest sampleWorld).world).world
        5).map (fun u => u.detectionCount) = some 3 :=
  ⟨rfl, rfl, rfl⟩


/-! ## The top emotion -/

theorem lookup_of_mem (m : EmotionMap) (hkeys : (m.map Prod.fst).Nodup) (e : String × Double)
    (he : e ∈ m) : m.lookup e.1 = some e.2 := by
  induction m with
  | nil => cases he
  | cons head tail ih =>
    obtain ⟨k, v⟩ := head
    simp only [List.map_cons, List.nodup_cons] at hkeys
    rcases List.mem_cons.mp he with h | h
    · subst h
      simp [List.lookup]
    · have hne : e.1 ≠ k := by
        intro hk
        apply hkeys.1
        rw [← hk]
        exact List.mem_map_of_mem Prod.fst h
      have hbeq : (e.1 == k) = false := by simpa using hne
      simp only [List.lookup, hbeq]
      exact ih hkeys.2 h

theorem pickTop_mem (m : EmotionMap) (hkeys : (m.map Prod.fst).Nodup) (a b : String × Double)
    (ha : a ∈ m) (hb : b ∈ m) :
    pickTop m a b = if b.2.toRat < a.2.toRat then a else b := by
  unfold pickTop scoreGreater
  rw [lookup_of_mem m hkeys a ha, lookup_of_mem m hkeys b hb]
  by_cases h : b.2.toRat < a.2.toRat <;> simp [h]

/-- The reduction keeps the last of the entries with the greatest score. -/
theorem foldl_pickTop (m : EmotionMap) (hkeys : (m.map Prod.fst).Nodup)
    (rest seen : EmotionMap) (acc : String × Double)
    (hsplit : ∃ pre post, seen = pre ++ acc :: post ∧ ∀ e ∈ post, e.2.toRat < acc.2.toRat)
    (hmax : ∀ e ∈ seen, e.2.toRat ≤ acc.2.toRat) (hmem : ∀ e ∈ seen ++ rest, e ∈ m) :
    (∃ pre post, seen ++ rest = pre ++ rest.foldl (pickTop m) acc :: post ∧
      ∀ e ∈ post, e.2.toRat < (rest.foldl (pickTop m) acc).2.toRat) ∧
    ∀ e ∈ seen ++ rest, e.2.toRat ≤ (rest.foldl (pickTop m) acc).2.toRat := by
  induction rest generalizing seen acc with
  | nil =>
    simp only [List.append_nil, List.foldl_nil]
    exact ⟨hsplit, hmax⟩
  | cons b rest ih =>
    obtain ⟨pre, post, hseen, hpost⟩ := hsplit
    have hacc : acc ∈ m := by
      apply hmem
      rw [hseen]
      simp
    have hb : b ∈ m := by
      apply hmem
      simp
    have hassoc : seen ++ b :: rest = (seen ++ [b]) ++ rest := by simp
    rw [List.foldl_cons, pickTop_mem m hkeys acc b hacc hb, hassoc]
    by_cases hlt : b.2.toRat < acc.2.toRat
    · rw [if_pos hlt]
      apply ih (seen ++ [b]) acc
      · refine ⟨pre, post ++ [b], ?_, ?_⟩
        · rw [hseen]
          simp
        · intro e he
          rcases List.mem_append.mp he with h | h
          · exact hpost e h
          · rw [List.mem_singleton.mp h]
            exact hlt
      · intro e he
        rcases List.mem_append.mp he with h | h
        · exact hmax e h
        · rw [List.mem_singleton.mp h]
          exact le_of_lt hlt
      · rw [← hassoc]
        exact hmem
    · rw [if_neg hlt]
      have hle : acc.2.toRat ≤ b.2.toRat := not_lt.mp hlt
      apply ih (seen ++ [b]) b
      · exact ⟨seen, [], rfl, fun e he => by cases he⟩
      · intro e he
        rcases List.mem_append.mp he with h | h
        · exact le_trans (hmax e h) hle
        · rw [List.mem_singleton.mp h]
      · rw [← hassoc]
        exact hmem

theorem tenths_near (x : ℚ) (hx : 0 ≤ x) : |(tenths x : ℚ) / 10 - x| ≤ 1 / 20 := by
  unfold tenths
  have hfloor : (0 : ℤ) ≤ ⌊x * 10 + 1 / 2⌋ := Int.floor_nonneg.mpr (by linarith)
  have hcast : ((⌊x * 10 + 1 / 2⌋.toNat : ℕ) : ℚ) = ((⌊x * 10 + 1 / 2⌋ : ℤ) : ℚ) := by
    have h := Int.toNat_of_nonneg hfloor
    exact_mod_cast congrArg (fun z : ℤ => (z : ℚ)) h
  rw [hcast]
  have h1 := Int.floor_le (x * 10 + 1 / 2)
  have h2 := Int.lt_floor_add_one (x * 10 + 1 / 2)
  rw [abs_le]
  constructor <;> linarith

theorem toFixed1_text (d : Double) (text : String) (h : toFixed1 d = some text) :
    text = (if d.mantissa < 0 then "-" else "") ++ toString (tenths |d.toRat| / 10) ++ "." ++
        toString (tenths |d.toRat| % 10) ∧
      abs ((tenths |d.toRat| : ℚ) / 10 - abs d.toRat) ≤ 1 / 20 := by
  unfold toFixed1 at h
  split at h
  · cases h
  · simp only [Option.some.injEq] at h
    exact ⟨h.symm, tenths_near _ (abs_nonneg _)⟩

theorem mul_sample : Double.mul { mantissa := 65, exponent := -7 } hundred =
    JsFloat.finite { mantissa := 6500, exponent := -7 } := by
  rfl

theorem toFixed1_sample : toFixed1 { mantissa := 6500, exponent := -7 } = some "50.8" := by
  have hvalue : |Double.toRat { mantissa := 6500, exponent := -7 }| = 1625 / 32 := by
    unfold Double.toRat
    norm_num
  have htenths : tenths (1625 / 32) = 508 := by
    unfold tenths
    have hfloor : ⌊(1625 : ℚ) / 32 * 10 + 1 / 2⌋ = 508 := by
      rw [Int.floor_eq_iff]
      norm_num
    rw [hfloor]
    rfl
  unfold toFixed1
  rw [hvalue, htenths, if_neg (by norm_num)]
  rfl

/-- C28, the claim as stated fails: for the single score 0.5078125
(`65 * 2 ^ -7`) the product with 100 is 50.78125, and the confidence returned is
the text `50.8`, not that number. -/
theorem top_emotion_confidence_text :
    getTopEmotion (some [("happy", { mantissa := 65, exponent := -7 })]) =
        Except.ok { emotion := "happy", confidence := some (Confidence.text "50.8") } ∧
      Double.toRat { mantissa := 65, exponent := -7 } * 100 = 1625 / 32 ∧
      (1625 : ℚ) / 32 ≠ 508 / 10 := by
  refine ⟨?_, ?_, by norm_num⟩
  · have hconfidence : confidenceOf { mantissa := 65, exponent := -7 } =
        some (Confidence.text "50.8") := by
      unfold confidenceOf
      rw [mul_sample]
      simp only [toFixed1_sample, Option.map_some']
    unfold getTopEmotion
    simp only [List.foldl_nil, hconfidence]
  · unfold Double.toRat
    norm_num

/-- C28 as amended: for a non-empty map `getTopEmotion` returns the last of the
entries with the greatest score (no score is greater, and every later score is
smaller), with the confidence `(score * 100).toFixed(1)`: the product as the
engine computes it in double precision, written as text with one decimal, which
is within 0.05 of that product; for a null or undefined map it returns `neutral`
with the number 0. -/
theorem getTopEmotion_top (first : String × Double) (rest : EmotionMap)
    (hkeys : ((first :: rest).map Prod.fst).Nodup) :
    getTopEmotion none =
      Except.ok { emotion := "neutral", confidence := some (Confidence.number 0) } ∧
    ∃ top pre post, first :: rest = pre ++ top :: post ∧
      (∀ e ∈ pre, e.2.toRat ≤ top.2.toRat) ∧ (∀ e ∈ post, e.2.toRat < top.2.toRat) ∧
      getTopEmotion (some (first :: rest)) =
        Except.ok { emotion := top.1, confidence := confidenceOf top.2 } ∧
      (∀ product text, Double.mul top.2 hundred = JsFloat.finite product →
        toFixed1 product = some text →
        confidenceOf top.2 = some (Confidence.text text) ∧
        text = (if product.mantissa < 0 then "-" else "") ++
          toString (tenths |product.toRat| / 10) ++ "." ++
          toString (tenths |product.toRat| % 10) ∧
        abs ((tenths |product.toRat| : ℚ) / 10 - abs product.toRat) ≤ 1 / 20) := by
  refine ⟨rfl, ?_⟩
  obtain ⟨⟨pre, post, hsplit, hpost⟩, hmax⟩ :=
    foldl_pickTop (first :: rest) hkeys rest [first] first
      ⟨[], [], rfl, fun e he => by cases he⟩
      (fun e he => by rw [List.mem_singleton.mp he])
      (fun e he => he)
  refine ⟨rest.foldl (pickTop (first :: rest)) first, pre, post, hsplit, ?_, hpost, rfl, ?_⟩
  · intro e he
    apply hmax
    rw [hsplit]
    exact List.mem_append_left _ he
  · intro product text hmul htext
    refine ⟨?_, toFixed1_text product text htext⟩
    unfold confidenceOf
    rw [hmul]
    simp only [htext, Option.map_some']

/-- Witness of the amended C28: two emotions with the same score 0.5, the later
one is returned. -/
theorem getTopEmotion_top_witness :
    ∃ top pre post,
      [("happy", ({ mantissa := 1, exponent := -1 } : Double)),
        ("sad", ({ mantissa := 1, exponent := -1 } : Double))] = pre ++ top :: post ∧
      (∀ e ∈ pre, e.2.toRat ≤ top.2.toRat) ∧ (∀ e ∈ post, e.2.toRat < top.2.toRat) ∧
      getTopEmotion (some [("happy", { mantissa := 1, exponent := -1 }),
          ("sad", { mantissa := 1, exponent := -1 })]) =
        Except.ok { emotion := top.1, confidence := confidenceOf top.2 } ∧
      (∀ product text, Double.mul top.2 hundred = JsFloat.finite product →
        toFixed1 product = some text →
        confidenceOf top.2 = some (Confidence.text text) ∧
        text = (if product.mantissa < 0 then "-" else "") ++
          toString (tenths |product.toRat| / 10) ++ "." ++
          toString (tenths |product.toRat| % 10) ∧
        abs ((tenths |product.toRat| : ℚ) / 10 - abs product.toRat) ≤ 1 / 20) :=
  (getTopEmotion_top ("happy", { mantissa := 1, exponent := -1 })
    [("sad", { mantissa := 1, exponent := -1 })] (by decide)).2

end ObjectDetection
